import Mathlib

/-!
# SurPass: the access event reconciliation engine

A shallow embedding of the check-in / check-out engine of `registroB.js`
(with `utils.js` and the column map of `constantes.js`) and the properties
proved about it.

Conventions of the embedding.

* JavaScript text is `String`; the text primitives (`trim`, `split`,
  `parseInt`, `padStart`, ...) are re-implemented on the list of characters so
  that they compute.
* A cell of a sheet holds text. That is what the engine itself writes (dates as
  `YYYY-MM-DD`, times as `HH:MM:SS`, durations as `H:MM:SS`); cells that the
  spreadsheet holds as numbers or as date objects are outside the model.
* A value read from a JavaScript array is an `Option String`: `none` is
  `undefined` (an index past the end of the array).
* Numbers are exact integers.
* The clock is read once per request.
* Writes to the log sheets are not part of the state, and neither are fonts,
  colours, column widths and conditional formats.
* A plain JavaScript object used as a map is an `Objeto`, the list of its own
  properties in insertion order: an assignment to the name `__proto__` adds no
  property, and a name that every plain object inherits (`nombresHeredados`)
  reads as a value although it is no property of the map.
* The column map of the ledger in force during a request, the value of
  `getColumnasRegistro()`, is the `cols` of the host; `inicializarEstructurasColumnas`
  is the map that the code detects from the header row.
* The routine `crearDatosPrueba`, which the structure check calls for a
  personnel store without a person, is not among the sources; it is a field of
  the engine state.
-/

namespace SurPass

/-! ## JavaScript text primitives -/

/-- White space in the sense of `String.prototype.trim` and `parseInt`
(ECMAScript `WhiteSpace` and `LineTerminator`). -/
def esEspacio (c : Char) : Bool :=
  c.toNat = 0x09 || c.toNat = 0x0A || c.toNat = 0x0B || c.toNat = 0x0C || c.toNat = 0x0D ||
  c.toNat = 0x20 || c.toNat = 0xA0 || c.toNat = 0x1680 ||
  (0x2000 ≤ c.toNat && c.toNat ≤ 0x200A) ||
  c.toNat = 0x2028 || c.toNat = 0x2029 || c.toNat = 0x202F || c.toNat = 0x205F ||
  c.toNat = 0x3000 || c.toNat = 0xFEFF

/-- The characters of a text with leading and trailing white space removed. -/
def recortar (l : List Char) : List Char :=
  (((l.dropWhile esEspacio).reverse).dropWhile esEspacio).reverse

/-- The method `String.prototype.trim`. -/
def trim (s : String) : String := ⟨recortar s.data⟩

/-- The method `String.prototype.split` with a one-character separator. -/
def partir (sep : Char) : List Char → List (List Char)
  | [] => [[]]
  | c :: cs =>
    if c = sep then [] :: partir sep cs
    else
      match partir sep cs with
      | [] => [[c]]
      | p :: ps => (c :: p) :: ps

/-- The method `String.prototype.includes` with a one-character argument. -/
def incluyeCaracter (s : String) (c : Char) : Bool := s.data.contains c

/-- The method `String.prototype.includes`. -/
def incluye (s sub : String) : Bool := decide (sub.data <:+: s.data)

/-- The class `\d` of a regular expression. -/
def esDigito (c : Char) : Bool := 48 ≤ c.toNat && c.toNat ≤ 57

/-- The value of a character as a digit of `parseInt` (radix up to 16). -/
def valorDigito (c : Char) : Option Nat :=
  if 48 ≤ c.toNat && c.toNat ≤ 57 then some (c.toNat - 48)
  else if 97 ≤ c.toNat && c.toNat ≤ 102 then some (c.toNat - 87)
  else if 65 ≤ c.toNat && c.toNat ≤ 70 then some (c.toNat - 55)
  else none

/-- The values of the longest prefix made of digits of the given radix. -/
def digitosPrefijo (base : Nat) : List Char → List Nat
  | [] => []
  | c :: cs =>
    match valorDigito c with
    | some d => if d < base then d :: digitosPrefijo base cs else []
    | none => []

/-- The number written by a list of digits, most significant first. -/
def valorDigitos (base : Nat) (ds : List Nat) : Nat :=
  ds.foldl (fun acc d => acc * base + d) 0

/-- The function `parseInt` without a radix argument, on the characters of its
argument: leading white space is skipped, a sign is read, `0x` selects radix
16, and the longest prefix of digits is the value; `none` is `NaN`. -/
def parseIntLista (l : List Char) : Option Int :=
  let l1 := l.dropWhile esEspacio
  let signo : Int × List Char :=
    match l1 with
    | '-' :: r => (-1, r)
    | '+' :: r => (1, r)
    | _ => (1, l1)
  let radix : Nat × List Char :=
    match signo.2 with
    | '0' :: 'x' :: r => (16, r)
    | '0' :: 'X' :: r => (16, r)
    | _ => (10, signo.2)
  let ds := digitosPrefijo radix.1 radix.2
  if ds.isEmpty then none else some (signo.1 * (valorDigitos radix.1 ds : Int))

/-- The expression `parseInt(partes[i]) || 0`: an absent part is `undefined`,
whose text has no digit, and `NaN` and `0` both give `0`. -/
def parseIntOCero (partes : List (List Char)) (i : Nat) : Int :=
  match partes.get? i with
  | none => 0
  | some p =>
    match parseIntLista p with
    | none => 0
    | some n => n

/-- The method `padStart(2, '0')`. -/
def padStart2 (s : String) : String :=
  if s.length < 2 then ⟨List.replicate (2 - s.length) '0' ++ s.data⟩ else s

/-- The text of a number, `String(n)`. -/
def textoDeEntero (n : Int) : String := toString n

/-! ## Times of day -/

/-- A value handed to the time functions: text, or a `Date` seen through
`getHours`, `getMinutes` and `getSeconds`. -/
inductive ValorHora where
  | texto (s : String)
  | fecha (horas minutos segundos : Nat)
  deriving DecidableEq, Repr

/-- Truthiness of a time value: the empty text is falsy, a `Date` is truthy. -/
def ValorHora.verdadero : ValorHora → Bool
  | .texto s => s ≠ ""
  | .fecha _ _ _ => true

/-- The hours, minutes and seconds that `calcularDuracionSimple` reads from one
argument: a text with a colon is split at the colons and each of the first
three parts goes through `parseInt(...) || 0`; a `Date` gives its fields;
anything else leaves the three at `0`. -/
def componentesHora : ValorHora → Int × Int × Int
  | .texto s =>
    if incluyeCaracter s ':' then
      let partes := partir ':' s.data
      (parseIntOCero partes 0, parseIntOCero partes 1, parseIntOCero partes 2)
    else (0, 0, 0)
  | .fecha h m s => (h, m, s)

/-- The text `H:MM:SS` built at the end of `calcularDuracionSimple` from a
difference in seconds: `Math.floor(d / 3600)`, `Math.floor((d % 3600) / 60)`
and `d % 60`, where `%` is the remainder of JavaScript (sign of the dividend). -/
def textoDuracion (diferencia : Int) : String :=
  let horas := diferencia / 3600
  let minutos := (Int.tmod diferencia 3600) / 60
  let segundos := Int.tmod diferencia 60
  textoDeEntero horas ++ ":" ++ padStart2 (textoDeEntero minutos) ++ ":" ++
    padStart2 (textoDeEntero segundos)

/-- The function `calcularDuracionSimple` of `registroB.js`. -/
def calcularDuracionSimple (horaEntrada horaSalida : ValorHora) : String :=
  if !horaEntrada.verdadero || !horaSalida.verdadero then "0:00:00"
  else
    let e := componentesHora horaEntrada
    let s := componentesHora horaSalida
    let totalSegundosEntrada := e.1 * 3600 + e.2.1 * 60 + e.2.2
    let totalSegundosSalida0 := s.1 * 3600 + s.2.1 * 60 + s.2.2
    let totalSegundosSalida :=
      if totalSegundosSalida0 < totalSegundosEntrada then totalSegundosSalida0 + 24 * 3600
      else totalSegundosSalida0
    textoDuracion (totalSegundosSalida - totalSegundosEntrada)

/-- The shape `^\d{1,2}:\d{2}$` (two parts) or `^\d{1,2}:\d{2}:\d{2}$` (three
parts) tested by `formatearHora`, on the parts between the colons. -/
def partesDeHora (partes : List (List Char)) : Bool :=
  match partes with
  | h :: resto =>
    (h.length = 1 || h.length = 2) && h.all esDigito &&
      resto.all (fun p => p.length = 2 && p.all esDigito)
  | [] => false

/-- The function `formatearHora` of `utils.js`. -/
def formatearHora : ValorHora → String
  | .fecha horas minutos segundos =>
    padStart2 (textoDeEntero horas) ++ ":" ++ padStart2 (textoDeEntero minutos) ++ ":" ++
      padStart2 (textoDeEntero segundos)
  | .texto hora =>
    if hora = "" then ""
    else
      let horaLimpia := trim hora
      match partir ':' horaLimpia.data with
      | [h, m, s] =>
        if partesDeHora [h, m, s] then padStart2 ⟨h⟩ ++ ":" ++ ⟨m⟩ ++ ":" ++ ⟨s⟩ else horaLimpia
      | [h, m] =>
        if partesDeHora [h, m] then padStart2 ⟨h⟩ ++ ":" ++ ⟨m⟩ ++ ":00" else horaLimpia
      | _ => horaLimpia

/-! ## Values read from arrays -/

/-- Truthiness of a value read from an array of cells: `undefined` and the
empty text are falsy. -/
def verdadero : Option String → Bool
  | none => false
  | some s => s ≠ ""

/-- The conversion `String(v)` of a value read from an array of cells. -/
def textoDe : Option String → String
  | none => "undefined"
  | some s => s

/-- The expression `v || alternativa` on a value read from an array of cells. -/
def oSiNo (v : Option String) (alternativa : String) : String :=
  match v with
  | none => alternativa
  | some s => if s = "" then alternativa else s

/-! ## Sheets -/

/-- A row of a sheet: its cells from column A on. -/
abbrev Fila := List String

/-- A sheet: its rows from row 1 (the header) to the last row that has content,
`getLastRow`. -/
abbrev Hoja := List Fila

/-- The spreadsheet: the sheet of each name, if there is one
(`getSheetByName`). -/
abbrev Libro := String → Option Hoja

/-- The name of the main ledger. -/
def SHEET_REGISTRO : String := "Registro"

/-- The name of the archive. -/
def SHEET_HISTORIAL : String := "Historial Archivados"

/-- The name of the personnel store. -/
def SHEET_BD : String := "Base de Datos"

/-- The spreadsheet with one sheet replaced or added. -/
def ponerHoja (libro : Libro) (nombre : String) (hoja : Hoja) : Libro :=
  fun n => if n = nombre then some hoja else libro n

/-- The method `getLastRow`. -/
def getLastRow (hoja : Hoja) : Nat := hoja.length

/-- The position (from 1) of the last cell of a row that has content, `0` when
the row has none. -/
def ultimaColumnaDeFila : Fila → Nat
  | [] => 0
  | c :: cs =>
    let r := ultimaColumnaDeFila cs
    if r = 0 then (if c = "" then 0 else 1) else r + 1

/-- The method `getLastColumn`: the last column that has content. -/
def getLastColumn (hoja : Hoja) : Nat :=
  (hoja.map ultimaColumnaDeFila).foldr max 0

/-- The cell at a row and a column, both counted from 1; a cell that was never
written reads as the empty text. -/
def celda (hoja : Hoja) (fila columna : Nat) : String :=
  (hoja.getD (fila - 1) []).getD (columna - 1) ""

/-- The values of `getRange(fila, columna, numFilas, numColumnas)`. -/
def getValues (hoja : Hoja) (fila columna numFilas numColumnas : Nat) : List (List String) :=
  (List.range numFilas).map fun i =>
    (List.range numColumnas).map fun j => celda hoja (fila + i) (columna + j)

/-- The values of `getDataRange()`: rows 1 to `getLastRow`, columns 1 to
`getLastColumn`; the data range of a sheet without content is one empty
cell. -/
def getDataRangeValues (hoja : Hoja) : List (List String) :=
  getValues hoja 1 1 (max 1 (getLastRow hoja)) (max 1 (getLastColumn hoja))

/-- A list with position `i` (from 0) set to `v`, extended with `d` when it is
too short. -/
def ponerEn {α : Type} (d : α) (l : List α) (i : Nat) (v : α) : List α :=
  (l ++ List.replicate (i + 1 - l.length) d).set i v

/-- The effect of `getRange(fila, columna).setValue(v)`. -/
def setValue (hoja : Hoja) (fila columna : Nat) (v : String) : Hoja :=
  ponerEn [] hoja (fila - 1) (ponerEn "" (hoja.getD (fila - 1) []) (columna - 1) v)

/-- The effect of `appendRow(fila)`. -/
def appendRow (hoja : Hoja) (fila : Fila) : Hoja := hoja ++ [fila]

/-! ## Column map, clock and host -/

/-- The column map of the ledger, `getColumnasRegistro()`: the position (from
0) of each field. -/
structure Columnas where
  FECHA : Nat
  CEDULA : Nat
  NOMBRE : Nat
  ESTADO_ACCESO : Nat
  ENTRADA : Nat
  SALIDA : Nat
  DURACION : Nat
  EMPRESA : Nat
  COMENTARIO : Nat
  deriving DecidableEq, Repr

/-- The default layout, `usarEstructurasPorDefecto`. -/
def Columnas.porDefecto : Columnas :=
  { FECHA := 0, CEDULA := 1, NOMBRE := 2, ESTADO_ACCESO := 3, ENTRADA := 4, SALIDA := 5,
    DURACION := 6, EMPRESA := 7, COMENTARIO := 8 }

/-- The positions of a column map, `Object.values(COLS)`. -/
def Columnas.valores (c : Columnas) : List Nat :=
  [c.FECHA, c.CEDULA, c.NOMBRE, c.ESTADO_ACCESO, c.ENTRADA, c.SALIDA, c.DURACION, c.EMPRESA,
    c.COMENTARIO]

/-- One reading of the clock, `new Date()`: the text of `toISOString()`, the
local time of day (`getHours`, `getMinutes`, `getSeconds`) and the stamp
`Utilities.formatDate(now, zone, 'yyyyMMdd_HHmmss')`. -/
structure Reloj where
  iso : String
  horas : Nat
  minutos : Nat
  segundos : Nat
  sello : String
  deriving DecidableEq, Repr

/-- The clock reading as a time value (the `Date` object `now`). -/
def Reloj.ahora (r : Reloj) : ValorHora := .fecha r.horas r.minutos r.segundos

/-- The first part of a text split at a character, `texto.split(c)[0]`. -/
def primeraParte (c : Char) (texto : String) : String :=
  ⟨(partir c texto.data).headD []⟩

/-- The date of today, `new Date().toISOString().split('T')[0]`. -/
def Reloj.fechaHoy (r : Reloj) : String := primeraParte 'T' r.iso

/-- The host of the engine: the column map in force and the parser of date
texts of the runtime, `new Date(texto).getTime()` in milliseconds, `none` for
an invalid date. -/
structure Entorno where
  cols : Columnas
  tiempoDeFecha : String → Option Int

/-! ## Presence resolver -/

/-- The result of `verificarEntradaActiva` (its `timestamp` field, a `Date`
that no caller reads, is left out). -/
structure EntradaActiva where
  found : Bool
  fila : Nat := 0
  cedula : String := ""
  nombre : String := ""
  empresa : String := ""
  horaEntrada : String := ""
  error : Option String := none
  message : Option String := none
  deriving DecidableEq, Repr

/-- The largest `i < n` with `p i`: a loop `for (i = n - 1; i >= 0; i--)` that
stops at the first hit. -/
def buscarHaciaAtras (p : Nat → Bool) : Nat → Option Nat
  | 0 => none
  | n + 1 => if p n then some n else buscarHaciaAtras p n

/-- The test that one row of the window passes in the loop of
`verificarEntradaActiva`: the identifier cell is truthy, the date part of the
date cell is today, the trimmed identifier is the one looked for, the check-in
is truthy and the check-out is falsy. -/
def esEntradaActiva (cols : Columnas) (cedulaLimpia fechaHoy : String) (fila : List String) :
    Bool :=
  verdadero fila[cols.CEDULA]? &&
  decide (primeraParte 'T' (textoDe fila[cols.FECHA]?) = fechaHoy) &&
  decide (trim (textoDe fila[cols.CEDULA]?) = cedulaLimpia) &&
  verdadero fila[cols.ENTRADA]? && !verdadero fila[cols.SALIDA]?

/-- The text `horaEntradaFormateada` of `verificarEntradaActiva` for a text
cell: the trimmed text, `'N/A'` when nothing is left. -/
def horaEntradaFormateada (entrada : Option String) : String :=
  match entrada with
  | some e => if trim e ≠ "" then trim e else "N/A"
  | none => "N/A"

/-- The function `verificarEntradaActiva` of `registroB.js`. -/
def verificarEntradaActiva (cols : Columnas) (libro : Libro) (reloj : Reloj) (cedula : String) :
    EntradaActiva :=
  if cedula = "" then { found := false, error := some "Cédula no proporcionada o inválida" }
  else
    let cedulaLimpia := trim cedula
    if cedulaLimpia = "" then { found := false, error := some "Cédula no puede estar vacía" }
    else
      match libro SHEET_REGISTRO with
      | none => { found := false, error := some "Hoja de registro no encontrada" }
      | some hojaRegistro =>
        let lastRow := getLastRow hojaRegistro
        if lastRow ≤ 1 then { found := false, message := some "No hay registros" }
        else
          let maxFilasABuscar := min 100 (lastRow - 1)
          let filaInicio := max 2 (lastRow - maxFilasABuscar + 1)
          let numColumnas :=
            [cols.CEDULA, cols.NOMBRE, cols.EMPRESA, cols.ENTRADA, cols.SALIDA, cols.FECHA].foldr
              max 0 + 1
          let datos := getValues hojaRegistro filaInicio 1 maxFilasABuscar numColumnas
          let fechaHoy := reloj.fechaHoy
          match buscarHaciaAtras
              (fun i => esEntradaActiva cols cedulaLimpia fechaHoy (datos.getD i [])) datos.length with
          | some i =>
            let fila := datos.getD i []
            { found := true
              fila := filaInicio + i
              cedula := trim (textoDe fila[cols.CEDULA]?)
              nombre := oSiNo fila[cols.NOMBRE]? ""
              empresa := oSiNo fila[cols.EMPRESA]? ""
              horaEntrada := horaEntradaFormateada fila[cols.ENTRADA]? }
          | none => { found := false, message := some "Sin entrada activa registrada" }

/-! ## Write path -/

/-- The access states, `ESTADOS_ACCESO`. -/
def ESTADO_PERMITIDO : String := "Acceso Permitido"

/-- The state of a visitor or of a justified exception. -/
def ESTADO_TEMPORAL : String := "Acceso Temporal"

/-- The upper case of one character. The table is that of Unicode for the
characters up to U+00FF (`a`-`z`, `µ`, `ß`, which becomes `SS`, `à`-`þ` without
`÷`, and `ÿ`) and for `ı` (U+0131) and `ſ` (U+017F), the two characters beyond
U+00FF whose upper case is an ASCII letter; the other characters beyond U+00FF
are left as they are. -/
def mayusculaDe (c : Char) : List Char :=
  if 97 ≤ c.toNat && c.toNat ≤ 122 then [Char.ofNat (c.toNat - 32)]
  else if c.toNat = 0xB5 then [Char.ofNat 0x39C]
  else if c.toNat = 0xDF then ['S', 'S']
  else if 0xE0 ≤ c.toNat && c.toNat ≤ 0xFE && c.toNat ≠ 0xF7 then [Char.ofNat (c.toNat - 32)]
  else if c.toNat = 0xFF then [Char.ofNat 0x178]
  else if c.toNat = 0x131 then ['I']
  else if c.toNat = 0x17F then ['S']
  else [c]

/-- The method `toUpperCase`. It is exact on a text whose characters are all
up to U+00FF (`esLatin1`); letters beyond that range, other than `ı` and `ſ`,
are not mapped. -/
def toUpperCase (s : String) : String := ⟨s.data.flatMap mayusculaDe⟩

/-- The characters of the text are all up to U+00FF, the range on which
`toUpperCase` and `toLowerCase` follow the tables of Unicode. -/
def esLatin1 (s : String) : Prop := ∀ c ∈ s.data, c.toNat < 256

instance esLatin1.decidable (s : String) : Decidable (esLatin1 s) :=
  inferInstanceAs (Decidable (∀ c ∈ s.data, c.toNat < 256))

/-- The test `/VISITANTE|JUSTIFICADO|SIN ENTRADA PREVIA/.test(comentarioMayus)`. -/
def esMarcaTemporal (comentarioMayus : String) : Bool :=
  incluye comentarioMayus "VISITANTE" || incluye comentarioMayus "JUSTIFICADO" ||
    incluye comentarioMayus "SIN ENTRADA PREVIA"

/-- The date and time that `parseFechaHora` (inside `calcularDuracion`) reads
from a text `DD/MM/YYYY HH:mm[:ss]`, in milliseconds; `none` stands for `null`
and for the exception raised when the date has no year part. -/
def parseFechaHora (tiempoDeFecha : String → Option Int) (str : String) : Option Int :=
  if str = "" then none
  else
    let strLimpio := trim str
    if incluyeCaracter strLimpio ' ' then
      let trozos := partir ' ' strLimpio.data
      let fecha := trozos.getD 0 []
      let hora := trozos.getD 1 []
      if !fecha.isEmpty && fecha.contains '/' then
        let dmy := partir '/' fecha
        match dmy[2]? with
        | none => none
        | some y =>
          let d : String := ⟨dmy.getD 0 []⟩
          let m : String := ⟨dmy.getD 1 []⟩
          let anio : String := if y.length = 2 then "20" ++ ⟨y⟩ else ⟨y⟩
          let horaCompleta : String :=
            if !hora.isEmpty && (partir ':' hora).length = 2 then ⟨hora⟩ ++ ":00" else ⟨hora⟩
          let fechaISO := anio ++ "-" ++ padStart2 m ++ "-" ++ padStart2 d ++ "T" ++ horaCompleta
          tiempoDeFecha fechaISO
      else none
    else none

/-- The function `calcularDuracion` of `utils.js`. -/
def calcularDuracion (tiempoDeFecha : String → Option Int) (entradaStr salidaStr : String) :
    String :=
  if entradaStr = "" || salidaStr = "" then "0:00:00"
  else
    match parseFechaHora tiempoDeFecha entradaStr, parseFechaHora tiempoDeFecha salidaStr with
    | some entrada, some salida =>
      let diff0 := salida - entrada
      let diff := if diff0 < 0 then diff0 + 24 * 60 * 60 * 1000 else diff0
      textoDuracion (diff / 1000)
    | _, _ => "0:00:00"

/-- The result of `registrarEnHoja`; `filaIndex` is `0` when the returned
object has none. -/
structure ResultadoRegistro where
  success : Bool
  filaIndex : Nat := 0
  duplicado : Bool := false
  error : Option String := none
  deriving DecidableEq, Repr

/-- The row that `registrarEnHoja` builds before it looks at the sheets. -/
def construirFila (env : Entorno) (reloj : Reloj) (cedula nombre empresa : String)
    (horaEntrada horaSalida : ValorHora) (tipo comentario : String) : Fila :=
  let COLS := env.cols
  let maxColumna := COLS.valores.foldr max 0 + 1
  let fila0 : Fila := List.replicate maxColumna ""
  let fechaActual := reloj.fechaHoy
  let fila1 := ponerEn "" fila0 COLS.FECHA fechaActual
  let fila2 := ponerEn "" fila1 COLS.CEDULA (trim cedula)
  let fila3 := ponerEn "" fila2 COLS.NOMBRE (if nombre = "" then "N/A" else nombre)
  let fila4 := ponerEn "" fila3 COLS.EMPRESA (if empresa = "" then "N/A" else empresa)
  let esAccesoTemporal := if comentario = "" then false else esMarcaTemporal (toUpperCase comentario)
  let fila7 : Fila :=
    if tipo = "entrada" then
      let fila5 := ponerEn "" fila4 COLS.ESTADO_ACCESO
        (if esAccesoTemporal then ESTADO_TEMPORAL else ESTADO_PERMITIDO)
      let fila6 := ponerEn "" fila5 COLS.ENTRADA
        (if horaEntrada.verdadero then formatearHora horaEntrada else "")
      ponerEn "" fila6 COLS.SALIDA ""
    else if tipo = "salida" then
      let fila5 := ponerEn "" fila4 COLS.ESTADO_ACCESO
        (if !horaEntrada.verdadero || esAccesoTemporal then ESTADO_TEMPORAL
         else "Salida Registrada")
      let fila6 := ponerEn "" fila5 COLS.ENTRADA ""
      let fila6b := ponerEn "" fila6 COLS.SALIDA
        (if horaSalida.verdadero then formatearHora horaSalida else "")
      if horaEntrada.verdadero && horaSalida.verdadero then
        let partes := partir '-' fechaActual.data
        let anio := textoDe (partes[0]?.map String.mk)
        let mes := textoDe (partes[1]?.map String.mk)
        let dia := textoDe (partes[2]?.map String.mk)
        let fechaFormateada := dia ++ "/" ++ mes ++ "/" ++ anio
        let entradaStr := fechaFormateada ++ " " ++ formatearHora horaEntrada
        let salidaStr := fechaFormateada ++ " " ++ formatearHora horaSalida
        ponerEn "" fila6b COLS.DURACION (calcularDuracion env.tiempoDeFecha entradaStr salidaStr)
      else fila6b
    else
      let fila5 := ponerEn "" fila4 COLS.ESTADO_ACCESO ""
      let fila6 := ponerEn "" fila5 COLS.ENTRADA ""
      ponerEn "" fila6 COLS.SALIDA ""
  ponerEn "" fila7 COLS.COMENTARIO comentario

/-- The test `fila.every((val, idx) => String(val) === String(ultimaFila[idx]))`. -/
def esFilaDuplicada (fila : Fila) (ultimaFila : List String) : Bool :=
  (List.range fila.length).all fun idx => decide (fila.getD idx "" = textoDe ultimaFila[idx]?)

/-- The function `registrarEnHoja` of `registroB.js` (its parameter `origen`
is not used by the function). -/
def registrarEnHoja (env : Entorno) (libro : Libro) (reloj : Reloj)
    (cedula nombre empresa : String) (horaEntrada horaSalida : ValorHora)
    (tipo comentario : String) : ResultadoRegistro × Libro :=
  if trim cedula = "" then
    ({ success := false, error := some "Cédula no proporcionada o inválida" }, libro)
  else
    let fila := construirFila env reloj cedula nombre empresa horaEntrada horaSalida tipo comentario
    match libro SHEET_REGISTRO, libro SHEET_HISTORIAL with
    | some hojaRegistro, some hojaHistorial =>
      let esDuplicado :=
        if getLastRow hojaRegistro > 1 then
          esFilaDuplicada fila
            ((getValues hojaRegistro (getLastRow hojaRegistro) 1 1
              (getLastColumn hojaRegistro)).headD [])
        else false
      let libro1 :=
        if !esDuplicado then
          ponerHoja (ponerHoja libro SHEET_REGISTRO (appendRow hojaRegistro fila))
            SHEET_HISTORIAL (appendRow hojaHistorial fila)
        else libro
      let filaIndex := getLastRow ((libro1 SHEET_REGISTRO).getD [])
      ({ success := true, filaIndex := filaIndex, duplicado := esDuplicado }, libro1)
    | _, _ =>
      ({ success := false, error := some "No se encontró la hoja de registro o historial" }, libro)

/-- The result of `completarSalida`. -/
structure ResultadoSalida where
  success : Bool
  duracion : String := ""
  error : Option String := none
  deriving DecidableEq, Repr

/-- The function `completarSalida` of `registroB.js`. It addresses the cells
by fixed position: check-in in column E, check-out in column F, duration in
column G; its archive is the sheet named `Historial`. -/
def completarSalida (libro : Libro) (fila : Nat) (horaSalida : ValorHora) :
    ResultadoSalida × Libro :=
  if fila ≤ 1 then ({ success := false, error := some "Número de fila inválido" }, libro)
  else
    match libro "Registro" with
    | none => ({ success := false, error := some "Hoja de registro no encontrada" }, libro)
    | some hojaRegistro =>
      let datosRegistro := (getValues hojaRegistro fila 1 1 9).headD []
      let horaEntradaOriginal := datosRegistro[4]?
      let horaSalidaFormateada := formatearHora horaSalida
      let hoja1 := setValue hojaRegistro fila 6 horaSalidaFormateada
      let duracionCalculada :=
        if verdadero horaEntradaOriginal then
          calcularDuracionSimple (.texto (trim (textoDe horaEntradaOriginal)))
            (.texto horaSalidaFormateada)
        else "0:00:00"
      let hoja2 := setValue hoja1 fila 7 duracionCalculada
      let datosHistorial :=
        (datosRegistro.set 5 horaSalidaFormateada).set 6 duracionCalculada
      let libro1 := ponerHoja libro "Registro" hoja2
      let libro2 :=
        match libro1 "Historial" with
        | some hojaHistorial => ponerHoja libro1 "Historial" (appendRow hojaHistorial datosHistorial)
        | none => libro1
      ({ success := true, duracion := duracionCalculada }, libro2)

/-! ## Directory -/

/-- A JavaScript object created by `{}` and used as a dictionary: its own
properties in the order they were created. -/
abbrev Objeto (α : Type) := List (String × α)

/-- The names that every object created by `{}` inherits from
`Object.prototype`. Read through `o[k]` they give a function (for `__proto__`,
the prototype object): a value that is truthy and is not an entry of the
dictionary. -/
def nombresHeredados : List String :=
  ["constructor", "hasOwnProperty", "isPrototypeOf", "propertyIsEnumerable", "toLocaleString",
    "toString", "valueOf", "__defineGetter__", "__defineSetter__", "__lookupGetter__",
    "__lookupSetter__", "__proto__"]

/-- The own property of a name, `o[k]` for a name that `o` holds itself; for
the other names see `nombresHeredados`. -/
def Objeto.obtener {α : Type} (o : Objeto α) (k : String) : Option α := List.lookup k o

/-- The assignment `o[k] = v`: an existing property keeps its place. The name
`__proto__` is the accessor that every object inherits, so the assignment
`o['__proto__'] = v` creates no property (it makes an object `v` the prototype
of `o`, which changes what the names that `o` does not hold itself give). -/
def Objeto.poner {α : Type} (o : Objeto α) (k : String) (v : α) : Objeto α :=
  if k = "__proto__" then o
  else if o.any (fun p => p.1 = k) then o.map (fun p => if p.1 = k then (k, v) else p)
  else o ++ [(k, v)]

/-- The statement `delete o[k]`. -/
def Objeto.borrar {α : Type} (o : Objeto α) (k : String) : Objeto α :=
  o.filter (fun p => p.1 ≠ k)

/-- The number that a property name denotes when it is an array index (a
canonical decimal numeral below `2^32 - 1`); such names are enumerated first. -/
def indiceDeClave (k : String) : Option Nat :=
  if !k.data.isEmpty && k.data.all esDigito && (k.data.head? ≠ some '0' || k.data.length = 1) then
    let n := valorDigitos 10 (k.data.map (fun c => c.toNat - 48))
    if n < 4294967295 then some n else none
  else none

/-- The properties in the order of `for ... in`, `Object.keys` and
`Object.values`: array indices in increasing order, then the other names in
the order they were created. -/
def Objeto.enOrden {α : Type} (o : Objeto α) : List (String × α) :=
  ((o.filterMap (fun p => (indiceDeClave p.1).map (fun n => (n, p)))).insertionSort
      (fun a b => a.1 ≤ b.1)).map (fun q => q.2) ++
    o.filter (fun p => (indiceDeClave p.1).isNone)

/-- A directory entry as the engine uses it (the properties named after the
other headers of the personnel store are left out). -/
structure Usuario where
  cedula : String
  nombre : String
  empresa : String
  busqueda : String
  cedulaNormalizada : String
  deriving DecidableEq, Repr

/-- The lower case of one character. The table is that of Unicode for the
characters up to U+00FF (`A`-`Z` and `À`-`Þ` without `×`); the characters
beyond U+00FF are left as they are. -/
def minusculaDe (c : Char) : Char :=
  if 65 ≤ c.toNat && c.toNat ≤ 90 then Char.ofNat (c.toNat + 32)
  else if 0xC0 ≤ c.toNat && c.toNat ≤ 0xDE && c.toNat ≠ 0xD7 then Char.ofNat (c.toNat + 32)
  else c

/-- The method `toLowerCase`. It is exact on a text whose characters are all
up to U+00FF (`esLatin1`); capitals beyond that range are not mapped. -/
def toLowerCase (s : String) : String := ⟨s.data.map minusculaDe⟩

/-- The replacement `texto.replace(/[^\d]/g, '')`. -/
def soloDigitos (s : String) : String := ⟨s.data.filter esDigito⟩

/-- The state of the engine: the spreadsheet and the directory index
`cacheUsuarios`, which is `{}` when a script execution starts. The third field
is a parameter of the model that no operation changes: the effect on the
spreadsheet of the routine `crearDatosPrueba`, which
`verificarYCrearEstructuraHojas` calls when the personnel store has no data row
and whose code is not among the sources (the examples, whose store has data
rows, never reach it). -/
structure Estado where
  libro : Libro
  cacheUsuarios : Objeto Usuario
  crearDatosPrueba : Libro → Libro := fun libro => libro

/-! ## Structure of the spreadsheet -/

/-- The name of the log sheet. -/
def SHEET_LOGS : String := "Logs"

/-- The name of the sheet of evacuations. -/
def SHEET_EVACUACIONES : String := "Evacuaciones"

/-- The name of the configuration sheet. -/
def SHEET_CONFIG : String := "Configuración"

/-- The name of the error sheet. -/
def SHEET_ERRORES : String := "Errores"

/-- The name of the sheet of passwords. -/
def SHEET_CLAVES : String := "Clave"

/-- The function `getEncabezadosPredefinidos` of `constantes.js`. -/
def getEncabezadosPredefinidos (sheetName : String) : List String :=
  if sheetName = SHEET_REGISTRO then
    ["Fecha", "Cédula", "Nombre", "Estado del Acceso", "Entrada", "Salida", "Duración", "Empresa",
      "Comentario"]
  else if sheetName = SHEET_BD then ["Cédula", "Nombre", "Empresa", "Área", "Cargo", "Estado"]
  else if sheetName = SHEET_LOGS then ["Timestamp", "Nivel", "Mensaje", "Detalles", "Usuario", "IP"]
  else if sheetName = SHEET_EVACUACIONES then
    ["Fecha", "Hora", "Tipo", "Personas Evacuadas", "Total Personas", "Estado", "Responsable"]
  else if sheetName = SHEET_CONFIG then ["Clave", "Valor", "Categoría"]
  else if sheetName = SHEET_ERRORES then
    ["Timestamp", "Código Error", "Mensaje Error", "Componente", "Detalles"]
  else if sheetName = SHEET_HISTORIAL then
    ["Fecha", "Cédula", "Nombre", "Estado del Acceso", "Entrada", "Salida", "Duración", "Empresa",
      "Comentario"]
  else if sheetName = SHEET_CLAVES then
    ["Cédula", "Nombre", "Contraseña", "Cargo", "Email", "Permisos", "Fecha_Creacion"]
  else []

/-- The sheets that `verificarYCrearEstructuraHojas` requires, in the order of
the properties of its object `estructuraHojas`. -/
def estructuraHojas : List String :=
  [SHEET_REGISTRO, SHEET_BD, SHEET_LOGS, SHEET_EVACUACIONES, SHEET_CONFIG, SHEET_ERRORES,
    SHEET_HISTORIAL]

/-- The effect of `getRange(1, 1, 1, encabezados.length).setValues([encabezados])`:
the first cells of row 1 are replaced, the cells to their right are kept. -/
def escribirEncabezados (hoja : Hoja) (encabezados : List String) : Hoja :=
  ponerEn [] hoja 0 (encabezados ++ (hoja.headD []).drop encabezados.length)

/-- One turn of the loop of `verificarYCrearEstructuraHojas` over the required
sheets: a missing sheet is inserted with its header row; a sheet without
content receives the header row; in another sheet the header row is rewritten
when one of its first cells differs from the predefined header or when the
used width is smaller than the number of headers. Fonts, colours and column
widths are not part of the state. -/
def verificarHoja (libro : Libro) (nombreHoja : String) : Libro :=
  let encabezadosEsperados := getEncabezadosPredefinidos nombreHoja
  match libro nombreHoja with
  | none =>
    if encabezadosEsperados.length > 0 then
      ponerHoja libro nombreHoja (escribirEncabezados [] encabezadosEsperados)
    else ponerHoja libro nombreHoja []
  | some sheet =>
    let lastColumn := getLastColumn sheet
    if lastColumn = 0 && encabezadosEsperados.length > 0 then
      ponerHoja libro nombreHoja (escribirEncabezados sheet encabezadosEsperados)
    else if encabezadosEsperados.length > 0 then
      let encabezadosActuales :=
        (getValues sheet 1 1 1 (min lastColumn encabezadosEsperados.length)).headD []
      let needsUpdate := (List.range encabezadosEsperados.length).any fun i =>
        decide (encabezadosActuales[i]? ≠ encabezadosEsperados[i]?)
      if needsUpdate || lastColumn < encabezadosEsperados.length then
        ponerHoja libro nombreHoja (escribirEncabezados sheet encabezadosEsperados)
      else libro
    else libro

/-- The function `verificarYCrearEstructuraHojas` of `constantes.js`, as far as
the cells of the spreadsheet go (the conditional format rules that
`configurarFormatoCondicionalEstadoAcceso` installs are not part of the state).
When the personnel store has no data row afterwards, the routine
`crearDatosPrueba` runs; its code is not among the sources and its effect is the
parameter of that name. -/
def verificarYCrearEstructuraHojas (crearDatosPrueba : Libro → Libro) (libro : Libro) : Libro :=
  let libro1 := estructuraHojas.foldl verificarHoja libro
  match libro1 SHEET_BD with
  | some hojaBD => if getLastRow hojaBD ≤ 1 then crearDatosPrueba libro1 else libro1
  | none => libro1

/-- The function `detectarEstructuraColumnas` of `constantes.js`: the position
(from 0) of each header of row 1, by its trimmed lower-case name; of two
headers of one name the later one counts. -/
def detectarEstructuraColumnas (libro : Libro) (nombreHoja : String) : Objeto Nat :=
  match libro nombreHoja with
  | none => []
  | some sheet =>
    let lastColumn := getLastColumn sheet
    if lastColumn = 0 then []
    else
      let encabezados := (getValues sheet 1 1 1 lastColumn).headD []
      (List.range encabezados.length).foldl
        (fun (mapeoColumnas : Objeto Nat) indice =>
          let encabezadoNormalizado := toLowerCase (trim (encabezados.getD indice ""))
          if encabezadoNormalizado = "" then mapeoColumnas
          else mapeoColumnas.poner encabezadoNormalizado indice)
        []

/-- A chain `m[a] ?? m[b] ?? ... ?? d`: the position of the first of the names
that the map holds, else the default. -/
def primeraColumna (m : Objeto Nat) (nombres : List String) (porDefecto : Nat) : Nat :=
  (nombres.findSome? m.obtener).getD porDefecto

/-- The column map of the ledger that `inicializarEstructurasColumnas` of
`constantes.js` stores in `COLUMNAS_REGISTRO_DINAMICAS`, read off the header
row of the ledger. -/
def inicializarEstructurasColumnas (libro : Libro) : Columnas :=
  let mapeoRegistro := detectarEstructuraColumnas libro SHEET_REGISTRO
  { FECHA := primeraColumna mapeoRegistro ["fecha", "date"] 0
    CEDULA := primeraColumna mapeoRegistro ["cédula", "cedula", "id"] 1
    NOMBRE := primeraColumna mapeoRegistro ["nombre", "name"] 2
    ESTADO_ACCESO :=
      primeraColumna mapeoRegistro ["estado acceso", "estado del acceso", "estado", "access"] 3
    ENTRADA := primeraColumna mapeoRegistro ["entrada", "hora entrada", "entry"] 4
    SALIDA := primeraColumna mapeoRegistro ["salida", "hora salida", "exit"] 5
    DURACION := primeraColumna mapeoRegistro ["duración", "duracion", "duration"] 6
    EMPRESA := primeraColumna mapeoRegistro ["empresa", "company"] 7
    COMENTARIO := primeraColumna mapeoRegistro ["comentario", "comment"] 8 }

/-! ## Directory index -/

/-- The value of the property named `campo` after the loop
`usuario[encabezados[idx]] = fila[idx]`: the cell under the last header of
that name. -/
def campoDeUsuario (encabezados fila : List String) (campo : String) : Option String :=
  ((List.range encabezados.length).reverse.find? (fun idx => encabezados.getD idx "" = campo)).map
    (fun idx => fila.getD idx "")

/-- The directory entry that `inicializarCacheUsuarios` builds from one row of
the personnel store. -/
def usuarioDeFila (encabezados fila : List String) (cedula : String) : Usuario :=
  let nombre := oSiNo (campoDeUsuario encabezados fila "Nombre")
    (oSiNo (campoDeUsuario encabezados fila "nombre") "")
  let empresa := oSiNo (campoDeUsuario encabezados fila "Empresa")
    (oSiNo (campoDeUsuario encabezados fila "empresa") "")
  { cedula := cedula
    nombre := nombre
    empresa := empresa
    busqueda := toLowerCase (cedula ++ " " ++ nombre ++ " " ++ empresa)
    cedulaNormalizada := soloDigitos cedula }

/-- The index that the loop of `inicializarCacheUsuarios` builds from the
personnel store: one entry per row with an identifier, a later row of the same
identifier replacing the earlier one. -/
def indiceDePersonal (hoja : Hoja) : Objeto Usuario :=
  let datos := getDataRangeValues hoja
  let encabezados := datos.headD []
  (datos.drop 1).foldl
    (fun (cache : Objeto Usuario) fila =>
      let cedula := trim (textoDe fila[0]?)
      if cedula = "" then cache
      else cache.poner cedula (usuarioDeFila encabezados fila cedula))
    []

/-- The function `inicializarCacheUsuarios` of `registroB.js`. A loaded index
is left alone. For an empty one, `verificarYCrearEstructuraHojas` first checks
the sheets and their header rows, and the index is rebuilt from the personnel
store. The call of `inicializarEstructurasColumnas` in between reads the column
maps off the header rows; the maps are not a field of `Estado`: the map of the
ledger in force is the `cols` of the host, and `inicializarEstructurasColumnas`
above gives the map that the code detects. -/
def inicializarCacheUsuarios (estado : Estado) : Estado :=
  if !estado.cacheUsuarios.isEmpty then estado
  else
    let libro1 := verificarYCrearEstructuraHojas estado.crearDatosPrueba estado.libro
    match libro1 SHEET_BD with
    | none => { estado with libro := libro1 }
    | some hoja => { estado with libro := libro1, cacheUsuarios := indiceDePersonal hoja }

/-- What the engine reads from a value that is found under an inherited name
(a function, or the prototype object): its properties `nombre` and `empresa`
are `undefined`, which the write path treats like the empty text. -/
def miembroHeredado : Usuario :=
  { cedula := "", nombre := "", empresa := "", busqueda := "", cedulaNormalizada := "" }

/-- The inner function `buscarEnCache` of `buscarUsuario`. The first test,
`if (cacheUsuarios[busqueda])`, also succeeds for a name that the index
inherits (`nombresHeredados`); what is returned then is no entry of the index
and is read as `miembroHeredado`. The index is taken to have the prototype it
was created with (no row of the personnel store has the identifier
`__proto__`). -/
def buscarEnCache (cache : Objeto Usuario) (busqueda : String) : Option Usuario :=
  match cache.obtener busqueda with
  | some usuario => some usuario
  | none =>
    if busqueda ∈ nombresHeredados then some miembroHeredado
    else
      let cedulaNormalizada := soloDigitos busqueda
      match cache.enOrden.find? (fun p => p.2.cedulaNormalizada = cedulaNormalizada) with
      | some p => some p.2
      | none =>
        let query := toLowerCase busqueda
        (cache.enOrden.find? (fun p => p.2.busqueda ≠ "" && incluye p.2.busqueda query)).map
          (fun p => p.2)

/-- The function `buscarUsuario` of `registroB.js`. -/
def buscarUsuario (estado : Estado) (cedulaONombre : String) : Option Usuario × Estado :=
  if cedulaONombre = "" then (none, estado)
  else
    let busqueda := trim cedulaONombre
    match buscarEnCache estado.cacheUsuarios busqueda with
    | some usuario => (some usuario, estado)
    | none =>
      let estado1 := inicializarCacheUsuarios estado
      (buscarEnCache estado1.cacheUsuarios busqueda, estado1)

/-! ## Event classifier -/

/-- The result descriptor of a request. A field that the returned object does
not carry has the value it has in the initial object of `procesarEntrada`. -/
structure Resultado where
  success : Bool := false
  message : String := ""
  color : String := "red"
  icon : String := ""
  tipoFlujo : String := ""
  comentarioObligatorio : Bool := false
  modalTipo : String := ""
  registroPendiente : Bool := false
  registroPendienteExistente : Bool := false
  deriving DecidableEq, Repr

/-- The function `procesarEntrada` of `registroB.js`. -/
def procesarEntrada (env : Entorno) (libro : Libro) (reloj : Reloj) (persona : Option Usuario)
    (entradaActiva : EntradaActiva) (cedula : String) : Resultado × Libro :=
  let now := reloj.ahora
  let horaFormateada := formatearHora now
  match persona with
  | some persona =>
    if entradaActiva.found then
      ({ tipoFlujo := "entrada_duplicada"
         message := "⚠️ ENTRADA DUPLICADA\nYa existe una entrada activa para " ++ persona.nombre ++
           " desde las " ++ entradaActiva.horaEntrada ++ "."
         color := "orange"
         icon := "fas fa-exclamation-triangle"
         registroPendienteExistente := true }, libro)
    else
      let escrito := registrarEnHoja env libro reloj cedula persona.nombre persona.empresa now
        (.texto "") "entrada" ""
      ({ success := true
         tipoFlujo := "entrada_registrada"
         message := "✅ ENTRADA REGISTRADA\n\n👤 " ++ persona.nombre ++ "\n🏢 " ++ persona.empresa ++
           "\n⏰ " ++ horaFormateada
         color := "green"
         icon := "fas fa-sign-in-alt" }, escrito.2)
  | none =>
    ({ tipoFlujo := "entrada_persona_no_registrada"
       message := "🚫 PERSONA NO IDENTIFICADA\n\nComplete la información para un registro temporal."
       color := "red"
       icon := "fas fa-user-slash"
       comentarioObligatorio := true
       modalTipo := "registro"
       registroPendiente := true }, libro)

/-- The function `procesarSalida` of `registroB.js`. -/
def procesarSalida (libro : Libro) (reloj : Reloj) (persona : Option Usuario)
    (entradaActiva : EntradaActiva) (_cedula : String) : Resultado × Libro :=
  let now := reloj.ahora
  let horaFormateada := formatearHora now
  if entradaActiva.found then
    let completado := completarSalida libro entradaActiva.fila now
    ({ success := true
       tipoFlujo := if persona.isSome then "salida_normal"
         else "salida_persona_no_registrada_con_entrada"
       message := "✅ SALIDA REGISTRADA\n\n👤 " ++ entradaActiva.nombre ++ "\n🏢 " ++
         entradaActiva.empresa ++ "\n⏰ " ++ horaFormateada
       color := "green"
       icon := "fas fa-sign-out-alt" }, completado.2)
  else
    match persona with
    | some persona =>
      ({ tipoFlujo := "salida_sin_entrada_previa"
         message := "⚠️ SALIDA SIN ENTRADA PREVIA\n\nNo se encontró una entrada para " ++
           persona.nombre ++ ". Se requiere una justificación."
         color := "red"
         icon := "fas fa-exclamation-triangle"
         comentarioObligatorio := true
         modalTipo := "justificacion" }, libro)
    | none =>
      ({ tipoFlujo := "salida_sin_entrada_previa_persona_no_registrada"
         message := "🚫 PERSONA NO IDENTIFICADA\n\nNo hay registro de entrada para esta cédula. " ++
           "Complete la información para registrar la salida."
         color := "red"
         icon := "fas fa-user-times"
         comentarioObligatorio := true
         modalTipo := "registro"
         registroPendiente := true }, libro)

/-- The function `handleHTMLFormSubmit` of `registroB.js`. The script lock it
takes and releases has no effect on one request run alone; the calls on the
lock are listed by `eventosHandleHTMLFormSubmit`. -/
def handleHTMLFormSubmit (env : Entorno) (estado : Estado) (reloj : Reloj)
    (cedula tipoAcceso : String) : Resultado × Estado :=
  if cedula = "" || tipoAcceso = "" then
    ({ success := false, message := "Cédula o tipo de acceso no proporcionados.", color := "red" },
      estado)
  else
    let estado1 := inicializarCacheUsuarios estado
    let busqueda := buscarUsuario estado1 (trim cedula)
    let persona := busqueda.1
    let estado2 := busqueda.2
    let entradaActiva := verificarEntradaActiva env.cols estado2.libro reloj (trim cedula)
    if tipoAcceso = "entrada" then
      let r := procesarEntrada env estado2.libro reloj persona entradaActiva (trim cedula)
      (r.1, { estado2 with libro := r.2 })
    else if tipoAcceso = "salida" then
      let r := procesarSalida estado2.libro reloj persona entradaActiva (trim cedula)
      (r.1, { estado2 with libro := r.2 })
    else
      ({ success := false, message := "Error: Tipo de acceso inválido", color := "red" }, estado2)

/-! ## Presence snapshot and bulk close-out -/

/-- One entry of the presence snapshot. -/
structure PersonaDentro where
  cedula : String
  nombre : String
  empresa : String
  horaEntrada : String
  deriving DecidableEq, Repr

/-- The result of `getEvacuacionDataForClient` (its `debug` field is left
out). -/
structure ResultadoEvacuacion where
  success : Bool
  personasDentro : List PersonaDentro
  totalDentro : Nat
  message : String
  deriving DecidableEq, Repr

/-- The tests `tieneEntrada` and `tieneSalida` of `getEvacuacionDataForClient`:
the cell is truthy, is not blank and is not the text `Invalid Date`. -/
def tieneValor (v : Option String) : Bool :=
  verdadero v && decide (trim (textoDe v) ≠ "") && decide (textoDe v ≠ "Invalid Date")

/-- The identifier that `getEvacuacionDataForClient` reads from a row (column
B): the trimmed text of a truthy cell, else the empty text. -/
def cedulaDeFila (fila : List String) : String :=
  if verdadero fila[1]? then trim (textoDe fila[1]?) else ""

/-- The entry that `getEvacuacionDataForClient` records for an open row:
name from column C, organization from column H, check-in from column E. -/
def personaDeFila (fila : List String) : PersonaDentro :=
  { cedula := cedulaDeFila fila
    nombre := if verdadero fila[2]? then trim (textoDe fila[2]?) else "Sin nombre"
    empresa := if verdadero fila[7]? then trim (textoDe fila[7]?) else "Sin empresa"
    horaEntrada := textoDe fila[4]? }

/-- One turn of the loop of `getEvacuacionDataForClient`. -/
def pasoEvacuacion (personasPorCedula : Objeto PersonaDentro) (fila : List String) :
    Objeto PersonaDentro :=
  let cedula := cedulaDeFila fila
  if cedula = "" then personasPorCedula
  else
    let tieneEntrada := tieneValor fila[4]?
    let tieneSalida := tieneValor fila[5]?
    if tieneEntrada && !tieneSalida then personasPorCedula.poner cedula (personaDeFila fila)
    else if tieneSalida then personasPorCedula.borrar cedula
    else personasPorCedula

/-- The function `getEvacuacionDataForClient` of `registroB.js`. -/
def getEvacuacionDataForClient (libro : Libro) : ResultadoEvacuacion :=
  match libro "Registro" with
  | none =>
    { success := true, personasDentro := [], totalDentro := 0,
      message := "Hoja de Registro no encontrada" }
  | some hoja =>
    let lastRow := getLastRow hoja
    if lastRow ≤ 1 then
      { success := true, personasDentro := [], totalDentro := 0,
        message := "No hay registros en la hoja" }
    else
      let datos := getValues hoja 1 1 lastRow (getLastColumn hoja)
      let personasPorCedula := (datos.drop 1).foldl pasoEvacuacion []
      let personasDentro := personasPorCedula.enOrden.map (fun p => p.2)
      { success := true
        personasDentro := personasDentro
        totalDentro := personasDentro.length
        message := toString personasDentro.length ++ " personas encontradas dentro del edificio" }

/-- The result of `registrarSalidasMasivas`; `hoja` is the name of the drill
sheet, when one was written. -/
structure ResultadoMasivo where
  success : Bool
  message : String
  procesados : Nat := 0
  errores : List String := []
  hoja : Option String := none
  deriving DecidableEq, Repr

/-- The method `Array.prototype.join`. -/
def unir (sep : String) : List String → String
  | [] => ""
  | [a] => a
  | a :: b :: resto => a ++ sep ++ unir sep (b :: resto)

/-- The test of the inner loop of the REAL branch of `registrarSalidasMasivas`
on row `i` of the values read at the start: the row is a data row, its trimmed
identifier is the roster entry, its check-in is truthy and its check-out is
falsy. -/
def esAbiertaPara (cols : Columnas) (datos : List (List String)) (cedula : String) (i : Nat) :
    Bool :=
  let fila := datos.getD i []
  decide (1 ≤ i) && decide (trim (textoDe fila[cols.CEDULA]?) = cedula) &&
    verdadero fila[cols.ENTRADA]? && !verdadero fila[cols.SALIDA]?

/-- The state of the loop over the roster in the REAL branch: the ledger, the
count of closed entries and the errors. -/
structure EstadoMasivo where
  hoja : Hoja
  procesados : Nat
  errores : List String

/-- One turn of the loop over the roster in the REAL branch. -/
def pasoSalidaReal (cols : Columnas) (datos : List (List String)) (horaSalida : String)
    (e : EstadoMasivo) (cedula : String) : EstadoMasivo :=
  match buscarHaciaAtras (esAbiertaPara cols datos cedula) datos.length with
  | some i =>
    let entrada := (datos.getD i [])[cols.ENTRADA]?
    let hoja1 := setValue e.hoja (i + 1) (cols.SALIDA + 1) horaSalida
    let duracion := calcularDuracionSimple (.texto (textoDe entrada)) (.texto horaSalida)
    let hoja2 := setValue hoja1 (i + 1) (cols.DURACION + 1) duracion
    { hoja := hoja2, procesados := e.procesados + 1, errores := e.errores }
  | none =>
    { e with errores := e.errores ++ ["No se encontró entrada activa para " ++ cedula] }

/-- One turn of the loop over the roster in the SIMULACRO branch: the drill
sheet, the engine state (the lookup may reload the directory) and the counter
`procesados`. -/
def pasoSimulacro (horaSalida : String) (acc : Hoja × Estado × Nat) (cedula : String) :
    Hoja × Estado × Nat :=
  let busqueda := buscarUsuario acc.2.1 cedula
  let nombre := match busqueda.1 with
    | some persona => persona.nombre
    | none => ""
  let empresa := match busqueda.1 with
    | some persona => persona.empresa
    | none => ""
  (appendRow acc.1 [cedula, nombre, empresa, horaSalida, "SIMULACRO"], busqueda.2, acc.2.2 + 1)

/-- The function `registrarSalidasMasivas` of `registroB.js`. -/
def registrarSalidasMasivas (env : Entorno) (estado : Estado) (reloj : Reloj)
    (cedulas : List String) (tipo : String) : ResultadoMasivo × Estado :=
  if cedulas.isEmpty then ({ success := false, message := "No se proporcionaron cédulas." }, estado)
  else
    let tipo := toUpperCase tipo
    let horaSalida := formatearHora reloj.ahora
    let COLS := env.cols
    if tipo = "REAL" then
      match estado.libro SHEET_REGISTRO with
      | none =>
        ({ success := false
           message := "Error al registrar salidas masivas: Hoja de registro no encontrada" }, estado)
      | some hojaRegistro =>
        let datos := getDataRangeValues hojaRegistro
        let fin := cedulas.foldl (pasoSalidaReal COLS datos horaSalida)
          { hoja := hojaRegistro, procesados := 0, errores := [] }
        ({ success := true
           message := "Evacuación REAL registrada para " ++ toString fin.procesados ++ " personas" ++
             (if fin.errores.isEmpty then "" else ". Errores: " ++ unir "; " fin.errores)
           procesados := fin.procesados
           errores := fin.errores },
         { estado with libro := ponerHoja estado.libro SHEET_REGISTRO fin.hoja })
    else if tipo = "SIMULACRO" then
      let nombreHoja := "Simulacro_" ++ reloj.sello
      let hojaSimulacro : Hoja :=
        match estado.libro nombreHoja with
        | some hoja => hoja
        | none => appendRow [] ["Cédula", "Nombre", "Empresa", "Hora Salida", "Tipo Evento"]
      let estado1 := inicializarCacheUsuarios
        { estado with libro := ponerHoja estado.libro nombreHoja hojaSimulacro }
      let fin := cedulas.foldl (pasoSimulacro horaSalida) (hojaSimulacro, estado1, 0)
      ({ success := true
         message := "Simulacro registrado para " ++ toString fin.2.2 ++
           " personas en hoja " ++ nombreHoja
         procesados := fin.2.2
         hoja := some nombreHoja },
       { fin.2.1 with libro := ponerHoja fin.2.1.libro nombreHoja fin.1 })
    else
      ({ success := false, message := "Tipo de evento no válido. Debe ser REAL o SIMULACRO." },
        estado)

/-! ## Commits that follow additional input -/

/-- The result of `manejarComentarioPersonaRegistrada` and of
`procesarRegistroPersonaNoRegistrada`. -/
structure ResultadoComentario where
  success : Bool
  message : String
  nombre : String := ""
  empresa : String := ""
  deriving DecidableEq, Repr

/-- The step `if (fila && fila.filaIndex) hojaRegistro.getRange(fila.filaIndex,
COLS.ESTADO_ACCESO + 1).setValue(ESTADOS_ACCESO.TEMPORAL)` that follows the
write in both commits (the conditional formatting applied afterwards is not
part of the state). -/
def marcarTemporal (env : Entorno) (libro : Libro) (escrito : ResultadoRegistro) : Libro :=
  if escrito.filaIndex = 0 then libro
  else
    match libro SHEET_REGISTRO with
    | none => libro
    | some hojaRegistro =>
      ponerHoja libro SHEET_REGISTRO
        (setValue hojaRegistro escrito.filaIndex (env.cols.ESTADO_ACCESO + 1) ESTADO_TEMPORAL)

/-- The function `manejarComentarioPersonaRegistrada` of `registroB.js`. -/
def manejarComentarioPersonaRegistrada (env : Entorno) (estado : Estado) (reloj : Reloj)
    (cedula comentario : String) : ResultadoComentario × Estado :=
  let estado1 := inicializarCacheUsuarios estado
  let busqueda := buscarUsuario estado1 cedula
  let estado2 := busqueda.2
  match busqueda.1 with
  | some persona =>
    let escrito := registrarEnHoja env estado2.libro reloj cedula persona.nombre persona.empresa
      (.texto "") reloj.ahora "salida" ("JUSTIFICADO: " ++ comentario)
    let libro1 := marcarTemporal env escrito.2 escrito.1
    ({ success := true
       message := "Salida registrada con justificación exitosamente"
       nombre := persona.nombre
       empresa := persona.empresa }, { estado2 with libro := libro1 })
  | none =>
    ({ success := false, message := "Persona no encontrada en la base de datos" }, estado2)

/-- The visitor form handed to `procesarRegistroPersonaNoRegistrada`; a
property that the object lacks is the empty text. -/
structure DatosVisitante where
  cedula : String
  nombre : String
  tipoAcceso : String
  empresa : String := ""
  motivo : String := ""
  deriving DecidableEq, Repr

/-- The expression `tipo.charAt(0).toUpperCase() + tipo.slice(1)`. -/
def capitalizar (s : String) : String :=
  match s.data with
  | [] => ""
  | c :: cs => toUpperCase ⟨[c]⟩ ++ ⟨cs⟩

/-- The function `procesarRegistroPersonaNoRegistrada` of `registroB.js`;
`none` is a call without a data object. -/
def procesarRegistroPersonaNoRegistrada (env : Entorno) (libro : Libro) (reloj : Reloj)
    (datos : Option DatosVisitante) : ResultadoComentario × Libro :=
  match datos with
  | none => ({ success := false, message := "Error: Datos de visitante no proporcionados" }, libro)
  | some datos =>
    if datos.cedula = "" || datos.nombre = "" || datos.tipoAcceso = "" then
      ({ success := false
         message := "Error: Datos de visitante incompletos (cédula, nombre y tipo de acceso " ++
           "son obligatorios)" }, libro)
    else
      let comentario := "VISITANTE: " ++ datos.nombre ++ " | " ++
        (if datos.empresa = "" then "N/A" else datos.empresa) ++ " | MOTIVO: " ++
        (if datos.motivo = "" then "No especificado" else datos.motivo)
      let empresa := if datos.empresa = "" then "Visitante" else datos.empresa
      let escrito :=
        if datos.tipoAcceso = "entrada" then
          registrarEnHoja env libro reloj datos.cedula datos.nombre empresa reloj.ahora (.texto "")
            "entrada" comentario
        else
          registrarEnHoja env libro reloj datos.cedula datos.nombre empresa (.texto "") reloj.ahora
            "salida" comentario
      ({ success := true
         message := capitalizar datos.tipoAcceso ++ " de visitante registrada correctamente" },
        marcarTemporal env escrito.2 escrito.1)

/-! ## Shift close -/

/-- The result of `finalizarTurno`. -/
structure ResultadoTurno where
  success : Bool
  message : String
  deriving DecidableEq, Repr

/-- The row that `finalizarTurno` archives for one row of the values read:
a copy whose comment cell has the mark ` [FIN TURNO]` appended. -/
def filaArchivada (cols : Columnas) (fila : List String) : Fila :=
  ponerEn "" fila cols.COMENTARIO (oSiNo fila[cols.COMENTARIO]? "" ++ " [FIN TURNO]")

/-- The function `finalizarTurno` of `registroB.js`. A missing sheet raises an
exception, which the function answers with `success: false`. -/
def finalizarTurno (env : Entorno) (libro : Libro) : ResultadoTurno × Libro :=
  match libro SHEET_REGISTRO with
  | none => ({ success := false, message := "Error al finalizar el turno: hoja no encontrada" }, libro)
  | some hojaRegistro =>
    let datos := getDataRangeValues hojaRegistro
    if datos.length ≤ 1 then
      ({ success := false, message := "No hay registros para finalizar el turno" }, libro)
    else
      match libro SHEET_HISTORIAL with
      | none =>
        ({ success := false, message := "Error al finalizar el turno: hoja no encontrada" }, libro)
      | some hojaHistorial =>
        let archivadas := (datos.drop 1).map (filaArchivada env.cols)
        let libro1 := ponerHoja libro SHEET_HISTORIAL (hojaHistorial ++ archivadas)
        let libro2 :=
          if getLastRow hojaRegistro > 1 then ponerHoja libro1 SHEET_REGISTRO (hojaRegistro.take 1)
          else libro1
        ({ success := true
           message := "Turno finalizado correctamente.\n" ++ toString (datos.length - 1) ++
             " registros han sido archivados en el historial." }, libro2)

/-! ## Statistics -/

/-- One turn of the loop of `obtenerEstadisticas`, on the dictionary
`cedulasDentro` (the value kept for an identifier is its check-in). -/
def pasoEstadisticas (cols : Columnas) (cedulasDentro : Objeto String) (fila : List String) :
    Objeto String :=
  let cedula := trim (oSiNo fila[cols.CEDULA]? "")
  if cedula = "" then cedulasDentro
  else
    let entrada := fila[cols.ENTRADA]?
    let salida := fila[cols.SALIDA]?
    let d1 := if verdadero entrada && !verdadero salida then
      cedulasDentro.poner cedula (textoDe entrada) else cedulasDentro
    if verdadero salida then d1.borrar cedula else d1

/-- The count `personasDentro` of `obtenerEstadisticas` in `registroB.js`: the
number of identifiers left in `cedulasDentro` after the last 300 data rows
(the other counters and the recent records of the result are left out). A
missing ledger raises an exception, which the function answers with zeros. -/
def obtenerEstadisticasPersonasDentro (env : Entorno) (libro : Libro) : Nat :=
  match libro SHEET_REGISTRO with
  | none => 0
  | some hojaRegistro =>
    let COLS := env.cols
    let lastRow := getLastRow hojaRegistro
    if lastRow ≤ 1 then 0
    else
      let maxRows := min (lastRow - 1) 300
      let startRow := max 2 (lastRow - maxRows + 1)
      let numCols :=
        [COLS.CEDULA, COLS.NOMBRE, COLS.EMPRESA, COLS.ENTRADA, COLS.SALIDA, COLS.ESTADO_ACCESO,
          COLS.COMENTARIO].foldr max 0 + 1
      let datos := getValues hojaRegistro startRow 1 maxRows numCols
      (datos.foldl (pasoEstadisticas COLS) []).enOrden.length

/-! ## Script lock -/

/-- What an operation does to the script lock and to the ledger, in program
order: `lock.waitLock(...)`, `lock.releaseLock()`, or a call that reads or
writes the sheet `Registro` (named by the routine called). -/
inductive Evento where
  | waitLock
  | releaseLock
  | acceso (rutina : String)
  deriving DecidableEq, Repr

/-- The events of `handleHTMLFormSubmit`: the lock is taken before the `try`
and released in its `finally`; between the two, requests with both parameters
call `verificarEntradaActiva` and then `procesarEntrada` or `procesarSalida`. -/
def eventosHandleHTMLFormSubmit (cedula tipoAcceso : String) : List Evento :=
  [Evento.waitLock] ++
    (if cedula = "" || tipoAcceso = "" then []
     else
      [Evento.acceso "verificarEntradaActiva"] ++
        (if tipoAcceso = "entrada" then [Evento.acceso "procesarEntrada"]
         else if tipoAcceso = "salida" then [Evento.acceso "procesarSalida"]
         else [])) ++
    [Evento.releaseLock]

/-- The events of `manejarComentarioPersonaRegistrada`: for a person of the
directory, `registrarEnHoja` and, when a row index came back, `setValue` on
the status cell. The function makes no call on the lock. -/
def eventosManejarComentario (persona : Option Usuario) (escrito : ResultadoRegistro) :
    List Evento :=
  match persona with
  | some _ =>
    [Evento.acceso "registrarEnHoja"] ++
      (if escrito.filaIndex = 0 then [] else [Evento.acceso "setValue"])
  | none => []

/-- The events of `procesarRegistroPersonaNoRegistrada`: for a form with
identifier, name and action, `registrarEnHoja` and, when a row index came back,
`setValue` on the status cell. The function makes no call on the lock. -/
def eventosProcesarRegistro (datos : Option DatosVisitante) (escrito : ResultadoRegistro) :
    List Evento :=
  match datos with
  | none => []
  | some datos =>
    if datos.cedula = "" || datos.nombre = "" || datos.tipoAcceso = "" then []
    else
      [Evento.acceso "registrarEnHoja"] ++
        (if escrito.filaIndex = 0 then [] else [Evento.acceso "setValue"])

/-- The events of `registrarSalidasMasivas`: in the REAL branch the ledger is
read once and two cells are written for each roster entry that has an open row;
the SIMULACRO branch does not touch the ledger. The function makes no call on
the lock. -/
def eventosRegistrarSalidasMasivas (env : Entorno) (estado : Estado) (cedulas : List String)
    (tipo : String) : List Evento :=
  if cedulas.isEmpty then []
  else if toUpperCase tipo = "REAL" then
    match estado.libro SHEET_REGISTRO with
    | none => []
    | some hojaRegistro =>
      let datos := getDataRangeValues hojaRegistro
      [Evento.acceso "getDataRange"] ++
        cedulas.flatMap (fun cedula =>
          if (buscarHaciaAtras (esAbiertaPara env.cols datos cedula) datos.length).isSome then
            [Evento.acceso "setValue", Evento.acceso "setValue"]
          else [])
  else []

/-! ## Vocabulary of the specification -/

/-- The character of a decimal digit. -/
def digitoChar (d : Nat) : Char := Char.ofNat (48 + d)

/-- A number below 100 written with two digits. -/
def dosDigitos (n : Nat) : String := ⟨[digitoChar (n / 10), digitoChar (n % 10)]⟩

/-- A time of day as the specification writes it: `HH:MM:SS` or `HH:MM`. -/
inductive HoraDelDia where
  | hms (h m s : Nat)
  | hm (h m : Nat)
  deriving DecidableEq, Repr

/-- The text of a time of day. -/
def HoraDelDia.texto : HoraDelDia → String
  | .hms h m s => dosDigitos h ++ ":" ++ dosDigitos m ++ ":" ++ dosDigitos s
  | .hm h m => dosDigitos h ++ ":" ++ dosDigitos m

/-- A time of day is valid when its hour is below 24 and its minute and second
are below 60. -/
def HoraDelDia.valida : HoraDelDia → Prop
  | .hms h m s => h < 24 ∧ m < 60 ∧ s < 60
  | .hm h m => h < 24 ∧ m < 60

instance HoraDelDia.decidableValida : (a : HoraDelDia) → Decidable a.valida
  | .hms _ _ _ => inferInstanceAs (Decidable (_ ∧ _ ∧ _))
  | .hm _ _ => inferInstanceAs (Decidable (_ ∧ _))

/-- The seconds since midnight of a time of day. -/
def HoraDelDia.segundos : HoraDelDia → Nat
  | .hms h m s => h * 3600 + m * 60 + s
  | .hm h m => h * 3600 + m * 60

/-- The text `H:MM:SS` that encodes a number of seconds: hours unpadded,
minutes and seconds with two digits. -/
def codificarDuracion (d : Nat) : String :=
  toString (d / 3600) ++ ":" ++ dosDigitos (d % 3600 / 60) ++ ":" ++ dosDigitos (d % 60)

/-- The cell of row `fila` (counted from 1) at position `pos` (counted from 0,
as in the column map). -/
def campo (hoja : Hoja) (fila pos : Nat) : String := celda hoja fila (pos + 1)

/-- Row `k` is in the window of the resolver: it is one of the last
`min 100 n` data rows, where `n` is the number of data rows. -/
def enVentana (hoja : Hoja) (k : Nat) : Prop :=
  hoja.length - min 100 (hoja.length - 1) < k ∧ k ≤ hoja.length

instance enVentana.decidable (hoja : Hoja) (k : Nat) : Decidable (enVentana hoja k) :=
  inferInstanceAs (Decidable (_ ∧ _))

/-- Row `k` is an open entry of an identifier on a date: the row has an
identifier (its identifier cell is not blank) which, trimmed, equals the trimmed
query; the date part of its date cell is the date; its check-in is not empty and
its check-out is empty. -/
def esFilaAbierta (cols : Columnas) (hoja : Hoja) (cedula fecha : String) (k : Nat) : Prop :=
  trim (campo hoja k cols.CEDULA) = trim cedula ∧ trim cedula ≠ "" ∧
    primeraParte 'T' (campo hoja k cols.FECHA) = fecha ∧
    campo hoja k cols.ENTRADA ≠ "" ∧ campo hoja k cols.SALIDA = ""

instance esFilaAbierta.decidable (cols : Columnas) (hoja : Hoja) (cedula fecha : String)
    (k : Nat) : Decidable (esFilaAbierta cols hoja cedula fecha k) :=
  inferInstanceAs (Decidable (_ ∧ _ ∧ _ ∧ _ ∧ _))

/-! ## Examples -/

/-- The header row of the ledger in the default layout. -/
def ejemploEncabezado : Fila :=
  ["Fecha", "Cédula", "Nombre", "Estado del Acceso", "Entrada", "Salida", "Duración", "Empresa",
    "Comentario"]

/-- A ledger of 6 May 2024: Ana came and left, Luis came twice and is inside. -/
def ejemploHoja : Hoja :=
  [ejemploEncabezado,
   ["2024-05-06", "8-123-456", "Ana Pérez", "Acceso Permitido", "07:55:10", "12:01:00", "4:05:50",
     "ACME", ""],
   ["2024-05-06", "77", "Luis", "Acceso Permitido", "08:00:00", "", "", "Beta", ""],
   ["2024-05-06", " 77 ", "Luis", "Acceso Permitido", " 08:10:00", "", "", "Beta", ""]]

/-- A spreadsheet with the example ledger, an archive and a personnel store. -/
def ejemploLibro : Libro := fun n =>
  if n = "Registro" then some ejemploHoja
  else if n = "Historial Archivados" then some [ejemploEncabezado]
  else if n = "Base de Datos" then
    some [["Cédula", "Nombre", "Empresa"], ["8-123-456", "Ana Pérez", "ACME"],
      ["77", "Luis", "Beta"], ["5", "Eva", "Gamma"]]
  else none

/-- A reading of the clock on 6 May 2024 at 09:30:00 local time. -/
def ejemploReloj : Reloj :=
  { iso := "2024-05-06T14:30:00.000Z", horas := 9, minutos := 30, segundos := 0,
    sello := "20240506_093000" }

/-- A presence state that reports an open entry in row 4 with check-in
`08:10:00`. -/
def ejemploEntradaActiva : EntradaActiva :=
  { found := true, fila := 4, cedula := "77", nombre := "Luis", empresa := "Beta",
    horaEntrada := "08:10:00" }

/-- A directory entry. -/
def ejemploPersona : Usuario :=
  { cedula := "77", nombre := "Luis", empresa := "Beta", busqueda := "77 luis beta",
    cedulaNormalizada := "77" }

/-- A host with the default column layout and a date parser that rejects
every text. -/
def ejemploEntorno : Entorno := { cols := Columnas.porDefecto, tiempoDeFecha := fun _ => none }

/-- A second directory entry. -/
def ejemploEva : Usuario :=
  { cedula := "5", nombre := "Eva", empresa := "Gamma", busqueda := "5 eva gamma",
    cedulaNormalizada := "5" }

/-- Row `k` (counted from 1) of the ledger as `getDataRange().getValues()`
returns it. -/
def filaLeida (hoja : Hoja) (k : Nat) : List String := (getDataRangeValues hoja).getD (k - 1) []

/-- Row `k` is an open row of a roster entry: it is a data row whose identifier
text, trimmed, is the roster entry, whose check-in is not empty and whose
check-out is empty. -/
def esAbiertaDe (cols : Columnas) (hoja : Hoja) (cedula : String) (k : Nat) : Prop :=
  2 ≤ k ∧ k ≤ hoja.length ∧ trim (textoDe (filaLeida hoja k)[cols.CEDULA]?) = cedula ∧
    verdadero (filaLeida hoja k)[cols.ENTRADA]? = true ∧
    verdadero (filaLeida hoja k)[cols.SALIDA]? = false

instance esAbiertaDe.decidable (cols : Columnas) (hoja : Hoja) (cedula : String) (k : Nat) :
    Decidable (esAbiertaDe cols hoja cedula k) :=
  inferInstanceAs (Decidable (_ ∧ _ ∧ _ ∧ _ ∧ _))

/-- The roster entry has an open row somewhere in the ledger. -/
def tieneAbierta (cols : Columnas) (hoja : Hoja) (cedula : String) : Prop :=
  ∃ k, k ≤ hoja.length ∧ esAbiertaDe cols hoja cedula k

instance tieneAbierta.decidable (cols : Columnas) (hoja : Hoja) (cedula : String) :
    Decidable (tieneAbierta cols hoja cedula) :=
  inferInstanceAs (Decidable (∃ k, k ≤ hoja.length ∧ esAbiertaDe cols hoja cedula k))

/-- The error that the bulk close-out reports for a roster entry. -/
def errorSinEntrada (cedula : String) : String := "No se encontró entrada activa para " ++ cedula

/-- The engine state with the example spreadsheet and an empty directory
index. -/
def ejemploEstado : Estado := { libro := ejemploLibro, cacheUsuarios := [] }

/-- The number of rows of the ledger whose check-out cell went from empty to
filled between two states of the ledger. -/
def filasCerradas (cols : Columnas) (antes despues : Hoja) : Nat :=
  ((List.range (antes.length + 1)).filter (fun k =>
    decide (1 ≤ k) && decide (campo antes k cols.SALIDA = "") &&
      decide (campo despues k cols.SALIDA ≠ ""))).length

/-- A column map that differs from the default one: the check-out is in
column I (position 8) and the comment in column F (position 5). -/
def ejemploColumnas : Columnas :=
  { FECHA := 0, CEDULA := 1, NOMBRE := 2, ESTADO_ACCESO := 3, ENTRADA := 4, SALIDA := 8,
    DURACION := 6, EMPRESA := 7, COMENTARIO := 5 }

/-- A ledger in the layout of `ejemploColumnas` in which Luis has an open
entry. -/
def ejemploHojaOtraDisposicion : Hoja :=
  [["Fecha", "Cédula", "Nombre", "Estado del Acceso", "Entrada", "Comentario", "Duración",
     "Empresa", "Salida"],
   ["2024-05-06", "77", "Luis", "Acceso Permitido", "08:00:00", "", "", "Beta", ""]]

/-- A spreadsheet whose ledger is in the layout of `ejemploColumnas`. -/
def ejemploLibroOtraDisposicion : Libro := fun n =>
  if n = "Registro" then some ejemploHojaOtraDisposicion
  else if n = "Historial Archivados" then some []
  else none

/-- A spreadsheet with the example ledger but without the archive sheet. -/
def ejemploLibroSinHistorial : Libro := fun n =>
  if n = "Registro" then some ejemploHoja else none

/-- The property names of a dictionary, in the order they were created. -/
def Objeto.claves {α : Type} (o : Objeto α) : List String := o.map (fun p => p.1)

/-- An engine state whose directory index is a stale copy that knows Eva only,
while the personnel store also lists Ana and Luis. -/
def ejemploEstadoObsoleto : Estado := { libro := ejemploLibro, cacheUsuarios := [("5", ejemploEva)] }

/-- The digits-only identifier of an entry equals the digits-only form of the
query. -/
def coincideDigitos (u : Usuario) (q : String) : Prop := u.cedulaNormalizada = soloDigitos q

instance coincideDigitos.decidable (u : Usuario) (q : String) : Decidable (coincideDigitos u q) :=
  inferInstanceAs (Decidable (_ = _))

/-- The search text of an entry (lower-cased identifier, name and
organization) contains the lower-cased trimmed query. -/
def coincideTexto (u : Usuario) (q : String) : Prop :=
  u.busqueda ≠ "" ∧ incluye u.busqueda (toLowerCase (trim q)) = true

instance coincideTexto.decidable (u : Usuario) (q : String) : Decidable (coincideTexto u q) :=
  inferInstanceAs (Decidable (_ ∧ _))

/-- The candidate row equals the last row of the ledger field by field, and
that row is a data row. -/
def esUltimaFila (hoja : Hoja) (fila : Fila) : Prop :=
  1 < getLastRow hoja ∧
    ∀ j, j < fila.length → fila.getD j "" = celda hoja (getLastRow hoja) (j + 1)

instance esUltimaFila.decidable (hoja : Hoja) (fila : Fila) : Decidable (esUltimaFila hoja fila) :=
  inferInstanceAs (Decidable (_ ∧ _))

/-- The row of a justified check-out, in the default layout. -/
def filaJustificada (reloj : Reloj) (persona : Usuario) (cedula comentario : String) : Fila :=
  [reloj.fechaHoy, trim cedula, if persona.nombre = "" then "N/A" else persona.nombre,
    ESTADO_TEMPORAL, "", formatearHora reloj.ahora, "",
    if persona.empresa = "" then "N/A" else persona.empresa, "JUSTIFICADO: " ++ comentario]

/-- The comment that the visitor commit writes. -/
def comentarioVisitante (datos : DatosVisitante) : String :=
  "VISITANTE: " ++ datos.nombre ++ " | " ++
    (if datos.empresa = "" then "N/A" else datos.empresa) ++ " | MOTIVO: " ++
    (if datos.motivo = "" then "No especificado" else datos.motivo)

/-- The row of a visitor, in the default layout: open for a check-in,
check-out only otherwise. -/
def filaVisitante (reloj : Reloj) (datos : DatosVisitante) : Fila :=
  [reloj.fechaHoy, trim datos.cedula, datos.nombre, ESTADO_TEMPORAL,
    if datos.tipoAcceso = "entrada" then formatearHora reloj.ahora else "",
    if datos.tipoAcceso = "entrada" then "" else formatearHora reloj.ahora, "",
    if datos.empresa = "" then "Visitante" else datos.empresa, comentarioVisitante datos]

/-- The example state after Luis has committed the justified check-out
`olvido` at the example clock reading. -/
def ejemploEstadoJustificado : Estado :=
  (manejarComentarioPersonaRegistrada ejemploEntorno ejemploEstado ejemploReloj "77" "olvido").2

/-- A visitor form for a check-in. -/
def ejemploVisitante : DatosVisitante := { cedula := "9", nombre := "Rosa", tipoAcceso := "entrada" }

/-- A number below 10000 written with four digits. -/
def cuatroDigitos (n : Nat) : String :=
  ⟨[digitoChar (n / 1000), digitoChar (n / 100 % 10), digitoChar (n / 10 % 10), digitoChar (n % 10)]⟩

/-- A calendar date: day, month and year. -/
structure FechaCalendario where
  dia : Nat
  mes : Nat
  anio : Nat
  deriving DecidableEq, Repr

/-- The day is between 1 and 31, the month between 1 and 12 and the year has
at most four digits. -/
def FechaCalendario.valida (d : FechaCalendario) : Prop :=
  1 ≤ d.dia ∧ d.dia ≤ 31 ∧ 1 ≤ d.mes ∧ d.mes ≤ 12 ∧ d.anio ≤ 9999

instance FechaCalendario.decidableValida (d : FechaCalendario) : Decidable d.valida :=
  inferInstanceAs (Decidable (_ ∧ _ ∧ _ ∧ _ ∧ _))

/-- The date written `DD/MM/YYYY`. -/
def FechaCalendario.texto (d : FechaCalendario) : String :=
  dosDigitos d.dia ++ "/" ++ dosDigitos d.mes ++ "/" ++ cuatroDigitos d.anio

/-- The date written `YYYY-MM-DD`. -/
def FechaCalendario.fechaISO (d : FechaCalendario) : String :=
  cuatroDigitos d.anio ++ "-" ++ dosDigitos d.mes ++ "-" ++ dosDigitos d.dia

/-- A time of day with its seconds written out. -/
def HoraDelDia.completa : HoraDelDia → HoraDelDia
  | .hms h m s => .hms h m s
  | .hm h m => .hms h m 0

/-- The host reads the local date-times of one calendar date on a uniform
scale: `new Date(iso).getTime()`, for the date and a valid time of day, is a
base value plus 1000 times the seconds since midnight (the offset of the local
clock does not change within the day). -/
def hostUniforme (tiempoDeFecha : String → Option Int) (d : FechaCalendario) (base : Int) : Prop :=
  ∀ a : HoraDelDia, a.valida →
    tiempoDeFecha (d.fechaISO ++ "T" ++ a.completa.texto) = some (base + 1000 * (a.segundos : Int))

/-- A host that reads the time of day after the `T` of an ISO text and counts
the milliseconds from the midnight of the same date. -/
def ejemploHost (iso : String) : Option Int :=
  let c := componentesHora (.texto ⟨(partir 'T' iso.data).getD 1 []⟩)
  some (0 + 1000 * (c.1 * 3600 + c.2.1 * 60 + c.2.2))

/-- The date 6 May 2024. -/
def ejemploFecha : FechaCalendario := { dia := 6, mes := 5, anio := 2024 }

/-- The lock discipline on a sequence of events, read from left to right with
the lock free at the start: `none` when the ledger is touched while the lock
is not held, otherwise whether the lock is held at the end. -/
def cerrojoTras : List Evento → Bool → Option Bool
  | [], tomado => some tomado
  | Evento.waitLock :: resto, _ => cerrojoTras resto true
  | Evento.releaseLock :: resto, _ => cerrojoTras resto false
  | Evento.acceso _ :: resto, tomado => if tomado then cerrojoTras resto true else none

/-- The ledger is touched only while the lock is held, and the lock is free
at the end. -/
def respetaCerrojo (eventos : List Evento) : Prop := cerrojoTras eventos false = some false

instance respetaCerrojo.decidable (eventos : List Evento) : Decidable (respetaCerrojo eventos) :=
  inferInstanceAs (Decidable (_ = _))

/-- The row of the snapshot is open: it carries a check-in and no check-out. -/
def abreEvacuacion (fila : List String) : Bool := tieneValor fila[4]? && !tieneValor fila[5]?

/-- The row of the snapshot counts for the identifier `c`: its identifier is
`c`, not blank, and it carries a check-in or a check-out. -/
def cuentaPara (fila : List String) (c : String) : Prop :=
  cedulaDeFila fila = c ∧ c ≠ "" ∧ (tieneValor fila[4]? = true ∨ tieneValor fila[5]? = true)

/-- Data row `i` (counted from 0) of the values that the snapshot reads. -/
def filaEvacuacion (hoja : Hoja) (i : Nat) : List String :=
  (List.range (getLastColumn hoja)).map (fun j => celda hoja (1 + (i + 1)) (1 + j))

/-- The cell at position `pos` of row `k` carries a time: it is not blank and
is not the text `Invalid Date`. -/
def lleva (hoja : Hoja) (k pos : Nat) : Prop :=
  trim (campo hoja k pos) ≠ "" ∧ campo hoja k pos ≠ "Invalid Date"

instance lleva.decidable (hoja : Hoja) (k pos : Nat) : Decidable (lleva hoja k pos) :=
  inferInstanceAs (Decidable (_ ∧ _))

/-- Row `k` is the last row of the identifier `c` that carries a check-in or a
check-out (columns E and F). -/
def esUltimaMarca (hoja : Hoja) (c : String) (k : Nat) : Prop :=
  2 ≤ k ∧ k ≤ getLastRow hoja ∧ trim (campo hoja k 1) = c ∧ (lleva hoja k 4 ∨ lleva hoja k 5) ∧
    ∀ q, q ≤ getLastRow hoja → k < q → trim (campo hoja q 1) = c →
      ¬ (lleva hoja q 4 ∨ lleva hoja q 5)

instance esUltimaMarca.decidable (hoja : Hoja) (c : String) (k : Nat) :
    Decidable (esUltimaMarca hoja c k) :=
  inferInstanceAs (Decidable (_ ∧ _ ∧ _ ∧ _ ∧ _))

/-- The identifier `c` is inside: the last row of `c` that carries a check-in
or a check-out has a check-in and no check-out. -/
def estaDentro (hoja : Hoja) (c : String) : Prop :=
  ∃ k, k ≤ getLastRow hoja ∧ esUltimaMarca hoja c k ∧ lleva hoja k 4 ∧ ¬ lleva hoja k 5

instance estaDentro.decidable (hoja : Hoja) (c : String) : Decidable (estaDentro hoja c) :=
  inferInstanceAs (Decidable (∃ k, k ≤ getLastRow hoja ∧ _))

/-- The annotation of row `k`: identifier, name (column C), organization
(column H) and check-in (column E). -/
def personaDeHoja (hoja : Hoja) (k : Nat) : PersonaDentro :=
  { cedula := trim (campo hoja k 1)
    nombre := if campo hoja k 2 = "" then "Sin nombre" else trim (campo hoja k 2)
    empresa := if campo hoja k 7 = "" then "Sin empresa" else trim (campo hoja k 7)
    horaEntrada := campo hoja k 4 }

/-- Row `k` is the most recent open row of a roster entry. -/
def esUltimaAbiertaDe (cols : Columnas) (hoja : Hoja) (cedula : String) (k : Nat) : Prop :=
  esAbiertaDe cols hoja cedula k ∧ ∀ q, q ≤ hoja.length → k < q → ¬ esAbiertaDe cols hoja cedula q

instance esUltimaAbiertaDe.decidable (cols : Columnas) (hoja : Hoja) (cedula : String) (k : Nat) :
    Decidable (esUltimaAbiertaDe cols hoja cedula k) :=
  inferInstanceAs (Decidable (_ ∧ _))

/-- Row `k` is the most recent open row of some entry of the roster. -/
def cierraMasivo (cols : Columnas) (hoja : Hoja) (cedulas : List String) (k : Nat) : Prop :=
  ∃ c ∈ cedulas, esUltimaAbiertaDe cols hoja c k

instance cierraMasivo.decidable (cols : Columnas) (hoja : Hoja) (cedulas : List String) (k : Nat) :
    Decidable (cierraMasivo cols hoja cedulas k) :=
  inferInstanceAs (Decidable (∃ c ∈ cedulas, _))

/-- The time of day of a clock reading. -/
def Reloj.hora (r : Reloj) : HoraDelDia := .hms r.horas r.minutos r.segundos

/-- The ledger `despues` keeps the rows of the ledger `antes`: it has at least
as many rows, and a cell of a row of `antes` differs only if it is the check-out
or the duration (columns F and G) of a row whose check-out was empty. -/
def soloAnexa (antes despues : Hoja) : Prop :=
  antes.length ≤ despues.length ∧
    ∀ i j, 1 ≤ i → i ≤ antes.length → campo despues i j ≠ campo antes i j →
      (j = Columnas.porDefecto.SALIDA ∨ j = Columnas.porDefecto.DURACION) ∧
        campo antes i Columnas.porDefecto.SALIDA = ""

/-- The check-in and check-out cells (columns E and F) of every data row are
each either empty or a time: not blank and not the text `Invalid Date`. -/
def horasRegulares (hoja : Hoja) : Prop :=
  ∀ k, k ≤ getLastRow hoja → 2 ≤ k →
    (campo hoja k 4 = "" ∨ lleva hoja k 4) ∧ (campo hoja k 5 = "" ∨ lleva hoja k 5)

instance horasRegulares.decidable (hoja : Hoja) : Decidable (horasRegulares hoja) :=
  inferInstanceAs (Decidable (∀ k, k ≤ getLastRow hoja → _))

/-- The effect of one row on the property names of the dictionary of people
inside, for the identifier `c` of the row and the truth of its check-in and of
its check-out (the name `__proto__` never becomes a property). -/
def pasoClaves (claves : List String) (c : String) (entrada salida : Bool) : List String :=
  if c = "" then claves
  else if entrada && !salida then
    (if c = "__proto__" then claves else if c ∈ claves then claves else claves ++ [c])
  else if salida then claves.filter (fun k => k ≠ c)
  else claves

/-- Data row `i` (counted from 0) of the values that the statistics read from
a ledger of at most 300 data rows, in the default layout. -/
def filaEstadisticas (hoja : Hoja) (i : Nat) : List String :=
  (List.range 9).map (fun j => celda hoja (2 + i) (1 + j))

/-- The data rows of a sheet of the spreadsheet: the rows below its header
row; none when the spreadsheet has no sheet of that name. -/
def filasDeDatos (libro : Libro) (nombre : String) : List Fila := ((libro nombre).getD []).drop 1

/-- The personnel store lists a person: the sheet exists and has a row below
its header row, so that `verificarYCrearEstructuraHojas` does not call
`crearDatosPrueba`. -/
def tienePersonal (libro : Libro) : Prop := filasDeDatos libro SHEET_BD ≠ []

instance tienePersonal.decidable (libro : Libro) : Decidable (tienePersonal libro) :=
  inferInstanceAs (Decidable (_ ≠ _))

/-- The sheet of that name exists and row 1 starts with its predefined
headers. -/
def hojaEnOrden (libro : Libro) (nombre : String) : Bool :=
  match libro nombre with
  | some hoja =>
    decide ((hoja.headD []).take (getEncabezadosPredefinidos nombre).length =
      getEncabezadosPredefinidos nombre)
  | none => false

/-- The structure of the spreadsheet is in order: each of the seven sheets that
`verificarYCrearEstructuraHojas` requires exists and starts with its predefined
headers. -/
def estructuraEnOrden (libro : Libro) : Prop :=
  ∀ nombre ∈ estructuraHojas, hojaEnOrden libro nombre = true

instance estructuraEnOrden.decidable (libro : Libro) : Decidable (estructuraEnOrden libro) :=
  inferInstanceAs (Decidable (∀ nombre ∈ estructuraHojas, _))

/-- The spreadsheet `despues` keeps the sheets of `antes` and their data rows:
every sheet has the data rows it had, and a sheet that existed exists with at
least as many rows. Only header rows may differ, and sheets without data rows
may have been added. -/
def conservaDatos (antes despues : Libro) : Prop :=
  ∀ nombre, filasDeDatos despues nombre = filasDeDatos antes nombre ∧
    ∀ hoja, antes nombre = some hoja →
      ∃ hoja', despues nombre = some hoja' ∧ hoja.length ≤ hoja'.length

/-- A spreadsheet whose structure is in order: the example ledger, the archive,
the personnel store and the four other sheets, each under its predefined
headers. -/
def ejemploLibroEnOrden : Libro := fun n =>
  if n = "Registro" then some ejemploHoja
  else if n = "Historial Archivados" then some [ejemploEncabezado]
  else if n = "Base de Datos" then
    some [["Cédula", "Nombre", "Empresa", "Área", "Cargo", "Estado"],
      ["8-123-456", "Ana Pérez", "ACME", "Ventas", "Gerente", "Activo"],
      ["77", "Luis", "Beta", "Taller", "Técnico", "Activo"],
      ["5", "Eva", "Gamma", "Planta", "Operaria", "Activo"]]
  else if n = "Logs" then some [["Timestamp", "Nivel", "Mensaje", "Detalles", "Usuario", "IP"]]
  else if n = "Evacuaciones" then
    some [["Fecha", "Hora", "Tipo", "Personas Evacuadas", "Total Personas", "Estado",
      "Responsable"]]
  else if n = "Configuración" then some [["Clave", "Valor", "Categoría"]]
  else if n = "Errores" then
    some [["Timestamp", "Código Error", "Mensaje Error", "Componente", "Detalles"]]
  else none

/-- The engine state at the start of a script execution (empty directory
index) on the spreadsheet whose structure is in order. -/
def ejemploEstadoEnOrden : Estado := { libro := ejemploLibroEnOrden, cacheUsuarios := [] }

/-- The engine state at the start of a script execution on the spreadsheet
whose structure is in order, with a ledger that has its header row only. -/
def ejemploEstadoSinRegistros : Estado :=
  { libro := ponerHoja ejemploLibroEnOrden SHEET_REGISTRO [ejemploEncabezado],
    cacheUsuarios := [] }

/-- A reading of the clock on 6 May 2024 at 18:00:00 local time in the zone
`America/Panama` (UTC-5): 23:00:00 of the same day in UTC. -/
def ejemploRelojTarde : Reloj :=
  { iso := "2024-05-06T23:00:00.000Z", horas := 18, minutos := 0, segundos := 0,
    sello := "20240506_180000" }

/-- A reading of the clock on 6 May 2024 at 19:30:00 local time in the zone
`America/Panama`: 00:30:00 of 7 May in UTC. -/
def ejemploRelojNoche : Reloj :=
  { iso := "2024-05-07T00:30:00.000Z", horas := 19, minutos := 30, segundos := 0,
    sello := "20240506_193000" }

/-- The engine state at the start of the next script execution, after the
check-in of Eva at 18:00:00. -/
def ejemploTrasEntradaTarde : Estado :=
  { libro := (handleHTMLFormSubmit ejemploEntorno ejemploEstadoSinRegistros ejemploRelojTarde "5"
      "entrada").2.libro,
    cacheUsuarios := [] }
/-- A ledger whose header row differs from the predefined one in three cells
(`Cedula`, `Estado`, `Duracion`), with the rows of the example ledger. -/
def ejemploHojaCedula : Hoja :=
  [["Fecha", "Cedula", "Nombre", "Estado", "Entrada", "Salida", "Duracion", "Empresa",
     "Comentario"],
   ["2024-05-06", "8-123-456", "Ana Pérez", "Acceso Permitido", "07:55:10", "12:01:00", "4:05:50",
     "ACME", ""],
   ["2024-05-06", "77", "Luis", "Acceso Permitido", "08:00:00", "", "", "Beta", ""]]

/-- The engine state at the start of a script execution on a spreadsheet whose
ledger is `ejemploHojaCedula`. -/
def ejemploEstadoCedula : Estado :=
  { libro := ponerHoja ejemploLibroEnOrden SHEET_REGISTRO ejemploHojaCedula, cacheUsuarios := [] }

/-- A spreadsheet whose ledger has the check-out under the header `Salida` in
column I and the comment in column F; Luis came at 08:00:00 and left at
09:30:00. -/
def ejemploLibroSalidaEnI : Libro := fun n =>
  if n = "Registro" then
    some [["Fecha", "Cédula", "Nombre", "Estado del Acceso", "Entrada", "Comentario", "Duración",
        "Empresa", "Salida"],
      ["2024-05-06", "77", "Luis", "Acceso Permitido", "08:00:00", "", "1:30:00", "Beta",
        "09:30:00"]]
  else none

/-- A ledger under the predefined headers whose only row is an open entry of
the identifier `__proto__`. -/
def ejemploHojaProto : Hoja :=
  [ejemploEncabezado,
   ["2024-05-06", "__proto__", "Rosa", "Acceso Permitido", "08:00:00", "", "", "Delta", ""]]

/-- The ledger `despues` keeps the data rows of the ledger `antes`: it has at
least as many rows, and a cell of a row of `antes` below the header row differs
only if it is the check-out or the duration (columns F and G) of a row whose
check-out was empty. -/
def conservaFilas (antes despues : Hoja) : Prop :=
  antes.length ≤ despues.length ∧
    ∀ i j, 2 ≤ i → i ≤ antes.length → campo despues i j ≠ campo antes i j →
      (j = Columnas.porDefecto.SALIDA ∨ j = Columnas.porDefecto.DURACION) ∧
        campo antes i Columnas.porDefecto.SALIDA = ""

/-- The column map that the code detects from the header row of the ledger is
the default one, on the spreadsheet as it is and as the structure check of
`inicializarCacheUsuarios` leaves it: a request on this state runs with the
default column map. -/
def mapaPorDefecto (estado : Estado) : Prop :=
  inicializarEstructurasColumnas estado.libro = Columnas.porDefecto ∧
    inicializarEstructurasColumnas (inicializarCacheUsuarios estado).libro = Columnas.porDefecto

instance mapaPorDefecto.decidable (estado : Estado) : Decidable (mapaPorDefecto estado) :=
  inferInstanceAs (Decidable (_ ∧ _))

/-! ## Properties -/

/-! ### Text primitives -/

theorem digitoChar_ne_dosPuntos : ∀ d, d < 10 → digitoChar d ≠ ':' := by decide

theorem parseIntLista_dosDigitos :
    ∀ n, n < 100 → parseIntLista [digitoChar (n / 10), digitoChar (n % 10)] = some (Int.ofNat n) := by
  decide

theorem padStart2_entero : ∀ n, n < 100 → padStart2 (textoDeEntero (Int.ofNat n)) = dosDigitos n := by
  decide

theorem partir_tres (a b c d e f : Char) (ha : a ≠ ':') (hb : b ≠ ':') (hc : c ≠ ':')
    (hd : d ≠ ':') (he : e ≠ ':') (hf : f ≠ ':') :
    partir ':' [a, b, ':', c, d, ':', e, f] = [[a, b], [c, d], [e, f]] := by
  simp [partir, ha, hb, hc, hd, he, hf]

theorem partir_dos (a b c d : Char) (ha : a ≠ ':') (hb : b ≠ ':') (hc : c ≠ ':')
    (hd : d ≠ ':') :
    partir ':' [a, b, ':', c, d] = [[a, b], [c, d]] := by
  simp [partir, ha, hb, hc, hd]

/-! ### Duration calculator -/

theorem componentesHora_texto (a : HoraDelDia) (ha : a.valida) :
    componentesHora (.texto a.texto) =
      (match a with
       | .hms h m s => ((h : Int), (m : Int), (s : Int))
       | .hm h m => ((h : Int), (m : Int), 0)) := by
  cases a with
  | hms h m s =>
    obtain ⟨hh, hm, hs⟩ := ha
    have e1 : (HoraDelDia.hms h m s).texto.data =
        [digitoChar (h / 10), digitoChar (h % 10), ':', digitoChar (m / 10), digitoChar (m % 10),
          ':', digitoChar (s / 10), digitoChar (s % 10)] := rfl
    simp only [componentesHora, incluyeCaracter, e1]
    rw [partir_tres _ _ _ _ _ _
      (digitoChar_ne_dosPuntos _ (by omega)) (digitoChar_ne_dosPuntos _ (by omega))
      (digitoChar_ne_dosPuntos _ (by omega)) (digitoChar_ne_dosPuntos _ (by omega))
      (digitoChar_ne_dosPuntos _ (by omega)) (digitoChar_ne_dosPuntos _ (by omega))]
    simp [parseIntOCero, parseIntLista_dosDigitos h (by omega), parseIntLista_dosDigitos m (by omega),
      parseIntLista_dosDigitos s (by omega)]
  | hm h m =>
    obtain ⟨hh, hm⟩ := ha
    have e1 : (HoraDelDia.hm h m).texto.data =
        [digitoChar (h / 10), digitoChar (h % 10), ':', digitoChar (m / 10), digitoChar (m % 10)] := rfl
    simp only [componentesHora, incluyeCaracter, e1]
    rw [partir_dos _ _ _ _
      (digitoChar_ne_dosPuntos _ (by omega)) (digitoChar_ne_dosPuntos _ (by omega))
      (digitoChar_ne_dosPuntos _ (by omega)) (digitoChar_ne_dosPuntos _ (by omega))]
    simp [parseIntOCero, parseIntLista_dosDigitos h (by omega), parseIntLista_dosDigitos m (by omega)]

theorem textoDuracion_natural (d : Nat) : textoDuracion (d : Int) = codificarDuracion d := by
  unfold textoDuracion codificarDuracion
  have h1 : ((d : Int) / 3600) = Int.ofNat (d / 3600) := rfl
  have h2 : (Int.tmod (d : Int) 3600) / 60 = Int.ofNat (d % 3600 / 60) := rfl
  have h3 : Int.tmod (d : Int) 60 = Int.ofNat (d % 60) := rfl
  simp only [h1, h2, h3]
  rw [padStart2_entero _ (by omega), padStart2_entero _ (by omega)]
  rfl

theorem HoraDelDia.texto_verdadero (a : HoraDelDia) :
    (ValorHora.texto a.texto).verdadero = true := by
  have h : a.texto ≠ "" := by
    intro h
    have h2 := congrArg String.length h
    cases a <;> simp [HoraDelDia.texto, dosDigitos, String.length] at h2
  simp [ValorHora.verdadero, h]

theorem HoraDelDia.segundos_lt (a : HoraDelDia) (ha : a.valida) : a.segundos < 86400 := by
  cases a <;> simp only [HoraDelDia.valida, HoraDelDia.segundos] at * <;> omega

theorem totalSegundos_texto (a : HoraDelDia) (ha : a.valida) :
    (componentesHora (.texto a.texto)).1 * 3600 + (componentesHora (.texto a.texto)).2.1 * 60 +
      (componentesHora (.texto a.texto)).2.2 = (a.segundos : Int) := by
  rw [componentesHora_texto a ha]
  cases a <;> simp [HoraDelDia.segundos]

theorem calcularDuracionSimple_de_segundos (a b : HoraDelDia) (ha : a.valida) (hb : b.valida) :
    calcularDuracionSimple (.texto a.texto) (.texto b.texto) =
      codificarDuracion (((b.segundos : Int) - (a.segundos : Int)) % 86400).toNat := by
  have hsa := HoraDelDia.segundos_lt a ha
  have hsb := HoraDelDia.segundos_lt b hb
  unfold calcularDuracionSimple
  simp only [HoraDelDia.texto_verdadero, Bool.not_true, Bool.or_self, Bool.false_eq_true, if_false,
    totalSegundos_texto a ha, totalSegundos_texto b hb]
  have key : (if (b.segundos : Int) < (a.segundos : Int) then (b.segundos : Int) + 24 * 3600
      else (b.segundos : Int)) - (a.segundos : Int) =
      (((((b.segundos : Int) - (a.segundos : Int)) % 86400).toNat : Nat) : Int) := by
    split <;> omega
  rw [key]
  exact textoDuracion_natural _

/-- C6. Duration Calculator: for two valid times of day written `HH:MM:SS` or
`HH:MM`, `calcularDuracionSimple` returns the text `H:MM:SS` that encodes the
check-out seconds minus the check-in seconds modulo 86400; in particular
`08:00:00` to `09:30:00` gives `1:30:00` and `23:00:00` to `01:00:00` gives
`2:00:00`. -/
theorem calcularDuracionSimple_horas_del_dia (a b : HoraDelDia) (ha : a.valida)
    (hb : b.valida) :
    calcularDuracionSimple (.texto a.texto) (.texto b.texto) =
        codificarDuracion (((b.segundos : Int) - (a.segundos : Int)) % 86400).toNat ∧
      calcularDuracionSimple (.texto "08:00:00") (.texto "09:30:00") = "1:30:00" ∧
      calcularDuracionSimple (.texto "23:00:00") (.texto "01:00:00") = "2:00:00" :=
  ⟨calcularDuracionSimple_de_segundos a b ha hb, by decide, by decide⟩

/-- The duration from `23:15` to `00:05:30`, across midnight, is `0:50:30`. -/
theorem calcularDuracionSimple_horas_del_dia_witness :
    (HoraDelDia.hm 23 15).valida ∧ (HoraDelDia.hms 0 5 30).valida ∧
      calcularDuracionSimple (.texto "23:15") (.texto "00:05:30") = "0:50:30" :=
  ⟨by decide, by decide,
    (calcularDuracionSimple_horas_del_dia (.hm 23 15) (.hms 0 5 30) (by decide) (by decide)).1⟩

theorem getValues_length (hoja : Hoja) (f c n m : Nat) : (getValues hoja f c n m).length = n := by
  simp [getValues]

theorem getValues_getD (hoja : Hoja) (f c n m i : Nat) (hi : i < n) :
    (getValues hoja f c n m).getD i [] = (List.range m).map fun j => celda hoja (f + i) (c + j) := by
  simp [getValues, List.getD_eq_getElem?_getD, List.getElem?_map, List.getElem?_range, hi]

theorem getValues_celda (hoja : Hoja) (f n m i j : Nat) (hi : i < n) (hj : j < m) :
    ((getValues hoja f 1 n m).getD i [])[j]? = some (campo hoja (f + i) j) := by
  rw [getValues_getD hoja f 1 n m i hi]
  simp [List.getElem?_map, List.getElem?_range, hj, campo, Nat.add_comm]

theorem getValues_fuera (hoja : Hoja) (f n m i j : Nat) (hi : i < n) (hj : m ≤ j) :
    ((getValues hoja f 1 n m).getD i [])[j]? = none := by
  rw [getValues_getD hoja f 1 n m i hi]
  simp [hj]

theorem buscarHaciaAtras_some (p : Nat → Bool) (n i : Nat) (h : buscarHaciaAtras p n = some i) :
    i < n ∧ p i = true ∧ ∀ j, i < j → j < n → p j = false := by
  induction n with
  | zero => simp [buscarHaciaAtras] at h
  | succ n ih =>
    unfold buscarHaciaAtras at h
    by_cases hp : p n = true
    · simp only [hp, if_true, Option.some.injEq] at h
      subst h
      exact ⟨Nat.lt_succ_self _, hp, fun j h1 h2 => absurd h2 (by omega)⟩
    · simp only [hp] at h
      obtain ⟨h1, h2, h3⟩ := ih h
      refine ⟨by omega, h2, fun j hj1 hj2 => ?_⟩
      by_cases hjn : j = n
      · subst hjn; simpa using hp
      · exact h3 j hj1 (by omega)

theorem buscarHaciaAtras_none (p : Nat → Bool) (n : Nat) :
    buscarHaciaAtras p n = none ↔ ∀ j, j < n → p j = false := by
  induction n with
  | zero => simp [buscarHaciaAtras]
  | succ n ih =>
    unfold buscarHaciaAtras
    by_cases hp : p n = true
    · simp only [hp, if_true]
      constructor
      · intro h; cases h
      · intro h; have := h n (Nat.lt_succ_self _); simp [hp] at this
    · simp only [hp, Bool.false_eq_true, if_false]
      rw [ih]
      constructor
      · intro h j hj
        by_cases hjn : j = n
        · subst hjn; simpa using hp
        · exact h j (by omega)
      · intro h j hj
        exact h j (by omega)

theorem buscarHaciaAtras_isSome (p : Nat → Bool) (n : Nat) :
    (buscarHaciaAtras p n).isSome = true ↔ ∃ j, j < n ∧ p j = true := by
  cases h : buscarHaciaAtras p n with
  | none =>
    simp only [Option.isSome_none, Bool.false_eq_true, false_iff, not_exists, not_and]
    intro j hj
    simp [(buscarHaciaAtras_none p n).1 h j hj]
  | some i =>
    simp only [Option.isSome_some, true_iff]
    exact ⟨i, (buscarHaciaAtras_some p n i h).1, (buscarHaciaAtras_some p n i h).2.1⟩

theorem oSiNo_vacio (s : String) : oSiNo (some s) "" = s := by
  unfold oSiNo
  split
  · rename_i h; simp at h
  · rename_i t h; simp at h; subst h; split <;> simp_all

theorem columnas_leidas (cols : Columnas) :
    cols.CEDULA < [cols.CEDULA, cols.NOMBRE, cols.EMPRESA, cols.ENTRADA, cols.SALIDA,
        cols.FECHA].foldr max 0 + 1 ∧
      cols.NOMBRE < [cols.CEDULA, cols.NOMBRE, cols.EMPRESA, cols.ENTRADA, cols.SALIDA,
        cols.FECHA].foldr max 0 + 1 ∧
      cols.EMPRESA < [cols.CEDULA, cols.NOMBRE, cols.EMPRESA, cols.ENTRADA, cols.SALIDA,
        cols.FECHA].foldr max 0 + 1 ∧
      cols.ENTRADA < [cols.CEDULA, cols.NOMBRE, cols.EMPRESA, cols.ENTRADA, cols.SALIDA,
        cols.FECHA].foldr max 0 + 1 ∧
      cols.SALIDA < [cols.CEDULA, cols.NOMBRE, cols.EMPRESA, cols.ENTRADA, cols.SALIDA,
        cols.FECHA].foldr max 0 + 1 ∧
      cols.FECHA < [cols.CEDULA, cols.NOMBRE, cols.EMPRESA, cols.ENTRADA, cols.SALIDA,
        cols.FECHA].foldr max 0 + 1 := by
  simp only [List.foldr]
  omega

theorem trim_vacio : trim "" = "" := by decide

theorem esEntradaActiva_iff (cols : Columnas) (hoja : Hoja) (cedula fecha : String)
    (f n i : Nat) (hi : i < n) (hced : trim cedula ≠ "") :
    esEntradaActiva cols (trim cedula) fecha
        ((getValues hoja f 1 n
          ([cols.CEDULA, cols.NOMBRE, cols.EMPRESA, cols.ENTRADA, cols.SALIDA, cols.FECHA].foldr
            max 0 + 1)).getD i []) = true ↔
      esFilaAbierta cols hoja cedula fecha (f + i) := by
  unfold esEntradaActiva esFilaAbierta
  obtain ⟨c1, _, _, c4, c5, c6⟩ := columnas_leidas cols
  rw [getValues_celda hoja f n _ i cols.CEDULA hi c1, getValues_celda hoja f n _ i cols.FECHA hi c6,
    getValues_celda hoja f n _ i cols.ENTRADA hi c4, getValues_celda hoja f n _ i cols.SALIDA hi c5]
  simp only [verdadero, textoDe, Bool.and_eq_true, decide_eq_true_eq, Bool.not_eq_true',
    decide_eq_false_iff_not, ne_eq, not_not]
  constructor
  · rintro ⟨⟨⟨⟨_, h2⟩, h3⟩, h4⟩, h5⟩
    exact ⟨h3, hced, h2, h4, h5⟩
  · rintro ⟨h1, _, h3, h4, h5⟩
    refine ⟨⟨⟨⟨?_, h3⟩, h1⟩, h4⟩, h5⟩
    intro h0
    rw [h0, trim_vacio] at h1
    exact hced h1.symm

theorem verificarEntradaActiva_forma (cols : Columnas) (libro : Libro) (reloj : Reloj)
    (cedula : String) (hoja : Hoja) (hreg : libro SHEET_REGISTRO = some hoja)
    (hced : trim cedula ≠ "") (hlen : 2 ≤ hoja.length) :
    verificarEntradaActiva cols libro reloj cedula =
      match buscarHaciaAtras
          (fun i => esEntradaActiva cols (trim cedula) reloj.fechaHoy
            ((getValues hoja (hoja.length - min 100 (hoja.length - 1) + 1) 1
              (min 100 (hoja.length - 1))
              ([cols.CEDULA, cols.NOMBRE, cols.EMPRESA, cols.ENTRADA, cols.SALIDA,
                cols.FECHA].foldr max 0 + 1)).getD i []))
          (min 100 (hoja.length - 1)) with
      | some i =>
        { found := true
          fila := hoja.length - min 100 (hoja.length - 1) + 1 + i
          cedula := trim (campo hoja (hoja.length - min 100 (hoja.length - 1) + 1 + i) cols.CEDULA)
          nombre := campo hoja (hoja.length - min 100 (hoja.length - 1) + 1 + i) cols.NOMBRE
          empresa := campo hoja (hoja.length - min 100 (hoja.length - 1) + 1 + i) cols.EMPRESA
          horaEntrada := horaEntradaFormateada
            (some (campo hoja (hoja.length - min 100 (hoja.length - 1) + 1 + i) cols.ENTRADA)) }
      | none => { found := false, message := some "Sin entrada activa registrada" } := by
  have h0 : cedula ≠ "" := by
    rintro rfl
    exact hced trim_vacio
  have hf : max 2 (hoja.length - min 100 (hoja.length - 1) + 1) =
      hoja.length - min 100 (hoja.length - 1) + 1 := by omega
  unfold verificarEntradaActiva
  simp only [h0, hced, if_false, hreg, getLastRow, show ¬ hoja.length ≤ 1 by omega, hf,
    getValues_length]
  cases hb : buscarHaciaAtras
          (fun i => esEntradaActiva cols (trim cedula) reloj.fechaHoy
            ((getValues hoja (hoja.length - min 100 (hoja.length - 1) + 1) 1
              (min 100 (hoja.length - 1))
              ([cols.CEDULA, cols.NOMBRE, cols.EMPRESA, cols.ENTRADA, cols.SALIDA,
                cols.FECHA].foldr max 0 + 1)).getD i []))
          (min 100 (hoja.length - 1)) with
  | none => rfl
  | some i =>
    have hi := (buscarHaciaAtras_some _ _ _ hb).1
    simp only
    obtain ⟨c1, c2, c3, c4, _, _⟩ := columnas_leidas cols
    rw [getValues_celda hoja _ _ _ i cols.CEDULA hi c1, getValues_celda hoja _ _ _ i cols.NOMBRE hi c2,
      getValues_celda hoja _ _ _ i cols.EMPRESA hi c3, getValues_celda hoja _ _ _ i cols.ENTRADA hi c4]
    simp only [textoDe, oSiNo_vacio]

theorem horaEntradaFormateada_texto (e : String) :
    horaEntradaFormateada (some e) = if trim e = "" then "N/A" else trim e := by
  unfold horaEntradaFormateada
  by_cases h : trim e = "" <;> simp [h]

theorem verificarEntradaActiva_sin_cedula (cols : Columnas) (libro : Libro) (reloj : Reloj)
    (cedula : String) (hced : trim cedula = "") :
    (verificarEntradaActiva cols libro reloj cedula).found = false := by
  unfold verificarEntradaActiva
  by_cases h0 : cedula = "" <;> simp [h0, hced]

theorem verificarEntradaActiva_sin_filas (cols : Columnas) (libro : Libro) (reloj : Reloj)
    (cedula : String) (hoja : Hoja) (hreg : libro SHEET_REGISTRO = some hoja)
    (hlen : hoja.length ≤ 1) :
    (verificarEntradaActiva cols libro reloj cedula).found = false := by
  unfold verificarEntradaActiva
  by_cases h0 : cedula = ""
  · simp [h0]
  · by_cases h1 : trim cedula = ""
    · simp [h0, h1]
    · simp [h0, h1, hreg, getLastRow, hlen]

theorem verificarEntradaActiva_caracteriza (cols : Columnas) (libro : Libro) (reloj : Reloj)
    (cedula : String) (hoja : Hoja) (hreg : libro SHEET_REGISTRO = some hoja) :
    ((verificarEntradaActiva cols libro reloj cedula).found = true ↔
        ∃ k, enVentana hoja k ∧ esFilaAbierta cols hoja cedula reloj.fechaHoy k) ∧
      ((verificarEntradaActiva cols libro reloj cedula).found = true →
        enVentana hoja (verificarEntradaActiva cols libro reloj cedula).fila ∧
        esFilaAbierta cols hoja cedula reloj.fechaHoy
          (verificarEntradaActiva cols libro reloj cedula).fila ∧
        (∀ k, enVentana hoja k → esFilaAbierta cols hoja cedula reloj.fechaHoy k →
          k ≤ (verificarEntradaActiva cols libro reloj cedula).fila) ∧
        (verificarEntradaActiva cols libro reloj cedula).horaEntrada =
          (if trim (campo hoja (verificarEntradaActiva cols libro reloj cedula).fila cols.ENTRADA) = ""
           then "N/A"
           else trim (campo hoja (verificarEntradaActiva cols libro reloj cedula).fila cols.ENTRADA)) ∧
        (verificarEntradaActiva cols libro reloj cedula).nombre =
          campo hoja (verificarEntradaActiva cols libro reloj cedula).fila cols.NOMBRE ∧
        (verificarEntradaActiva cols libro reloj cedula).empresa =
          campo hoja (verificarEntradaActiva cols libro reloj cedula).fila cols.EMPRESA) := by
  by_cases hced : trim cedula = ""
  · have hf := verificarEntradaActiva_sin_cedula cols libro reloj cedula hced
    refine ⟨?_, by simp [hf]⟩
    simp only [hf, Bool.false_eq_true, false_iff, not_exists, not_and]
    intro k _ hk
    exact hk.2.1 hced
  · by_cases hlen : hoja.length ≤ 1
    · have hf := verificarEntradaActiva_sin_filas cols libro reloj cedula hoja hreg hlen
      refine ⟨?_, by simp [hf]⟩
      simp only [hf, Bool.false_eq_true, false_iff, not_exists, not_and]
      intro k hk
      unfold enVentana at hk
      omega
    · have hforma := verificarEntradaActiva_forma cols libro reloj cedula hoja hreg hced (by omega)
      have hequiv := fun i hi => esEntradaActiva_iff cols hoja cedula reloj.fechaHoy
        (hoja.length - min 100 (hoja.length - 1) + 1) (min 100 (hoja.length - 1)) i hi hced
      cases hb : buscarHaciaAtras
          (fun i => esEntradaActiva cols (trim cedula) reloj.fechaHoy
            ((getValues hoja (hoja.length - min 100 (hoja.length - 1) + 1) 1
              (min 100 (hoja.length - 1))
              ([cols.CEDULA, cols.NOMBRE, cols.EMPRESA, cols.ENTRADA, cols.SALIDA,
                cols.FECHA].foldr max 0 + 1)).getD i []))
          (min 100 (hoja.length - 1)) with
      | none =>
        rw [hb] at hforma
        dsimp only at hforma
        rw [hforma]
        refine ⟨?_, by simp⟩
        simp only [Bool.false_eq_true, false_iff, not_exists, not_and]
        intro k hk habierta
        unfold enVentana at hk
        have hnone := (buscarHaciaAtras_none _ _).1 hb
          (k - (hoja.length - min 100 (hoja.length - 1) + 1)) (by omega)
        have hk' : hoja.length - min 100 (hoja.length - 1) + 1 +
            (k - (hoja.length - min 100 (hoja.length - 1) + 1)) = k := by omega
        have := (hequiv (k - (hoja.length - min 100 (hoja.length - 1) + 1)) (by omega)).2
          (by rw [hk']; exact habierta)
        simp only at hnone
        rw [this] at hnone
        cases hnone
      | some i =>
        rw [hb] at hforma
        dsimp only at hforma
        rw [hforma]
        obtain ⟨hi, hp, hmax⟩ := buscarHaciaAtras_some _ _ _ hb
        have habierta := (hequiv i hi).1 hp
        have hven : enVentana hoja (hoja.length - min 100 (hoja.length - 1) + 1 + i) := by
          unfold enVentana
          omega
        refine ⟨?_, ?_⟩
        · simp only [true_iff]
          exact ⟨_, hven, habierta⟩
        · intro _
          refine ⟨hven, habierta, ?_, ?_, rfl, rfl⟩
          · intro k hk hab
            unfold enVentana at hk
            dsimp only
            by_contra hgt
            have hk' : hoja.length - min 100 (hoja.length - 1) + 1 +
                (k - (hoja.length - min 100 (hoja.length - 1) + 1)) = k := by omega
            have h1 := hmax (k - (hoja.length - min 100 (hoja.length - 1) + 1)) (by omega) (by omega)
            have h2 := (hequiv (k - (hoja.length - min 100 (hoja.length - 1) + 1)) (by omega)).2
              (by rw [hk']; exact hab)
            simp only at h1
            rw [h2] at h1
            cases h1
          · exact horaEntradaFormateada_texto _

/-- C1. Presence resolver: `verificarEntradaActiva` reports `found` exactly when
one of the last `min 100 n` data rows is an open entry of the identifier on the
reference date (trimmed identifier equal to the trimmed query, date equal to
today, check-in not empty, check-out empty); the row reported is then the last
such row, `fila` is its position in the ledger, and the check-in time (the text
of the cell without surrounding blanks, `N/A` when only blanks), the name and
the organization are those of that row. -/
theorem verificarEntradaActiva_resuelve (cols : Columnas) (libro : Libro) (reloj : Reloj)
    (cedula : String) (hoja : Hoja) (hreg : libro SHEET_REGISTRO = some hoja) :
    ((verificarEntradaActiva cols libro reloj cedula).found = true ↔
        ∃ k, enVentana hoja k ∧ esFilaAbierta cols hoja cedula reloj.fechaHoy k) ∧
      ((verificarEntradaActiva cols libro reloj cedula).found = true →
        enVentana hoja (verificarEntradaActiva cols libro reloj cedula).fila ∧
        esFilaAbierta cols hoja cedula reloj.fechaHoy
          (verificarEntradaActiva cols libro reloj cedula).fila ∧
        (∀ k, enVentana hoja k → esFilaAbierta cols hoja cedula reloj.fechaHoy k →
          k ≤ (verificarEntradaActiva cols libro reloj cedula).fila) ∧
        (verificarEntradaActiva cols libro reloj cedula).horaEntrada =
          (if trim (campo hoja (verificarEntradaActiva cols libro reloj cedula).fila cols.ENTRADA) = ""
           then "N/A"
           else trim (campo hoja (verificarEntradaActiva cols libro reloj cedula).fila cols.ENTRADA)) ∧
        (verificarEntradaActiva cols libro reloj cedula).nombre =
          campo hoja (verificarEntradaActiva cols libro reloj cedula).fila cols.NOMBRE ∧
        (verificarEntradaActiva cols libro reloj cedula).empresa =
          campo hoja (verificarEntradaActiva cols libro reloj cedula).fila cols.EMPRESA) :=
  verificarEntradaActiva_caracteriza cols libro reloj cedula hoja hreg

/-- In the example ledger the open entry of `77` is row 4, the later of its two
open rows, with check-in `08:10:00`. -/
theorem verificarEntradaActiva_resuelve_witness :
    ejemploLibro SHEET_REGISTRO = some ejemploHoja ∧
      (verificarEntradaActiva Columnas.porDefecto ejemploLibro ejemploReloj "77").found = true ∧
      (verificarEntradaActiva Columnas.porDefecto ejemploLibro ejemploReloj "77").fila = 4 ∧
      (verificarEntradaActiva Columnas.porDefecto ejemploLibro ejemploReloj "77").horaEntrada =
        "08:10:00" ∧
      esFilaAbierta Columnas.porDefecto ejemploHoja "77" ejemploReloj.fechaHoy 4 :=
  ⟨rfl, by decide, by decide, by decide,
    ((verificarEntradaActiva_resuelve Columnas.porDefecto ejemploLibro ejemploReloj "77"
      ejemploHoja rfl).2 (by decide)).2.1⟩

/-! ### Sheets -/

theorem ponerEn_length {α : Type} (d : α) (l : List α) (i : Nat) (v : α) :
    (ponerEn d l i v).length = max l.length (i + 1) := by
  simp [ponerEn]
  omega

theorem ponerEn_getD_mismo {α : Type} (d e : α) (l : List α) (i : Nat) (v : α) :
    (ponerEn d l i v).getD i e = v := by
  have h : i < l.length + (i + 1 - l.length) := by omega
  simp [ponerEn, List.getD_eq_getElem?_getD, List.getElem?_set, h]

theorem ponerEn_getD_otro {α : Type} (d : α) (l : List α) (i j : Nat) (v : α) (hij : i ≠ j) :
    (ponerEn d l i v).getD j d = l.getD j d := by
  simp only [ponerEn, List.getD_eq_getElem?_getD, List.getElem?_set, hij, if_false]
  by_cases hj : j < l.length
  · rw [List.getElem?_append_left hj]
  · rw [List.getElem?_append_right (by omega)]
    rw [List.getElem?_eq_none (by omega : l.length ≤ j)]
    by_cases hj2 : j - l.length < i + 1 - l.length
    · simp [List.getElem?_replicate, hj2]
    · simp [List.getElem?_replicate, hj2]

theorem ponerEn_getD {α : Type} (d : α) (l : List α) (i j : Nat) (v : α) :
    (ponerEn d l i v).getD j d = if i = j then v else l.getD j d := by
  by_cases h : i = j
  · subst h
    rw [ponerEn_getD_mismo, if_pos rfl]
  · rw [ponerEn_getD_otro d l i j v h, if_neg h]

theorem celda_setValue (hoja : Hoja) (f c i j : Nat) (v : String) (hf : 1 ≤ f) (hc : 1 ≤ c)
    (hi : 1 ≤ i) (hj : 1 ≤ j) :
    celda (setValue hoja f c v) i j = if i = f ∧ j = c then v else celda hoja i j := by
  unfold celda setValue
  rw [ponerEn_getD]
  by_cases h1 : f - 1 = i - 1
  · rw [if_pos h1, ponerEn_getD]
    have hfi : i = f := by omega
    subst hfi
    by_cases h2 : c - 1 = j - 1
    · have : j = c := by omega
      simp [h2, this]
    · have : ¬ j = c := by omega
      simp [h2, this]
  · have : ¬ i = f := by omega
    simp [h1, this]

theorem setValue_length (hoja : Hoja) (f c : Nat) (v : String) (hf : 1 ≤ f) (hlen : f ≤ hoja.length) :
    (setValue hoja f c v).length = hoja.length := by
  unfold setValue
  rw [ponerEn_length]
  omega

/-! ### Event classifier -/

/-- C3. Known person, open entry, check-in: `procesarEntrada` rejects the request
as a duplicate check-in. It returns `success: false`, `tipoFlujo`
`entrada_duplicada` and `registroPendienteExistente: true`, its message carries
the check-in time of the open entry, and the spreadsheet (main ledger and
archive included) is left as it was. -/
theorem procesarEntrada_duplicada (env : Entorno) (libro : Libro) (reloj : Reloj)
    (persona : Usuario) (entradaActiva : EntradaActiva) (cedula : String)
    (hfound : entradaActiva.found = true) :
    (procesarEntrada env libro reloj (some persona) entradaActiva cedula).1.success = false ∧
      (procesarEntrada env libro reloj (some persona) entradaActiva cedula).1.tipoFlujo =
        "entrada_duplicada" ∧
      (procesarEntrada env libro reloj (some persona) entradaActiva cedula).1.registroPendienteExistente
        = true ∧
      (procesarEntrada env libro reloj (some persona) entradaActiva cedula).1.message =
        "⚠️ ENTRADA DUPLICADA\nYa existe una entrada activa para " ++ persona.nombre ++
          " desde las " ++ entradaActiva.horaEntrada ++ "." ∧
      entradaActiva.horaEntrada.data <:+:
        (procesarEntrada env libro reloj (some persona) entradaActiva cedula).1.message.data ∧
      (procesarEntrada env libro reloj (some persona) entradaActiva cedula).2 = libro := by
  simp only [procesarEntrada, hfound, if_true, String.data_append, true_and, and_true]
  exact ⟨_, _, rfl⟩

/-- A second check-in of Luis, whose open entry dates from `08:10:00`, changes
nothing and is answered with that time. -/
theorem procesarEntrada_duplicada_witness :
    ejemploEntradaActiva.found = true ∧
      (procesarEntrada ejemploEntorno ejemploLibro ejemploReloj (some ejemploPersona)
        ejemploEntradaActiva "77").1.message =
        "⚠️ ENTRADA DUPLICADA\nYa existe una entrada activa para Luis desde las 08:10:00." ∧
      (procesarEntrada ejemploEntorno ejemploLibro ejemploReloj (some ejemploPersona)
        ejemploEntradaActiva "77").2 = ejemploLibro :=
  ⟨rfl,
    (procesarEntrada_duplicada ejemploEntorno ejemploLibro ejemploReloj ejemploPersona
      ejemploEntradaActiva "77" rfl).2.2.2.1,
    (procesarEntrada_duplicada ejemploEntorno ejemploLibro ejemploReloj ejemploPersona
      ejemploEntradaActiva "77" rfl).2.2.2.2.2⟩

/-- C4. Outcomes that need more input. A check-in of an unknown person, and a
check-out without open entry (known or unknown person), write nothing, return
`success: false` with `comentarioObligatorio: true`, and ask for the visitor
registration (`registro`) when the person is unknown and for a justification
(`justificacion`) when the person is known; in every other case
`comentarioObligatorio` is false and `modalTipo` is empty. -/
theorem clasificador_pide_datos (env : Entorno) (libro : Libro) (reloj : Reloj)
    (persona : Usuario) (entradaActiva : EntradaActiva) (cedula : String) :
    ((procesarEntrada env libro reloj none entradaActiva cedula).2 = libro ∧
      (procesarEntrada env libro reloj none entradaActiva cedula).1.success = false ∧
      (procesarEntrada env libro reloj none entradaActiva cedula).1.comentarioObligatorio = true ∧
      (procesarEntrada env libro reloj none entradaActiva cedula).1.modalTipo = "registro") ∧
    ((procesarSalida libro reloj (some persona) { entradaActiva with found := false } cedula).2
        = libro ∧
      (procesarSalida libro reloj (some persona) { entradaActiva with found := false }
        cedula).1.success = false ∧
      (procesarSalida libro reloj (some persona) { entradaActiva with found := false }
        cedula).1.comentarioObligatorio = true ∧
      (procesarSalida libro reloj (some persona) { entradaActiva with found := false }
        cedula).1.modalTipo = "justificacion") ∧
    ((procesarSalida libro reloj none { entradaActiva with found := false } cedula).2 = libro ∧
      (procesarSalida libro reloj none { entradaActiva with found := false } cedula).1.success
        = false ∧
      (procesarSalida libro reloj none { entradaActiva with found := false }
        cedula).1.comentarioObligatorio = true ∧
      (procesarSalida libro reloj none { entradaActiva with found := false } cedula).1.modalTipo
        = "registro") ∧
    ((procesarEntrada env libro reloj (some persona) entradaActiva cedula).1.comentarioObligatorio
        = false ∧
      (procesarEntrada env libro reloj (some persona) entradaActiva cedula).1.modalTipo = "") ∧
    ((procesarSalida libro reloj (some persona) { entradaActiva with found := true }
        cedula).1.comentarioObligatorio = false ∧
      (procesarSalida libro reloj (some persona) { entradaActiva with found := true }
        cedula).1.modalTipo = "" ∧
      (procesarSalida libro reloj none { entradaActiva with found := true }
        cedula).1.comentarioObligatorio = false ∧
      (procesarSalida libro reloj none { entradaActiva with found := true } cedula).1.modalTipo
        = "") := by
  refine ⟨?_, ?_, ?_, ?_, ?_⟩
  · simp [procesarEntrada]
  · simp [procesarSalida]
  · simp [procesarSalida]
  · cases h : entradaActiva.found <;> simp [procesarEntrada, h]
  · simp [procesarSalida]

theorem calcularDuracionSimple_vacio (x : ValorHora) :
    calcularDuracionSimple (.texto "") x = "0:00:00" := by
  simp [calcularDuracionSimple, ValorHora.verdadero]

theorem getValues_fila_celda (hoja : Hoja) (f m j : Nat) (hj : j < m) :
    ((getValues hoja f 1 1 m).headD [])[j]? = some (campo hoja f j) := by
  have h := getValues_celda hoja f 1 m 0 j (by omega) hj
  have e : (getValues hoja f 1 1 m).headD [] = (getValues hoja f 1 1 m).getD 0 [] := rfl
  rw [e, h]
  rfl

theorem completarSalida_registro (libro : Libro) (hoja : Hoja) (f : Nat) (hs : ValorHora)
    (hreg : libro "Registro" = some hoja) (hf : 2 ≤ f) :
    (completarSalida libro f hs).2 "Registro" =
      some (setValue (setValue hoja f 6 (formatearHora hs)) f 7
        (calcularDuracionSimple (.texto (trim (campo hoja f 4))) (.texto (formatearHora hs)))) ∧
    (completarSalida libro f hs).1.success = true := by
  unfold completarSalida
  simp only [show ¬ f ≤ 1 by omega, if_false, hreg, getValues_fila_celda hoja f 9 4 (by omega),
    verdadero, textoDe]
  have hd : (if decide (campo hoja f 4 ≠ "") = true then
        calcularDuracionSimple (.texto (trim (campo hoja f 4))) (.texto (formatearHora hs))
      else "0:00:00") =
      calcularDuracionSimple (.texto (trim (campo hoja f 4))) (.texto (formatearHora hs)) := by
    by_cases h : campo hoja f 4 = ""
    · simp [h, trim_vacio, calcularDuracionSimple_vacio]
    · simp [h]
  rw [hd]
  constructor
  · split <;> simp [ponerHoja]
  · trivial

theorem enVentana_rango (hoja : Hoja) (k : Nat) (h : enVentana hoja k) :
    2 ≤ k ∧ k ≤ hoja.length := by
  unfold enVentana at h
  omega

theorem procesarSalida_en_sitio (libro : Libro) (hoja : Hoja) (reloj : Reloj)
    (persona : Option Usuario) (cedula : String) (hreg : libro SHEET_REGISTRO = some hoja)
    (hfound : (verificarEntradaActiva Columnas.porDefecto libro reloj cedula).found = true) :
    ∃ hoja1,
      (procesarSalida libro reloj persona
        (verificarEntradaActiva Columnas.porDefecto libro reloj cedula) cedula).2 SHEET_REGISTRO
        = some hoja1 ∧
      hoja1.length = hoja.length ∧
      campo hoja1 (verificarEntradaActiva Columnas.porDefecto libro reloj cedula).fila
        Columnas.porDefecto.SALIDA = formatearHora reloj.ahora ∧
      campo hoja1 (verificarEntradaActiva Columnas.porDefecto libro reloj cedula).fila
        Columnas.porDefecto.DURACION =
        calcularDuracionSimple
          (.texto (trim (campo hoja
            (verificarEntradaActiva Columnas.porDefecto libro reloj cedula).fila
            Columnas.porDefecto.ENTRADA)))
          (.texto (formatearHora reloj.ahora)) ∧
      (∀ i j, 1 ≤ i →
        ¬ (i = (verificarEntradaActiva Columnas.porDefecto libro reloj cedula).fila ∧
          (j = Columnas.porDefecto.SALIDA ∨ j = Columnas.porDefecto.DURACION)) →
        campo hoja1 i j = campo hoja i j) ∧
      (procesarSalida libro reloj persona
        (verificarEntradaActiva Columnas.porDefecto libro reloj cedula) cedula).1.success
        = true := by
  have hC1 := (verificarEntradaActiva_caracteriza Columnas.porDefecto libro reloj cedula hoja
    hreg).2 hfound
  obtain ⟨h2, hlen⟩ := enVentana_rango hoja _ hC1.1
  have hcs := completarSalida_registro libro hoja
    (verificarEntradaActiva Columnas.porDefecto libro reloj cedula).fila reloj.ahora hreg h2
  refine ⟨setValue (setValue hoja
      (verificarEntradaActiva Columnas.porDefecto libro reloj cedula).fila 6
      (formatearHora reloj.ahora))
      (verificarEntradaActiva Columnas.porDefecto libro reloj cedula).fila 7
      (calcularDuracionSimple (.texto (trim (campo hoja
        (verificarEntradaActiva Columnas.porDefecto libro reloj cedula).fila 4)))
        (.texto (formatearHora reloj.ahora))), ?_, ?_, ?_, ?_, ?_, ?_⟩
  · simp only [procesarSalida, hfound, if_true]
    exact hcs.1
  · rw [setValue_length _ _ _ _ (by omega) (by rw [setValue_length _ _ _ _ (by omega) hlen]; exact hlen),
      setValue_length _ _ _ _ (by omega) hlen]
  · show celda _ _ (5 + 1) = _
    rw [celda_setValue _ _ _ _ _ _ (by omega) (by omega) (by omega) (by omega),
      celda_setValue _ _ _ _ _ _ (by omega) (by omega) (by omega) (by omega)]
    simp
  · show celda _ _ (6 + 1) = _
    rw [celda_setValue _ _ _ _ _ _ (by omega) (by omega) (by omega) (by omega)]
    simp
    rfl
  · intro i j hi hij
    show celda _ i (j + 1) = celda hoja i (j + 1)
    rw [celda_setValue _ _ _ _ _ _ (by omega) (by omega) hi (by omega),
      celda_setValue _ _ _ _ _ _ (by omega) (by omega) hi (by omega)]
    have e5 : Columnas.porDefecto.SALIDA = 5 := rfl
    have e6 : Columnas.porDefecto.DURACION = 6 := rfl
    rw [e5, e6] at hij
    have h7 : ¬ (i = (verificarEntradaActiva Columnas.porDefecto libro reloj cedula).fila ∧
        j + 1 = 7) := by
      intro h
      exact hij ⟨h.1, Or.inr (by omega)⟩
    have h6 : ¬ (i = (verificarEntradaActiva Columnas.porDefecto libro reloj cedula).fila ∧
        j + 1 = 6) := by
      intro h
      exact hij ⟨h.1, Or.inl (by omega)⟩
    rw [if_neg h7, if_neg h6]
  · simp [procesarSalida, hfound]

/-- C5. Check-out with an open entry, in the default column layout (the one
whose positions `completarSalida` addresses): when the resolver reports an open
row `r`, `procesarSalida` writes in place, whether or not the person is in the
directory. The ledger keeps its number of rows, the check-out cell of row `r`
holds the current time as `formatearHora` writes it, the duration cell of row
`r` holds the result of `calcularDuracionSimple` for the check-in text of row
`r` (without surrounding blanks) and that check-out, every other cell of the
ledger is unchanged, and the result is `success: true`. -/
theorem procesarSalida_completa_en_sitio (libro : Libro) (hoja : Hoja) (reloj : Reloj)
    (persona : Option Usuario) (cedula : String) (hreg : libro SHEET_REGISTRO = some hoja)
    (hfound : (verificarEntradaActiva Columnas.porDefecto libro reloj cedula).found = true) :
    ∃ hoja1,
      (procesarSalida libro reloj persona
        (verificarEntradaActiva Columnas.porDefecto libro reloj cedula) cedula).2 SHEET_REGISTRO
        = some hoja1 ∧
      hoja1.length = hoja.length ∧
      campo hoja1 (verificarEntradaActiva Columnas.porDefecto libro reloj cedula).fila
        Columnas.porDefecto.SALIDA = formatearHora reloj.ahora ∧
      campo hoja1 (verificarEntradaActiva Columnas.porDefecto libro reloj cedula).fila
        Columnas.porDefecto.DURACION =
        calcularDuracionSimple
          (.texto (trim (campo hoja
            (verificarEntradaActiva Columnas.porDefecto libro reloj cedula).fila
            Columnas.porDefecto.ENTRADA)))
          (.texto (formatearHora reloj.ahora)) ∧
      (∀ i j, 1 ≤ i →
        ¬ (i = (verificarEntradaActiva Columnas.porDefecto libro reloj cedula).fila ∧
          (j = Columnas.porDefecto.SALIDA ∨ j = Columnas.porDefecto.DURACION)) →
        campo hoja1 i j = campo hoja i j) ∧
      (procesarSalida libro reloj persona
        (verificarEntradaActiva Columnas.porDefecto libro reloj cedula) cedula).1.success
        = true :=
  procesarSalida_en_sitio libro hoja reloj persona cedula hreg hfound

/-- In the example ledger the check-out of `77` at 09:30:00 closes row 4, opened
at `08:10:00`, with the duration `1:20:00`, and leaves row 3 open. -/
theorem procesarSalida_completa_en_sitio_witness :
    ejemploLibro SHEET_REGISTRO = some ejemploHoja ∧
      (verificarEntradaActiva Columnas.porDefecto ejemploLibro ejemploReloj "77").found = true ∧
      (∃ hoja1,
        (procesarSalida ejemploLibro ejemploReloj (some ejemploPersona)
          (verificarEntradaActiva Columnas.porDefecto ejemploLibro ejemploReloj "77")
          "77").2 SHEET_REGISTRO = some hoja1 ∧
        hoja1.length = ejemploHoja.length) ∧
      (procesarSalida ejemploLibro ejemploReloj (some ejemploPersona)
          (verificarEntradaActiva Columnas.porDefecto ejemploLibro ejemploReloj "77")
          "77").2 SHEET_REGISTRO =
        some [ejemploEncabezado,
          ["2024-05-06", "8-123-456", "Ana Pérez", "Acceso Permitido", "07:55:10", "12:01:00",
            "4:05:50", "ACME", ""],
          ["2024-05-06", "77", "Luis", "Acceso Permitido", "08:00:00", "", "", "Beta", ""],
          ["2024-05-06", " 77 ", "Luis", "Acceso Permitido", " 08:10:00", "09:30:00", "1:20:00",
            "Beta", ""]] :=
  ⟨rfl, by decide,
    (procesarSalida_completa_en_sitio ejemploLibro ejemploHoja ejemploReloj (some ejemploPersona)
      "77" rfl (by decide)).imp (fun _ h => ⟨h.1, h.2.1⟩),
    by decide⟩

/-! ### Trimming and splitting -/

theorem dropWhile_de_prefijo (p : Char → Bool) (l b t : List Char)
    (h : b ++ t = l.dropWhile p) : b.dropWhile p = b := by
  cases b with
  | nil => rfl
  | cons x xs =>
    have hne : l.dropWhile p ≠ [] := by
      rw [← h]
      simp
    have hx := List.head_dropWhile_not p l hne
    have hhead : (l.dropWhile p).head hne = x := by
      have e : l.dropWhile p = x :: (xs ++ t) := by rw [← h]; rfl
      simp [e]
    rw [hhead] at hx
    simp [List.dropWhile, hx]

theorem recortar_idem (l : List Char) : recortar (recortar l) = recortar l := by
  have e : ∀ l, recortar l = (l.dropWhile esEspacio).rdropWhile esEspacio := fun l => rfl
  rw [e, e]
  obtain ⟨t, ht⟩ := List.rdropWhile_prefix esEspacio (l.dropWhile esEspacio)
  rw [dropWhile_de_prefijo esEspacio l _ t ht]
  exact List.rdropWhile_idempotent esEspacio _

theorem trim_trim (s : String) : trim (trim s) = trim s := by
  simp [trim, recortar_idem]

theorem partir_ne_nil (c : Char) (l : List Char) : partir c l ≠ [] := by
  cases l with
  | nil => simp [partir]
  | cons a l =>
    unfold partir
    split
    · simp
    · split <;> simp

theorem partir_cabeza_sin (c : Char) (l : List Char) :
    ∀ x ∈ (partir c l).headD [], x ≠ c := by
  induction l with
  | nil => simp [partir]
  | cons a l ih =>
    unfold partir
    by_cases hac : a = c
    · simp [hac]
    · simp only [hac, if_false]
      cases hp : partir c l with
      | nil => simp [hac]
      | cons p ps =>
        rw [hp] at ih
        intro x hx
        simp only [List.headD_cons, List.mem_cons] at hx ih
        rcases hx with rfl | hx
        · exact hac
        · exact ih x hx

theorem partir_sin (c : Char) (l : List Char) (h : ∀ x ∈ l, x ≠ c) : partir c l = [l] := by
  induction l with
  | nil => simp [partir]
  | cons a l ih =>
    unfold partir
    have hac : a ≠ c := h a (by simp)
    rw [ih (fun x hx => h x (by simp [hx]))]
    simp [hac]

theorem primeraParte_idem (c : Char) (s : String) :
    primeraParte c (primeraParte c s) = primeraParte c s := by
  unfold primeraParte
  simp only
  rw [partir_sin c _ (partir_cabeza_sin c s.data)]
  rfl

theorem ponerEn_cons_cero {α : Type} (d x v : α) (l : List α) : ponerEn d (x :: l) 0 v = v :: l := by
  simp [ponerEn]

theorem ponerEn_cons_succ {α : Type} (d x v : α) (l : List α) (i : Nat) :
    ponerEn d (x :: l) (i + 1) v = x :: ponerEn d l i v := by
  simp [ponerEn]

theorem ponerEn_fila_nueva (a b c d e f g h : String) :
    ponerEn "" (ponerEn "" (ponerEn "" (ponerEn "" (ponerEn "" (ponerEn "" (ponerEn ""
      (ponerEn "" (List.replicate 9 "") 0 a) 1 b) 2 c) 7 d) 3 e) 4 f) 5 g) 8 h =
      [a, b, c, e, f, g, "", d, h] := by
  simp only [List.replicate, ponerEn_cons_cero, ponerEn_cons_succ]

theorem construirFila_entrada_porDefecto (t : String → Option Int) (reloj : Reloj)
    (cedula nombre empresa : String) (hE : ValorHora) :
    construirFila { cols := Columnas.porDefecto, tiempoDeFecha := t } reloj cedula nombre empresa
        hE (.texto "") "entrada" "" =
      [reloj.fechaHoy, trim cedula, if nombre = "" then "N/A" else nombre, ESTADO_PERMITIDO,
        if hE.verdadero then formatearHora hE else "", "", "",
        if empresa = "" then "N/A" else empresa, ""] := by
  unfold construirFila
  simp only [Columnas.porDefecto, Columnas.valores, List.foldr, if_true, Bool.false_eq_true, if_false]
  exact ponerEn_fila_nueva _ _ _ _ _ _ _ _

theorem formatearHora_fecha_ne (h m s : Nat) (x : String) (hx : ':' ∉ x.data) :
    formatearHora (.fecha h m s) ≠ x := by
  intro e
  apply hx
  rw [← e]
  simp only [formatearHora, String.data_append]
  simp

theorem ultimaFila_dentro (hoja : Hoja) (f w j : Nat) (hj : j < w) :
    textoDe ((getValues hoja f 1 1 w).headD [])[j]? = campo hoja f j := by
  rw [getValues_fila_celda hoja f w j hj]
  rfl

theorem ultimaFila_fuera (hoja : Hoja) (f w j : Nat) (hj : w ≤ j) :
    textoDe ((getValues hoja f 1 1 w).headD [])[j]? = "undefined" := by
  have e : (getValues hoja f 1 1 w).headD [] = (getValues hoja f 1 1 w).getD 0 [] := rfl
  rw [e, getValues_fuera hoja f 1 w 0 j (by omega) hj]
  rfl

theorem esFilaDuplicada_campo (fila ultima : List String) (h : esFilaDuplicada fila ultima = true)
    (j : Nat) (hj : j < fila.length) : fila.getD j "" = textoDe ultima[j]? := by
  unfold esFilaDuplicada at h
  rw [List.all_eq_true] at h
  have := h j (by simpa using hj)
  simpa using this

/-- In the default layout, a candidate check-in row equal to the last row of
the ledger means that the last row is an open entry of today, which the
resolver finds. -/
theorem duplicada_implica_activa (t : String → Option Int) (libro : Libro) (hoja : Hoja)
    (reloj : Reloj) (cedula nombre empresa : String) (hreg : libro SHEET_REGISTRO = some hoja)
    (hced : trim cedula ≠ "") (hlen : 1 < hoja.length)
    (hdup : esFilaDuplicada
      (construirFila { cols := Columnas.porDefecto, tiempoDeFecha := t } reloj cedula nombre
        empresa reloj.ahora (.texto "") "entrada" "")
      ((getValues hoja hoja.length 1 1 (getLastColumn hoja)).headD []) = true) :
    (verificarEntradaActiva Columnas.porDefecto libro reloj cedula).found = true := by
  rw [construirFila_entrada_porDefecto] at hdup
  have h0 := esFilaDuplicada_campo _ _ hdup 0 (by simp)
  have h1 := esFilaDuplicada_campo _ _ hdup 1 (by simp)
  have h4 := esFilaDuplicada_campo _ _ hdup 4 (by simp)
  have h5 := esFilaDuplicada_campo _ _ hdup 5 (by simp)
  have hv : reloj.ahora.verdadero = true := rfl
  simp only [List.getD_cons_zero, List.getD_cons_succ, hv, if_true] at h0 h1 h4 h5
  have hw5 : 5 < getLastColumn hoja := by
    by_contra hc
    rw [ultimaFila_fuera hoja _ _ 5 (by omega)] at h5
    exact absurd h5 (by decide)
  rw [ultimaFila_dentro hoja _ _ 0 (by omega)] at h0
  rw [ultimaFila_dentro hoja _ _ 1 (by omega)] at h1
  rw [ultimaFila_dentro hoja _ _ 4 (by omega)] at h4
  rw [ultimaFila_dentro hoja _ _ 5 (by omega)] at h5
  apply (verificarEntradaActiva_caracteriza Columnas.porDefecto libro reloj cedula hoja hreg).1.2
  refine ⟨hoja.length, ?_, ?_⟩
  · unfold enVentana
    omega
  · refine ⟨?_, hced, ?_, ?_, h5.symm⟩
    · show trim (campo hoja hoja.length 1) = trim cedula
      rw [← h1, trim_trim]
    · show primeraParte 'T' (campo hoja hoja.length 0) = reloj.fechaHoy
      rw [← h0]
      exact primeraParte_idem 'T' reloj.iso
    · show campo hoja hoja.length 4 ≠ ""
      rw [← h4]
      exact formatearHora_fecha_ne _ _ _ "" (by simp)

theorem registrarEnHoja_entrada_nueva (t : String → Option Int) (libro : Libro)
    (hoja historial : Hoja) (reloj : Reloj) (cedula nombre empresa : String)
    (hreg : libro SHEET_REGISTRO = some hoja) (hhist : libro SHEET_HISTORIAL = some historial)
    (hced : trim cedula ≠ "")
    (hno : (verificarEntradaActiva Columnas.porDefecto libro reloj cedula).found = false) :
    registrarEnHoja { cols := Columnas.porDefecto, tiempoDeFecha := t } libro reloj cedula nombre
        empresa reloj.ahora (.texto "") "entrada" "" =
      ({ success := true, filaIndex := hoja.length + 1, duplicado := false },
        ponerHoja (ponerHoja libro SHEET_REGISTRO
          (hoja ++ [[reloj.fechaHoy, trim cedula, if nombre = "" then "N/A" else nombre,
            ESTADO_PERMITIDO, formatearHora reloj.ahora, "", "",
            if empresa = "" then "N/A" else empresa, ""]]))
          SHEET_HISTORIAL
          (historial ++ [[reloj.fechaHoy, trim cedula, if nombre = "" then "N/A" else nombre,
            ESTADO_PERMITIDO, formatearHora reloj.ahora, "", "",
            if empresa = "" then "N/A" else empresa, ""]])) := by
  have hdup : (if getLastRow hoja > 1 then
      esFilaDuplicada
        (construirFila { cols := Columnas.porDefecto, tiempoDeFecha := t } reloj cedula nombre
          empresa reloj.ahora (.texto "") "entrada" "")
        ((getValues hoja (getLastRow hoja) 1 1 (getLastColumn hoja)).headD [])
      else false) = false := by
    by_cases hl : getLastRow hoja > 1
    · rw [if_pos hl]
      by_contra hc
      have hd := duplicada_implica_activa t libro hoja reloj cedula nombre empresa hreg hced hl
        (by simpa using hc)
      rw [hd] at hno
      cases hno
    · rw [if_neg hl]
  unfold registrarEnHoja
  simp only [hced, if_false, hreg, hhist, hdup, Bool.not_false, if_true]
  rw [construirFila_entrada_porDefecto]
  have hv : reloj.ahora.verdadero = true := rfl
  simp [hv, appendRow, ponerHoja, getLastRow, SHEET_REGISTRO, SHEET_HISTORIAL]

/-- C2. Known person, no open entry, check-in, in the default column layout:
when the resolver reports no open entry for a non-blank identifier and the
ledger and the archive exist, `procesarEntrada` appends exactly one row to the
main ledger. Its identifier is the scanned identifier (trimmed), its status is
`Acceso Permitido`, its check-in is the current time as `formatearHora` writes
it (`HH:MM:SS`), its check-out is empty; the result is `success: true` with
`tipoFlujo` `entrada_registrada`. -/
theorem procesarEntrada_registra_entrada (t : String → Option Int) (libro : Libro)
    (hoja historial : Hoja) (reloj : Reloj) (persona : Usuario) (cedula : String)
    (hreg : libro SHEET_REGISTRO = some hoja) (hhist : libro SHEET_HISTORIAL = some historial)
    (hced : trim cedula ≠ "")
    (hno : (verificarEntradaActiva Columnas.porDefecto libro reloj cedula).found = false) :
    ∃ fila : Fila,
      (procesarEntrada { cols := Columnas.porDefecto, tiempoDeFecha := t } libro reloj
        (some persona) (verificarEntradaActiva Columnas.porDefecto libro reloj cedula)
        cedula).2 SHEET_REGISTRO = some (hoja ++ [fila]) ∧
      fila.getD Columnas.porDefecto.FECHA "" = reloj.fechaHoy ∧
      fila.getD Columnas.porDefecto.CEDULA "" = trim cedula ∧
      fila.getD Columnas.porDefecto.ESTADO_ACCESO "" = "Acceso Permitido" ∧
      fila.getD Columnas.porDefecto.ENTRADA "" = formatearHora reloj.ahora ∧
      fila.getD Columnas.porDefecto.SALIDA "" = "" ∧
      (procesarEntrada { cols := Columnas.porDefecto, tiempoDeFecha := t } libro reloj
        (some persona) (verificarEntradaActiva Columnas.porDefecto libro reloj cedula)
        cedula).1.success = true ∧
      (procesarEntrada { cols := Columnas.porDefecto, tiempoDeFecha := t } libro reloj
        (some persona) (verificarEntradaActiva Columnas.porDefecto libro reloj cedula)
        cedula).1.tipoFlujo = "entrada_registrada" := by
  refine ⟨[reloj.fechaHoy, trim cedula, if persona.nombre = "" then "N/A" else persona.nombre,
    ESTADO_PERMITIDO, formatearHora reloj.ahora, "", "",
    if persona.empresa = "" then "N/A" else persona.empresa, ""], ?_, rfl, rfl, rfl, rfl, rfl, ?_, ?_⟩
  · simp only [procesarEntrada, hno, Bool.false_eq_true, if_false]
    rw [registrarEnHoja_entrada_nueva t libro hoja historial reloj cedula _ _ hreg hhist hced hno]
    simp [ponerHoja, SHEET_REGISTRO, SHEET_HISTORIAL]
  · simp [procesarEntrada, hno]
  · simp [procesarEntrada, hno]

/-- Eva, who has no open entry in the example ledger, checks in at 09:30:00:
one row is appended, open, with status `Acceso Permitido`. -/
theorem procesarEntrada_registra_entrada_witness :
    ejemploLibro SHEET_REGISTRO = some ejemploHoja ∧
      ejemploLibro SHEET_HISTORIAL = some [ejemploEncabezado] ∧ trim "5" ≠ "" ∧
      (verificarEntradaActiva Columnas.porDefecto ejemploLibro ejemploReloj "5").found = false ∧
      (∃ fila : Fila,
        (procesarEntrada ejemploEntorno ejemploLibro ejemploReloj
          (some ejemploEva)
          (verificarEntradaActiva Columnas.porDefecto ejemploLibro ejemploReloj "5")
          "5").2 SHEET_REGISTRO = some (ejemploHoja ++ [fila]) ∧
        fila.getD Columnas.porDefecto.ENTRADA "" = formatearHora ejemploReloj.ahora) ∧
      formatearHora ejemploReloj.ahora = "09:30:00" :=
  ⟨rfl, rfl, by decide, by decide,
    (procesarEntrada_registra_entrada (fun _ => none) ejemploLibro ejemploHoja [ejemploEncabezado]
      ejemploReloj ejemploEva "5" rfl rfl (by decide) (by decide)).imp
      (fun _ h => ⟨h.1, h.2.2.2.2.1⟩),
    by decide⟩

/-! ### Bulk close-out -/

theorem getDataRangeValues_length (hoja : Hoja) :
    (getDataRangeValues hoja).length = max 1 hoja.length := by
  simp [getDataRangeValues, getValues_length, getLastRow]

theorem esAbiertaPara_iff (cols : Columnas) (hoja : Hoja) (cedula : String) (i : Nat)
    (hi : i < (getDataRangeValues hoja).length) :
    esAbiertaPara cols (getDataRangeValues hoja) cedula i = true ↔
      esAbiertaDe cols hoja cedula (i + 1) := by
  rw [getDataRangeValues_length] at hi
  unfold esAbiertaPara esAbiertaDe filaLeida
  simp only [Nat.add_sub_cancel, Bool.and_eq_true, decide_eq_true_eq, Bool.not_eq_true']
  constructor
  · rintro ⟨⟨⟨h1, h2⟩, h3⟩, h4⟩
    exact ⟨by omega, by omega, h2, h3, h4⟩
  · rintro ⟨h1, _, h3, h4, h5⟩
    exact ⟨⟨⟨by omega, h3⟩, h4⟩, h5⟩

theorem buscar_abierta_isSome (cols : Columnas) (hoja : Hoja) (cedula : String) :
    (buscarHaciaAtras (esAbiertaPara cols (getDataRangeValues hoja) cedula)
      (getDataRangeValues hoja).length).isSome = true ↔ tieneAbierta cols hoja cedula := by
  rw [buscarHaciaAtras_isSome]
  constructor
  · rintro ⟨j, hj, hp⟩
    have h := (esAbiertaPara_iff cols hoja cedula j hj).1 hp
    exact ⟨j + 1, h.2.1, h⟩
  · rintro ⟨k, _, hk⟩
    have h2 : 2 ≤ k := hk.1
    have hlen : k ≤ hoja.length := hk.2.1
    have hj : k - 1 < (getDataRangeValues hoja).length := by
      rw [getDataRangeValues_length]
      omega
    refine ⟨k - 1, hj, (esAbiertaPara_iff cols hoja cedula (k - 1) hj).2 ?_⟩
    have e : k - 1 + 1 = k := by omega
    rw [e]
    exact hk

theorem foldl_pasoSalidaReal_cuenta (cols : Columnas) (datos : List (List String))
    (horaSalida : String) (cedulas : List String) (e : EstadoMasivo) :
    (cedulas.foldl (pasoSalidaReal cols datos horaSalida) e).procesados =
        e.procesados +
          (cedulas.filter (fun c =>
            (buscarHaciaAtras (esAbiertaPara cols datos c) datos.length).isSome)).length ∧
      (cedulas.foldl (pasoSalidaReal cols datos horaSalida) e).errores =
        e.errores ++
          (cedulas.filter (fun c =>
            !(buscarHaciaAtras (esAbiertaPara cols datos c) datos.length).isSome)).map
            errorSinEntrada := by
  induction cedulas generalizing e with
  | nil => simp
  | cons c cs ih =>
    rw [List.foldl_cons]
    obtain ⟨ih1, ih2⟩ := ih (pasoSalidaReal cols datos horaSalida e c)
    rw [ih1, ih2]
    cases hb : buscarHaciaAtras (esAbiertaPara cols datos c) datos.length with
    | none =>
      simp [pasoSalidaReal, hb, errorSinEntrada]
    | some i =>
      simp [pasoSalidaReal, hb]
      omega

/-- C10. Bulk REAL close-out, accounting: for a non-empty roster and an
existing ledger, `registrarSalidasMasivas(roster, 'REAL')` returns
`success: true`, reports one error per roster entry that has no open row (in
roster order), counts the others in `procesados`, and `procesados` plus the
number of errors is the length of the roster. For the roster `[A, B]` where `A`
has an open row and `B` has none, `procesados` is 1 and the one error names
`B`. -/
theorem registrarSalidasMasivas_real_cuenta (env : Entorno) (estado : Estado) (reloj : Reloj)
    (cedulas : List String) (hoja : Hoja) (hreg : estado.libro SHEET_REGISTRO = some hoja)
    (hne : cedulas ≠ []) :
    (registrarSalidasMasivas env estado reloj cedulas "REAL").1.success = true ∧
      (registrarSalidasMasivas env estado reloj cedulas "REAL").1.errores =
        (cedulas.filter (fun c => ¬ tieneAbierta env.cols hoja c)).map errorSinEntrada ∧
      (registrarSalidasMasivas env estado reloj cedulas "REAL").1.procesados =
        (cedulas.filter (fun c => tieneAbierta env.cols hoja c)).length ∧
      (registrarSalidasMasivas env estado reloj cedulas "REAL").1.procesados +
        (registrarSalidasMasivas env estado reloj cedulas "REAL").1.errores.length =
        cedulas.length ∧
      (∀ a b, cedulas = [a, b] → tieneAbierta env.cols hoja a → ¬ tieneAbierta env.cols hoja b →
        (registrarSalidasMasivas env estado reloj cedulas "REAL").1.procesados = 1 ∧
        (registrarSalidasMasivas env estado reloj cedulas "REAL").1.errores =
          ["No se encontró entrada activa para " ++ b]) := by
  have hmay : toUpperCase "REAL" = "REAL" := by decide
  have hvac : cedulas.isEmpty = false := by
    cases cedulas with
    | nil => exact absurd rfl hne
    | cons _ _ => rfl
  obtain ⟨hp, he⟩ := foldl_pasoSalidaReal_cuenta env.cols (getDataRangeValues hoja)
    (formatearHora reloj.ahora) cedulas { hoja := hoja, procesados := 0, errores := [] }
  have hfil1 : (cedulas.filter (fun c =>
      (buscarHaciaAtras (esAbiertaPara env.cols (getDataRangeValues hoja) c)
        (getDataRangeValues hoja).length).isSome)) =
      cedulas.filter (fun c => tieneAbierta env.cols hoja c) := by
    apply List.filter_congr
    intro c _
    have := buscar_abierta_isSome env.cols hoja c
    by_cases h : tieneAbierta env.cols hoja c <;> simp_all
  have hfil2 : (cedulas.filter (fun c =>
      !(buscarHaciaAtras (esAbiertaPara env.cols (getDataRangeValues hoja) c)
        (getDataRangeValues hoja).length).isSome)) =
      cedulas.filter (fun c => ¬ tieneAbierta env.cols hoja c) := by
    apply List.filter_congr
    intro c _
    have := buscar_abierta_isSome env.cols hoja c
    by_cases h : tieneAbierta env.cols hoja c <;> simp_all
  rw [hfil1] at hp
  rw [hfil2] at he
  simp only [List.nil_append, Nat.zero_add] at hp he
  have hprocesados : (registrarSalidasMasivas env estado reloj cedulas "REAL").1.procesados =
      (cedulas.filter (fun c => tieneAbierta env.cols hoja c)).length := by
    simp only [registrarSalidasMasivas, hvac, hmay, hreg, Bool.false_eq_true, if_false, if_true]
    exact hp
  have herrores : (registrarSalidasMasivas env estado reloj cedulas "REAL").1.errores =
      (cedulas.filter (fun c => ¬ tieneAbierta env.cols hoja c)).map errorSinEntrada := by
    simp only [registrarSalidasMasivas, hvac, hmay, hreg, Bool.false_eq_true, if_false, if_true]
    exact he
  refine ⟨?_, herrores, hprocesados, ?_, ?_⟩
  · simp only [registrarSalidasMasivas, hvac, hmay, hreg, Bool.false_eq_true, if_false, if_true]
  · rw [hprocesados, herrores, List.length_map]
    have := List.length_eq_length_filter_add (l := cedulas)
      (fun c => decide (tieneAbierta env.cols hoja c))
    simp only [decide_not] at this ⊢
    omega
  · intro a b hab ha hb
    rw [hprocesados, herrores, hab]
    simp [ha, hb, errorSinEntrada]

/-- In the example ledger the roster `77`, `5` closes one entry and reports one
error, for `5`, who has no open row. -/
theorem registrarSalidasMasivas_real_cuenta_witness :
    ejemploEstado.libro SHEET_REGISTRO = some ejemploHoja ∧ ["77", "5"] ≠ [] ∧
      (registrarSalidasMasivas ejemploEntorno ejemploEstado ejemploReloj ["77", "5"]
        "REAL").1.procesados = 1 ∧
      (registrarSalidasMasivas ejemploEntorno ejemploEstado ejemploReloj ["77", "5"]
        "REAL").1.errores = ["No se encontró entrada activa para 5"] :=
  ⟨rfl, by decide,
    (registrarSalidasMasivas_real_cuenta ejemploEntorno ejemploEstado ejemploReloj ["77", "5"]
      ejemploHoja rfl (by decide)).2.2.2.2 "77" "5" rfl (by decide) (by decide)⟩

/-! ### Divergences between the code and its description -/

/-- C18. A text without time shape is read as midnight, not rejected:
`calcularDuracionSimple("abc", "09:00:00")` is `9:00:00`, not `0:00:00`; an
empty argument does give `0:00:00`. -/
theorem calcularDuracionSimple_texto_sin_forma :
    calcularDuracionSimple (.texto "abc") (.texto "09:00:00") = "9:00:00" ∧
      calcularDuracionSimple (.texto "") (.texto "09:00:00") = "0:00:00" := by
  decide

/-- C14. A check-in whose comment carries the evacuation marker is written with
status `Acceso Permitido`: the write path knows the markers `VISITANTE`,
`JUSTIFICADO` and `SIN ENTRADA PREVIA` only. -/
theorem registrarEnHoja_evacuacion_permitido :
    ((registrarEnHoja ejemploEntorno ejemploLibro ejemploReloj "5" "Eva" "Gamma"
        ejemploReloj.ahora (.texto "") "entrada" "EVACUACIÓN del edificio").2 SHEET_REGISTRO).map
        (fun hoja => campo hoja 5 Columnas.porDefecto.ESTADO_ACCESO) = some "Acceso Permitido" ∧
      ((registrarEnHoja ejemploEntorno ejemploLibro ejemploReloj "5" "Eva" "Gamma"
        ejemploReloj.ahora (.texto "") "entrada" "visitante de ACME").2 SHEET_REGISTRO).map
        (fun hoja => campo hoja 5 Columnas.porDefecto.ESTADO_ACCESO) = some "Acceso Temporal" := by
  decide

/-- C24. With the check-out in column I and the comment in column F, the
check-out of the open row that the resolver returned writes the time into the
comment cell (column F), leaves the check-out cell empty, and the resolver
still reports the open entry on the same row. -/
theorem completarSalida_ignora_mapa_de_columnas :
    (verificarEntradaActiva ejemploColumnas ejemploLibroOtraDisposicion ejemploReloj "77").found
        = true ∧
      (verificarEntradaActiva ejemploColumnas ejemploLibroOtraDisposicion ejemploReloj "77").fila
        = 2 ∧
      (procesarSalida ejemploLibroOtraDisposicion ejemploReloj (some ejemploPersona)
        (verificarEntradaActiva ejemploColumnas ejemploLibroOtraDisposicion ejemploReloj "77")
        "77").2 SHEET_REGISTRO =
        some [["Fecha", "Cédula", "Nombre", "Estado del Acceso", "Entrada", "Comentario",
            "Duración", "Empresa", "Salida"],
          ["2024-05-06", "77", "Luis", "Acceso Permitido", "08:00:00", "09:30:00", "1:30:00",
            "Beta", ""]] ∧
      (verificarEntradaActiva ejemploColumnas
        (procesarSalida ejemploLibroOtraDisposicion ejemploReloj (some ejemploPersona)
          (verificarEntradaActiva ejemploColumnas ejemploLibroOtraDisposicion ejemploReloj "77")
          "77").2 ejemploReloj "77").found = true ∧
      (verificarEntradaActiva ejemploColumnas
        (procesarSalida ejemploLibroOtraDisposicion ejemploReloj (some ejemploPersona)
          (verificarEntradaActiva ejemploColumnas ejemploLibroOtraDisposicion ejemploReloj "77")
          "77").2 ejemploReloj "77").fila = 2 := by
  decide

/-- C29. A roster that names `77` twice closes one row of the example ledger
and reports `procesados = 2`: both turns of the loop find the same row in the
values read before the loop. -/
theorem registrarSalidasMasivas_cuenta_repetidos :
    (registrarSalidasMasivas ejemploEntorno ejemploEstado ejemploReloj ["77", "77"]
        "REAL").1.procesados = 2 ∧
      (registrarSalidasMasivas ejemploEntorno ejemploEstado ejemploReloj ["77", "77"]
        "REAL").1.errores = [] ∧
      ((registrarSalidasMasivas ejemploEntorno ejemploEstado ejemploReloj ["77", "77"]
        "REAL").2.libro SHEET_REGISTRO).map (filasCerradas Columnas.porDefecto ejemploHoja)
        = some 1 := by
  decide

/-- C15, as the code has it. In the default column layout, after the check-out
of an open entry that the resolver found, the access-status cell of the closed
row is what it was before: `completarSalida` writes the check-out and the
duration only. -/
theorem procesarSalida_conserva_estado (libro : Libro) (hoja : Hoja) (reloj : Reloj)
    (persona : Option Usuario) (cedula : String) (hreg : libro SHEET_REGISTRO = some hoja)
    (hfound : (verificarEntradaActiva Columnas.porDefecto libro reloj cedula).found = true) :
    ∃ hoja1,
      (procesarSalida libro reloj persona
        (verificarEntradaActiva Columnas.porDefecto libro reloj cedula) cedula).2 SHEET_REGISTRO
        = some hoja1 ∧
      campo hoja1 (verificarEntradaActiva Columnas.porDefecto libro reloj cedula).fila
        Columnas.porDefecto.ESTADO_ACCESO =
        campo hoja (verificarEntradaActiva Columnas.porDefecto libro reloj cedula).fila
          Columnas.porDefecto.ESTADO_ACCESO := by
  obtain ⟨hoja1, h1, _, _, _, h5, _⟩ :=
    procesarSalida_en_sitio libro hoja reloj persona cedula hreg hfound
  have h2 := (enVentana_rango hoja _
    ((verificarEntradaActiva_caracteriza Columnas.porDefecto libro reloj cedula hoja hreg).2
      hfound).1).1
  refine ⟨hoja1, h1, h5 _ _ (by omega) ?_⟩
  rintro ⟨_, h | h⟩ <;> exact absurd h (by decide)

/-- In the example ledger the status of row 4 is `Acceso Permitido` before and
after the check-out of `77`. -/
theorem procesarSalida_conserva_estado_witness :
    ejemploLibro SHEET_REGISTRO = some ejemploHoja ∧
      (verificarEntradaActiva Columnas.porDefecto ejemploLibro ejemploReloj "77").found = true ∧
      campo ejemploHoja 4 Columnas.porDefecto.ESTADO_ACCESO = "Acceso Permitido" ∧
      ∃ hoja1,
        (procesarSalida ejemploLibro ejemploReloj (some ejemploPersona)
          (verificarEntradaActiva Columnas.porDefecto ejemploLibro ejemploReloj "77")
          "77").2 SHEET_REGISTRO = some hoja1 ∧
        campo hoja1 (verificarEntradaActiva Columnas.porDefecto ejemploLibro ejemploReloj "77").fila
          Columnas.porDefecto.ESTADO_ACCESO =
          campo ejemploHoja
            (verificarEntradaActiva Columnas.porDefecto ejemploLibro ejemploReloj "77").fila
            Columnas.porDefecto.ESTADO_ACCESO :=
  ⟨rfl, by decide, by decide,
    procesarSalida_conserva_estado ejemploLibro ejemploHoja ejemploReloj (some ejemploPersona)
      "77" rfl (by decide)⟩

/-- C15 fails as stated: after the ordinary check-out of Luis, a known person
whose open entry (row 4) was found, the status of the closed row is
`Acceso Permitido`, not `Salida Registrada`. -/
theorem procesarSalida_estado_no_es_salida_registrada :
    (buscarUsuario (inicializarCacheUsuarios ejemploEstado) "77").1 = some ejemploPersona ∧
      (verificarEntradaActiva Columnas.porDefecto ejemploLibro ejemploReloj "77").fila = 4 ∧
      ((handleHTMLFormSubmit ejemploEntorno ejemploEstado ejemploReloj "77" "salida").2.libro
        SHEET_REGISTRO).map (fun hoja => campo hoja 4 Columnas.porDefecto.ESTADO_ACCESO)
        = some "Acceso Permitido" ∧
      ((handleHTMLFormSubmit ejemploEntorno ejemploEstado ejemploReloj "77" "salida").2.libro
        SHEET_REGISTRO).map (fun hoja => campo hoja 4 Columnas.porDefecto.SALIDA)
        = some "09:30:00" ∧
      "Acceso Permitido" ≠ "Salida Registrada" := by
  decide

/-! ### Directory index -/

theorem Objeto.claves_poner {α : Type} (o : Objeto α) (k : String) (v : α) :
    (o.poner k v).claves =
      if k = "__proto__" then o.claves
      else if k ∈ o.claves then o.claves else o.claves ++ [k] := by
  unfold Objeto.poner Objeto.claves
  by_cases hproto : k = "__proto__"
  · rw [if_pos hproto, if_pos hproto]
  rw [if_neg hproto, if_neg hproto]
  by_cases h : o.any (fun p => p.1 = k) = true
  · have hk : k ∈ o.map (fun p => p.1) := by
      simp only [List.any_eq_true, decide_eq_true_eq] at h
      obtain ⟨p, hp, rfl⟩ := h
      exact List.mem_map_of_mem _ hp
    rw [if_pos h, if_pos hk, List.map_map]
    apply List.map_congr_left
    intro p _
    by_cases hp : p.1 = k <;> simp [hp]
  · have hk : ¬ k ∈ o.map (fun p => p.1) := by
      intro hk
      apply h
      simp only [List.mem_map] at hk
      obtain ⟨p, hp, rfl⟩ := hk
      simp only [List.any_eq_true, decide_eq_true_eq]
      exact ⟨p, hp, rfl⟩
    rw [if_neg h, if_neg hk]
    simp

theorem Objeto.claves_poner_nodup {α : Type} (o : Objeto α) (k : String) (v : α)
    (h : o.claves.Nodup) : (o.poner k v).claves.Nodup := by
  rw [Objeto.claves_poner]
  split
  · exact h
  · split
    · exact h
    · rename_i hk
      rw [List.nodup_append]
      refine ⟨h, List.nodup_singleton k, ?_⟩
      intro a ha hb
      simp only [List.mem_singleton] at hb
      subst hb
      exact hk ha

/-- C20. An index that knows Eva only, built before Ana and Luis were added to
the personnel store, is not replaced by `inicializarCacheUsuarios`, and Luis is
not found by the step of `buscarUsuario` that its comment announces as a forced
reload of the index followed by one retry. -/
theorem inicializarCacheUsuarios_no_reemplaza :
    (inicializarCacheUsuarios ejemploEstadoObsoleto).cacheUsuarios = [("5", ejemploEva)] ∧
      (ejemploEstadoObsoleto.libro SHEET_BD).map
        (fun hoja => (indiceDePersonal hoja).claves) = some ["8-123-456", "77", "5"] ∧
      (buscarUsuario ejemploEstadoObsoleto "Luis").1 = none := by
  decide

/-! ### Directory lookup -/

theorem Objeto.mem_enOrden {α : Type} (o : Objeto α) (p : String × α) :
    p ∈ o.enOrden ↔ p ∈ o := by
  unfold Objeto.enOrden
  rw [List.mem_append, List.mem_map, List.mem_filter]
  constructor
  · rintro (⟨q, hq, rfl⟩ | ⟨h, _⟩)
    · have hq2 := (List.perm_insertionSort _ _).mem_iff.1 hq
      rw [List.mem_filterMap] at hq2
      obtain ⟨a, ha, hfa⟩ := hq2
      cases hi : indiceDeClave a.1 with
      | none => simp [hi] at hfa
      | some n =>
        simp only [hi, Option.map_some', Option.some.injEq] at hfa
        rw [← hfa]
        exact ha
    · exact h
  · intro hp
    cases hi : indiceDeClave p.1 with
    | none => exact Or.inr ⟨hp, by simp [hi]⟩
    | some n =>
      refine Or.inl ⟨(n, p), ?_, rfl⟩
      apply (List.perm_insertionSort _ _).mem_iff.2
      rw [List.mem_filterMap]
      exact ⟨p, hp, by simp [hi]⟩

theorem Objeto.enOrden_length {α : Type} (o : Objeto α) : o.enOrden.length = o.length := by
  unfold Objeto.enOrden
  rw [List.length_append, List.length_map, List.length_insertionSort]
  induction o with
  | nil => rfl
  | cons p ps ih =>
    cases hi : indiceDeClave p.1 with
    | none =>
      simp only [List.filterMap_cons, hi, Option.map_none', List.filter_cons, Option.isNone_none,
        if_true, List.length_cons]
      omega
    | some n =>
      simp only [List.filterMap_cons, hi, Option.map_some', List.filter_cons, Option.isNone_some,
        Bool.false_eq_true, if_false, List.length_cons]
      omega

theorem esDigito_de_espacio (c : Char) (h : esEspacio c = true) : esDigito c = false := by
  unfold esEspacio at h
  unfold esDigito
  simp only [Bool.or_eq_true, decide_eq_true_eq, Bool.and_eq_true] at h
  simp only [Bool.and_eq_false_imp, decide_eq_true_eq, decide_eq_false_iff_not]
  omega

theorem filter_dropWhile_espacio (l : List Char) :
    (l.dropWhile esEspacio).filter esDigito = l.filter esDigito := by
  induction l with
  | nil => rfl
  | cons a l ih =>
    by_cases ha : esEspacio a = true
    · simp [List.dropWhile, ha, ih, esDigito_de_espacio a ha]
    · simp [List.dropWhile, ha]

theorem soloDigitos_trim (s : String) : soloDigitos (trim s) = soloDigitos s := by
  unfold soloDigitos trim recortar
  congr 1
  show List.filter esDigito
    (((List.dropWhile esEspacio s.data).reverse.dropWhile esEspacio).reverse) = _
  rw [List.filter_reverse, filter_dropWhile_espacio, ← List.filter_reverse, List.reverse_reverse,
    filter_dropWhile_espacio]

/-- C19 fails as stated for the empty query: the search text of Eva contains
the empty text, so the third match applies, yet the result is null. -/
theorem buscarUsuario_consulta_vacia :
    (buscarUsuario ejemploEstadoObsoleto "").1 = none ∧
      (∃ p ∈ (inicializarCacheUsuarios ejemploEstadoObsoleto).cacheUsuarios,
        coincideTexto p.2 "") := by
  decide

/-! ### Shift close -/

theorem ultimaColumnaDeFila_fuera (f : Fila) (j : Nat) (h : ultimaColumnaDeFila f ≤ j) :
    f.getD j "" = "" := by
  induction f generalizing j with
  | nil => simp
  | cons c cs ih =>
    unfold ultimaColumnaDeFila at h
    dsimp only at h
    by_cases hr : ultimaColumnaDeFila cs = 0
    · rw [if_pos hr] at h
      cases j with
      | zero =>
        by_cases hc : c = ""
        · simp [hc]
        · rw [if_neg hc] at h; omega
      | succ k =>
        simp only [List.getD_cons_succ]
        exact ih k (by omega)
    · rw [if_neg hr] at h
      cases j with
      | zero => omega
      | succ k =>
        simp only [List.getD_cons_succ]
        exact ih k (by omega)

theorem ultimaColumnaDeFila_le (hoja : Hoja) (f : Fila) (hf : f ∈ hoja) :
    ultimaColumnaDeFila f ≤ getLastColumn hoja := by
  unfold getLastColumn
  induction hoja with
  | nil => cases hf
  | cons x xs ih =>
    simp only [List.map_cons, List.foldr_cons]
    rcases List.mem_cons.mp hf with h | h
    · subst h; exact Nat.le_max_left _ _
    · exact Nat.le_trans (ih h) (Nat.le_max_right _ _)

theorem celda_fuera_de_columnas (hoja : Hoja) (i j : Nat) (h : getLastColumn hoja ≤ j) :
    celda hoja i (j + 1) = "" := by
  unfold celda
  simp only [Nat.add_sub_cancel]
  by_cases hi : i - 1 < hoja.length
  · have hm : hoja.getD (i - 1) [] ∈ hoja := by
      rw [List.getD_eq_getElem _ _ hi]
      exact List.getElem_mem hi
    exact ultimaColumnaDeFila_fuera _ j (Nat.le_trans (ultimaColumnaDeFila_le hoja _ hm) h)
  · have e : hoja.getD (i - 1) [] = [] := List.getD_eq_default _ _ (by omega)
    rw [e]
    rfl

theorem oSiNo_getD (l : List String) (j : Nat) : oSiNo l[j]? "" = l.getD j "" := by
  rw [List.getD_eq_getElem?_getD]
  cases h : l[j]? with
  | none => rfl
  | some s => rw [oSiNo_vacio]; rfl

theorem getDataRangeValues_celda (hoja : Hoja) (i j : Nat) (hi : i < hoja.length) :
    ((getDataRangeValues hoja).getD i []).getD j "" = celda hoja (i + 1) (j + 1) := by
  unfold getDataRangeValues
  have hi2 : i < max 1 (getLastRow hoja) := by
    have e : getLastRow hoja = hoja.length := rfl
    omega
  by_cases hj : j < max 1 (getLastColumn hoja)
  · have h := getValues_celda hoja 1 (max 1 (getLastRow hoja)) (max 1 (getLastColumn hoja)) i j hi2 hj
    rw [List.getD_eq_getElem?_getD, h]
    simp [campo, Nat.add_comm]
  · have h := getValues_fuera hoja 1 (max 1 (getLastRow hoja)) (max 1 (getLastColumn hoja)) i j hi2 (by omega)
    rw [List.getD_eq_getElem?_getD, h]
    rw [celda_fuera_de_columnas hoja _ j (by omega)]
    rfl

theorem filaArchivada_getD (cols : Columnas) (fila : List String) (j : Nat) :
    (filaArchivada cols fila).getD j "" =
      if cols.COMENTARIO = j then fila.getD j "" ++ " [FIN TURNO]" else fila.getD j "" := by
  unfold filaArchivada
  rw [ponerEn_getD, oSiNo_getD]
  by_cases h : cols.COMENTARIO = j
  · rw [if_pos h, if_pos h, h]
  · rw [if_neg h, if_neg h]

/-- C26, as the code has it. With the ledger and the archive present:
when the ledger has a data row, `finalizarTurno` succeeds, appends to the
archive one row per data row of the ledger, in order, each equal to the original
cell for cell except the comment cell, which is the original comment followed by
the mark ` [FIN TURNO]`; afterwards the ledger keeps its header row only, and no
other sheet changes. When the ledger has no data row the result is
`success: false` and nothing changes. -/
theorem finalizarTurno_archiva (env : Entorno) (libro : Libro) (hojaRegistro hojaHistorial : Hoja)
    (hr : libro SHEET_REGISTRO = some hojaRegistro)
    (hh : libro SHEET_HISTORIAL = some hojaHistorial) :
    (1 < getLastRow hojaRegistro →
      (finalizarTurno env libro).1.success = true ∧
        (∃ archivadas : Hoja,
          (finalizarTurno env libro).2 SHEET_HISTORIAL = some (hojaHistorial ++ archivadas) ∧
            archivadas.length = getLastRow hojaRegistro - 1 ∧
            ∀ k, k < archivadas.length → ∀ j,
              (archivadas.getD k []).getD j "" =
                if env.cols.COMENTARIO = j then celda hojaRegistro (k + 2) (j + 1) ++ " [FIN TURNO]"
                else celda hojaRegistro (k + 2) (j + 1)) ∧
        (finalizarTurno env libro).2 SHEET_REGISTRO = some (hojaRegistro.take 1) ∧
        getLastRow (hojaRegistro.take 1) = 1 ∧
        ∀ n, n ≠ SHEET_REGISTRO → n ≠ SHEET_HISTORIAL → (finalizarTurno env libro).2 n = libro n) ∧
      (getLastRow hojaRegistro ≤ 1 →
        (finalizarTurno env libro).1.success = false ∧ (finalizarTurno env libro).2 = libro) := by
  have hlen := getDataRangeValues_length hojaRegistro
  have hlr : getLastRow hojaRegistro = hojaRegistro.length := rfl
  constructor
  · intro h1
    have hgt : ¬ (getDataRangeValues hojaRegistro).length ≤ 1 := by omega
    have hne : SHEET_REGISTRO ≠ SHEET_HISTORIAL := by decide
    have e : finalizarTurno env libro =
        ({ success := true
           message := "Turno finalizado correctamente.\n" ++
             toString ((getDataRangeValues hojaRegistro).length - 1) ++
             " registros han sido archivados en el historial." },
          ponerHoja (ponerHoja libro SHEET_HISTORIAL
            (hojaHistorial ++ ((getDataRangeValues hojaRegistro).drop 1).map
              (filaArchivada env.cols))) SHEET_REGISTRO (hojaRegistro.take 1)) := by
      unfold finalizarTurno
      rw [hr]
      dsimp only
      rw [if_neg hgt, hh]
      dsimp only
      rw [if_pos h1]
    rw [e]
    refine ⟨rfl, ⟨((getDataRangeValues hojaRegistro).drop 1).map (filaArchivada env.cols), ?_, ?_, ?_⟩,
      ?_, ?_, ?_⟩
    · simp only [ponerHoja]
      rfl
    · simp only [List.length_map, List.length_drop, hlen]
      omega
    · intro k hk j
      simp only [List.length_map, List.length_drop, hlen] at hk
      have hk2 : k + 1 < hojaRegistro.length := by omega
      have e1 : (((getDataRangeValues hojaRegistro).drop 1).map (filaArchivada env.cols)).getD k [] =
          filaArchivada env.cols ((getDataRangeValues hojaRegistro).getD (k + 1) []) := by
        have hk3 : k < ((getDataRangeValues hojaRegistro).drop 1).length := by
          simp only [List.length_drop, hlen]; omega
        have hk4 : 1 + k < (getDataRangeValues hojaRegistro).length := by omega
        simp only [List.getD_eq_getElem?_getD, List.getElem?_map, List.getElem?_drop]
        rw [List.getElem?_eq_getElem hk4, Nat.add_comm k 1, List.getElem?_eq_getElem hk4]
        rfl
      rw [e1, filaArchivada_getD, getDataRangeValues_celda hojaRegistro (k + 1) j hk2]
    · simp only [ponerHoja]
      rfl
    · simp only [getLastRow, List.length_take]
      omega
    · intro n hn1 hn2
      simp only [ponerHoja]
      rw [if_neg hn1, if_neg hn2]
  · intro h1
    have hle : (getDataRangeValues hojaRegistro).length ≤ 1 := by omega
    unfold finalizarTurno
    rw [hr]
    dsimp only
    rw [if_pos hle]
    exact ⟨rfl, rfl⟩

/-- The example ledger has three data rows; closing the shift moves them to
the archive with the mark in the comment cell. -/
theorem finalizarTurno_archiva_witness :
    ejemploLibro SHEET_REGISTRO = some ejemploHoja ∧
      ejemploLibro SHEET_HISTORIAL = some [ejemploEncabezado] ∧
      1 < getLastRow ejemploHoja ∧
      (finalizarTurno ejemploEntorno ejemploLibro).1.success = true ∧
      (finalizarTurno ejemploEntorno ejemploLibro).2 SHEET_REGISTRO = some (ejemploHoja.take 1) :=
  ⟨by decide, by decide, by decide,
    ((finalizarTurno_archiva ejemploEntorno ejemploLibro ejemploHoja [ejemploEncabezado]
      (by decide) (by decide)).1 (by decide)).1,
    ((finalizarTurno_archiva ejemploEntorno ejemploLibro ejemploHoja [ejemploEncabezado]
      (by decide) (by decide)).1 (by decide)).2.2.1⟩

/-- C26 fails as stated: the rows appended to the archive are not the data
rows of the ledger cell for cell, their comment cell carries the mark
` [FIN TURNO]`. -/
theorem finalizarTurno_no_es_literal :
    (finalizarTurno ejemploEntorno ejemploLibro).1.success = true ∧
      (finalizarTurno ejemploEntorno ejemploLibro).2 SHEET_HISTORIAL ≠
        some ([ejemploEncabezado] ++ ejemploHoja.drop 1) ∧
      ((finalizarTurno ejemploEntorno ejemploLibro).2 SHEET_HISTORIAL).map
          (fun h => celda h 2 (ejemploEntorno.cols.COMENTARIO + 1)) =
        some (celda ejemploHoja 2 (ejemploEntorno.cols.COMENTARIO + 1) ++ " [FIN TURNO]") := by
  decide

/-! ### Name of the drill sheet -/

theorem nombreSimulacro_ne (sello : String) :
    "Simulacro_" ++ sello ≠ SHEET_REGISTRO ∧ "Simulacro_" ++ sello ≠ SHEET_HISTORIAL ∧
      "Simulacro_" ++ sello ≠ SHEET_BD := by
  refine ⟨?_, ?_, ?_⟩ <;>
  · intro h
    have h2 := congrArg String.data h
    simp [String.data_append, SHEET_REGISTRO, SHEET_HISTORIAL, SHEET_BD] at h2

/-! ### De-duplication guard -/

theorem columnas_dentro (c : Columnas) :
    c.FECHA < c.valores.foldr max 0 + 1 ∧ c.CEDULA < c.valores.foldr max 0 + 1 ∧
      c.NOMBRE < c.valores.foldr max 0 + 1 ∧ c.ESTADO_ACCESO < c.valores.foldr max 0 + 1 ∧
      c.ENTRADA < c.valores.foldr max 0 + 1 ∧ c.SALIDA < c.valores.foldr max 0 + 1 ∧
      c.DURACION < c.valores.foldr max 0 + 1 ∧ c.EMPRESA < c.valores.foldr max 0 + 1 ∧
      c.COMENTARIO < c.valores.foldr max 0 + 1 := by
  have h : ∀ (l : List Nat) (x : Nat), x ∈ l → x < l.foldr max 0 + 1 := by
    intro l
    induction l with
    | nil => intro x hx; cases hx
    | cons a as ih =>
      intro x hx
      simp only [List.foldr_cons]
      rcases List.mem_cons.mp hx with e | e
      · subst e; omega
      · have := ih x e; omega
  refine ⟨h _ _ ?_, h _ _ ?_, h _ _ ?_, h _ _ ?_, h _ _ ?_, h _ _ ?_, h _ _ ?_, h _ _ ?_, h _ _ ?_⟩ <;>
    simp [Columnas.valores]

theorem ponerEn_length_dentro {α : Type} (d : α) (l : List α) (i n : Nat) (v : α)
    (hl : l.length = n) (hi : i < n) : (ponerEn d l i v).length = n := by
  rw [ponerEn_length]
  omega

theorem construirFila_length (env : Entorno) (reloj : Reloj) (cedula nombre empresa : String)
    (hE hS : ValorHora) (tipo comentario : String) :
    (construirFila env reloj cedula nombre empresa hE hS tipo comentario).length =
      env.cols.valores.foldr max 0 + 1 := by
  obtain ⟨h1, h2, h3, h4, h5, h6, h7, h8, h9⟩ := columnas_dentro env.cols
  unfold construirFila
  dsimp only
  apply ponerEn_length_dentro _ _ _ _ _ _ h9
  have base : ∀ a b c d : String, (ponerEn "" (ponerEn "" (ponerEn "" (ponerEn ""
      (List.replicate (env.cols.valores.foldr max 0 + 1) "") env.cols.FECHA a) env.cols.CEDULA b)
      env.cols.NOMBRE c) env.cols.EMPRESA d).length = env.cols.valores.foldr max 0 + 1 := by
    intro a b c d
    apply ponerEn_length_dentro _ _ _ _ _ _ h8
    apply ponerEn_length_dentro _ _ _ _ _ _ h3
    apply ponerEn_length_dentro _ _ _ _ _ _ h2
    apply ponerEn_length_dentro _ _ _ _ _ _ h1
    exact List.length_replicate _ _
  split
  · apply ponerEn_length_dentro _ _ _ _ _ _ h6
    apply ponerEn_length_dentro _ _ _ _ _ _ h5
    apply ponerEn_length_dentro _ _ _ _ _ _ h4
    exact base _ _ _ _
  · split
    · split
      · apply ponerEn_length_dentro _ _ _ _ _ _ h7
        apply ponerEn_length_dentro _ _ _ _ _ _ h6
        apply ponerEn_length_dentro _ _ _ _ _ _ h5
        apply ponerEn_length_dentro _ _ _ _ _ _ h4
        exact base _ _ _ _
      · apply ponerEn_length_dentro _ _ _ _ _ _ h6
        apply ponerEn_length_dentro _ _ _ _ _ _ h5
        apply ponerEn_length_dentro _ _ _ _ _ _ h4
        exact base _ _ _ _
    · apply ponerEn_length_dentro _ _ _ _ _ _ h6
      apply ponerEn_length_dentro _ _ _ _ _ _ h5
      apply ponerEn_length_dentro _ _ _ _ _ _ h4
      exact base _ _ _ _

theorem esFilaDuplicada_iff (hoja : Hoja) (fila : Fila) (f w : Nat) (hw : fila.length ≤ w) :
    esFilaDuplicada fila ((getValues hoja f 1 1 w).headD []) = true ↔
      ∀ j, j < fila.length → fila.getD j "" = celda hoja f (j + 1) := by
  unfold esFilaDuplicada
  rw [List.all_eq_true]
  constructor
  · intro h j hj
    have := h j (by simpa using hj)
    rw [ultimaFila_dentro hoja f w j (by omega)] at this
    simpa [campo] using this
  · intro h j hj
    have hj2 : j < fila.length := by simpa using hj
    rw [ultimaFila_dentro hoja f w j (by omega)]
    simpa [campo] using h j hj2

theorem getLastColumn_append (hoja : Hoja) (fila : Fila) :
    getLastColumn hoja ≤ getLastColumn (hoja ++ [fila]) := by
  unfold getLastColumn
  induction hoja with
  | nil => simp
  | cons x xs ih =>
    simp only [List.cons_append, List.map_cons, List.foldr_cons]
    omega

theorem celda_appendRow (hoja : Hoja) (fila : Fila) (j : Nat) :
    celda (appendRow hoja fila) (hoja.length + 1) (j + 1) = fila.getD j "" := by
  unfold celda appendRow
  simp [List.getD_eq_getElem?_getD]

theorem registrarEnHoja_guarda (env : Entorno) (libro : Libro) (reloj : Reloj)
    (cedula nombre empresa : String) (hE hS : ValorHora) (tipo comentario : String)
    (hojaRegistro hojaHistorial : Hoja)
    (hr : libro SHEET_REGISTRO = some hojaRegistro)
    (hh : libro SHEET_HISTORIAL = some hojaHistorial)
    (hc : trim cedula ≠ "")
    (hancho : env.cols.valores.foldr max 0 + 1 ≤ getLastColumn hojaRegistro) :
    ((1 < getLastRow hojaRegistro ∧
        ∀ j, j < (construirFila env reloj cedula nombre empresa hE hS tipo comentario).length →
          (construirFila env reloj cedula nombre empresa hE hS tipo comentario).getD j "" =
            celda hojaRegistro (getLastRow hojaRegistro) (j + 1)) →
        registrarEnHoja env libro reloj cedula nombre empresa hE hS tipo comentario =
          ({ success := true, filaIndex := getLastRow hojaRegistro, duplicado := true }, libro)) ∧
      (¬ (1 < getLastRow hojaRegistro ∧
        ∀ j, j < (construirFila env reloj cedula nombre empresa hE hS tipo comentario).length →
          (construirFila env reloj cedula nombre empresa hE hS tipo comentario).getD j "" =
            celda hojaRegistro (getLastRow hojaRegistro) (j + 1)) →
        registrarEnHoja env libro reloj cedula nombre empresa hE hS tipo comentario =
          ({ success := true, filaIndex := getLastRow hojaRegistro + 1, duplicado := false },
            ponerHoja (ponerHoja libro SHEET_REGISTRO
              (appendRow hojaRegistro
                (construirFila env reloj cedula nombre empresa hE hS tipo comentario)))
              SHEET_HISTORIAL
              (appendRow hojaHistorial
                (construirFila env reloj cedula nombre empresa hE hS tipo comentario)))) := by
  have hlen := construirFila_length env reloj cedula nombre empresa hE hS tipo comentario
  have hiff := esFilaDuplicada_iff hojaRegistro
    (construirFila env reloj cedula nombre empresa hE hS tipo comentario)
    (getLastRow hojaRegistro) (getLastColumn hojaRegistro) (by omega)
  have hne : SHEET_REGISTRO ≠ SHEET_HISTORIAL := by decide
  constructor
  · rintro ⟨h1, h2⟩
    have hd := hiff.2 h2
    unfold registrarEnHoja
    rw [if_neg hc, hr, hh]
    dsimp only
    rw [if_pos h1, hd]
    simp only [Bool.not_true, Bool.false_eq_true, if_false, hr, Option.getD_some]
  · intro hno
    unfold registrarEnHoja
    rw [if_neg hc, hr, hh]
    dsimp only
    have hd : (if getLastRow hojaRegistro > 1 then
        esFilaDuplicada (construirFila env reloj cedula nombre empresa hE hS tipo comentario)
          ((getValues hojaRegistro (getLastRow hojaRegistro) 1 1
            (getLastColumn hojaRegistro)).headD [])
        else false) = false := by
      by_cases h1 : 1 < getLastRow hojaRegistro
      · rw [if_pos h1]
        cases hv : esFilaDuplicada
            (construirFila env reloj cedula nombre empresa hE hS tipo comentario)
            ((getValues hojaRegistro (getLastRow hojaRegistro) 1 1
              (getLastColumn hojaRegistro)).headD []) with
        | false => rfl
        | true => exact absurd ⟨h1, hiff.1 hv⟩ hno
      · rw [if_neg h1]
    rw [hd]
    simp only [Bool.not_false, if_true, ponerHoja, if_neg hne, Option.getD_some, getLastRow,
      appendRow, List.length_append, List.length_singleton]

theorem getLastColumn_pos_length (hoja : Hoja) (h : 1 ≤ getLastColumn hoja) : 1 ≤ hoja.length := by
  cases hoja with
  | nil => simp [getLastColumn] at h
  | cons _ _ => simp

/-- C13. De-duplication guard of the write path. With both sheets present, an
identifier that is not blank and a ledger whose used width covers the column
map: `registrarEnHoja` writes nothing and answers `success: true`,
`duplicado: true` when the ledger has a data row and the candidate row equals
the last row field by field; otherwise it appends the candidate row to the
ledger and to the archive and answers `success: true`, `duplicado: false`.
Submitting the same event again right after, at the same clock reading, is
answered `duplicado: true` and writes nothing more. -/
theorem registrarEnHoja_evita_duplicados (env : Entorno) (libro : Libro) (reloj : Reloj)
    (cedula nombre empresa : String) (hE hS : ValorHora) (tipo comentario : String)
    (hojaRegistro hojaHistorial : Hoja)
    (hr : libro SHEET_REGISTRO = some hojaRegistro)
    (hh : libro SHEET_HISTORIAL = some hojaHistorial)
    (hc : trim cedula ≠ "")
    (hancho : env.cols.valores.foldr max 0 + 1 ≤ getLastColumn hojaRegistro) :
    ((1 < getLastRow hojaRegistro ∧
        ∀ j, j < (construirFila env reloj cedula nombre empresa hE hS tipo comentario).length →
          (construirFila env reloj cedula nombre empresa hE hS tipo comentario).getD j "" =
            celda hojaRegistro (getLastRow hojaRegistro) (j + 1)) →
        (registrarEnHoja env libro reloj cedula nombre empresa hE hS tipo comentario).1.success =
            true ∧
          (registrarEnHoja env libro reloj cedula nombre empresa hE hS tipo comentario).1.duplicado =
            true ∧
          (registrarEnHoja env libro reloj cedula nombre empresa hE hS tipo comentario).2 = libro) ∧
      (¬ (1 < getLastRow hojaRegistro ∧
        ∀ j, j < (construirFila env reloj cedula nombre empresa hE hS tipo comentario).length →
          (construirFila env reloj cedula nombre empresa hE hS tipo comentario).getD j "" =
            celda hojaRegistro (getLastRow hojaRegistro) (j + 1)) →
        (registrarEnHoja env libro reloj cedula nombre empresa hE hS tipo comentario).1.success =
            true ∧
          (registrarEnHoja env libro reloj cedula nombre empresa hE hS tipo comentario).1.duplicado =
            false ∧
          (registrarEnHoja env libro reloj cedula nombre empresa hE hS tipo comentario).2
              SHEET_REGISTRO =
            some (hojaRegistro ++
              [construirFila env reloj cedula nombre empresa hE hS tipo comentario]) ∧
          (registrarEnHoja env libro reloj cedula nombre empresa hE hS tipo comentario).2
              SHEET_HISTORIAL =
            some (hojaHistorial ++
              [construirFila env reloj cedula nombre empresa hE hS tipo comentario])) ∧
      ((registrarEnHoja env
          (registrarEnHoja env libro reloj cedula nombre empresa hE hS tipo comentario).2
          reloj cedula nombre empresa hE hS tipo comentario).1.success = true ∧
        (registrarEnHoja env
          (registrarEnHoja env libro reloj cedula nombre empresa hE hS tipo comentario).2
          reloj cedula nombre empresa hE hS tipo comentario).1.duplicado = true ∧
        (registrarEnHoja env
          (registrarEnHoja env libro reloj cedula nombre empresa hE hS tipo comentario).2
          reloj cedula nombre empresa hE hS tipo comentario).2 =
          (registrarEnHoja env libro reloj cedula nombre empresa hE hS tipo comentario).2) := by
  have hg := registrarEnHoja_guarda env libro reloj cedula nombre empresa hE hS tipo comentario
    hojaRegistro hojaHistorial hr hh hc hancho
  have hne : SHEET_REGISTRO ≠ SHEET_HISTORIAL := by decide
  refine ⟨fun h => ?_, fun h => ?_, ?_⟩
  · rw [hg.1 h]
    exact ⟨rfl, rfl, rfl⟩
  · rw [hg.2 h]
    refine ⟨rfl, rfl, ?_, ?_⟩
    · simp only [ponerHoja, if_neg hne, if_true]
      rfl
    · simp only [ponerHoja, if_true]
      rfl
  · by_cases h : (1 < getLastRow hojaRegistro ∧
        ∀ j, j < (construirFila env reloj cedula nombre empresa hE hS tipo comentario).length →
          (construirFila env reloj cedula nombre empresa hE hS tipo comentario).getD j "" =
            celda hojaRegistro (getLastRow hojaRegistro) (j + 1))
    · rw [hg.1 h]
      dsimp only
      rw [hg.1 h]
      exact ⟨rfl, rfl, rfl⟩
    · rw [hg.2 h]
      dsimp only
      have hlong := getLastColumn_pos_length hojaRegistro (by omega)
      have hg2 := registrarEnHoja_guarda env
        (ponerHoja (ponerHoja libro SHEET_REGISTRO
          (appendRow hojaRegistro
            (construirFila env reloj cedula nombre empresa hE hS tipo comentario)))
          SHEET_HISTORIAL
          (appendRow hojaHistorial
            (construirFila env reloj cedula nombre empresa hE hS tipo comentario)))
        reloj cedula nombre empresa hE hS tipo comentario
        (appendRow hojaRegistro
          (construirFila env reloj cedula nombre empresa hE hS tipo comentario))
        (appendRow hojaHistorial
          (construirFila env reloj cedula nombre empresa hE hS tipo comentario))
        (by simp only [ponerHoja, if_neg hne, if_true])
        (by simp only [ponerHoja, if_true]) hc
        (Nat.le_trans hancho (getLastColumn_append _ _))
      have hdup : 1 < getLastRow (appendRow hojaRegistro
            (construirFila env reloj cedula nombre empresa hE hS tipo comentario)) ∧
          ∀ j, j < (construirFila env reloj cedula nombre empresa hE hS tipo comentario).length →
            (construirFila env reloj cedula nombre empresa hE hS tipo comentario).getD j "" =
              celda (appendRow hojaRegistro
                (construirFila env reloj cedula nombre empresa hE hS tipo comentario))
                (getLastRow (appendRow hojaRegistro
                  (construirFila env reloj cedula nombre empresa hE hS tipo comentario)))
                (j + 1) := by
        have e : getLastRow (appendRow hojaRegistro
            (construirFila env reloj cedula nombre empresa hE hS tipo comentario)) =
            hojaRegistro.length + 1 := by
          simp [getLastRow, appendRow]
        rw [e]
        refine ⟨by omega, fun j _ => ?_⟩
        rw [celda_appendRow]
      rw [hg2.1 hdup]
      exact ⟨rfl, rfl, rfl⟩

/-- Rosa checks in at 09:30:00 on the example ledger, twice: the first
submission appends a row, the second is flagged as a duplicate and the ledger
keeps the one new row. -/
theorem registrarEnHoja_evita_duplicados_witness :
    ejemploLibro SHEET_REGISTRO = some ejemploHoja ∧
      ejemploLibro SHEET_HISTORIAL = some [ejemploEncabezado] ∧ trim "9" ≠ "" ∧
      ejemploEntorno.cols.valores.foldr max 0 + 1 ≤ getLastColumn ejemploHoja ∧
      (registrarEnHoja ejemploEntorno
          (registrarEnHoja ejemploEntorno ejemploLibro ejemploReloj "9" "Rosa" "Delta"
            ejemploReloj.ahora (.texto "") "entrada" "").2
          ejemploReloj "9" "Rosa" "Delta" ejemploReloj.ahora (.texto "") "entrada" "").1.duplicado =
        true ∧
      (registrarEnHoja ejemploEntorno ejemploLibro ejemploReloj "9" "Rosa" "Delta"
        ejemploReloj.ahora (.texto "") "entrada" "").1.duplicado = false :=
  ⟨rfl, rfl, by decide, by decide,
    (registrarEnHoja_evita_duplicados ejemploEntorno ejemploLibro ejemploReloj "9" "Rosa" "Delta"
      ejemploReloj.ahora (.texto "") "entrada" "" ejemploHoja [ejemploEncabezado] rfl rfl
      (by decide) (by decide)).2.2.2.1,
    by decide⟩

/-! ### Temporary status of the commits -/

theorem ponerEn_mismo {α : Type} (d : α) (l : List α) (i : Nat) (h : i < l.length) :
    ponerEn d l i (l.getD i d) = l := by
  unfold ponerEn
  have e : i + 1 - l.length = 0 := by omega
  rw [e]
  simp only [List.replicate, List.append_nil, List.getD_eq_getElem?_getD,
    List.getElem?_eq_getElem h, Option.getD_some]
  apply List.ext_getElem?
  intro j
  rw [List.getElem?_set]
  by_cases hj : i = j
  · subst hj; simp [h]
  · simp [hj]

theorem setValue_mismo (hoja : Hoja) (f c : Nat) (v : String) (hf : f - 1 < hoja.length)
    (hv : celda hoja f c = v) (hne : v ≠ "") : setValue hoja f c v = hoja := by
  unfold setValue
  unfold celda at hv
  have hc : c - 1 < (hoja.getD (f - 1) []).length := by
    by_contra hno
    rw [List.getD_eq_default _ _ (by omega)] at hv
    exact hne hv.symm
  rw [← hv, ponerEn_mismo "" _ _ hc, ponerEn_mismo [] _ _ hf]

theorem marcarTemporal_tras_registrar (env : Entorno) (libro : Libro) (reloj : Reloj)
    (cedula nombre empresa : String) (hE hS : ValorHora) (tipo comentario : String)
    (hojaRegistro hojaHistorial : Hoja)
    (hr : libro SHEET_REGISTRO = some hojaRegistro)
    (hh : libro SHEET_HISTORIAL = some hojaHistorial)
    (hc : trim cedula ≠ "")
    (hancho : env.cols.valores.foldr max 0 + 1 ≤ getLastColumn hojaRegistro)
    (hst : (construirFila env reloj cedula nombre empresa hE hS tipo comentario).getD
      env.cols.ESTADO_ACCESO "" = ESTADO_TEMPORAL) :
    ((1 < getLastRow hojaRegistro ∧
        ∀ j, j < (construirFila env reloj cedula nombre empresa hE hS tipo comentario).length →
          (construirFila env reloj cedula nombre empresa hE hS tipo comentario).getD j "" =
            celda hojaRegistro (getLastRow hojaRegistro) (j + 1)) →
        marcarTemporal env
            (registrarEnHoja env libro reloj cedula nombre empresa hE hS tipo comentario).2
            (registrarEnHoja env libro reloj cedula nombre empresa hE hS tipo comentario).1
            SHEET_REGISTRO = some hojaRegistro ∧
          marcarTemporal env
            (registrarEnHoja env libro reloj cedula nombre empresa hE hS tipo comentario).2
            (registrarEnHoja env libro reloj cedula nombre empresa hE hS tipo comentario).1
            SHEET_HISTORIAL = some hojaHistorial) ∧
      (¬ (1 < getLastRow hojaRegistro ∧
        ∀ j, j < (construirFila env reloj cedula nombre empresa hE hS tipo comentario).length →
          (construirFila env reloj cedula nombre empresa hE hS tipo comentario).getD j "" =
            celda hojaRegistro (getLastRow hojaRegistro) (j + 1)) →
        marcarTemporal env
            (registrarEnHoja env libro reloj cedula nombre empresa hE hS tipo comentario).2
            (registrarEnHoja env libro reloj cedula nombre empresa hE hS tipo comentario).1
            SHEET_REGISTRO =
            some (hojaRegistro ++
              [construirFila env reloj cedula nombre empresa hE hS tipo comentario]) ∧
          marcarTemporal env
            (registrarEnHoja env libro reloj cedula nombre empresa hE hS tipo comentario).2
            (registrarEnHoja env libro reloj cedula nombre empresa hE hS tipo comentario).1
            SHEET_HISTORIAL =
            some (hojaHistorial ++
              [construirFila env reloj cedula nombre empresa hE hS tipo comentario])) := by
  have hg := registrarEnHoja_guarda env libro reloj cedula nombre empresa hE hS tipo comentario
    hojaRegistro hojaHistorial hr hh hc hancho
  have hlen := construirFila_length env reloj cedula nombre empresa hE hS tipo comentario
  have hcol := (columnas_dentro env.cols).2.2.2.1
  have hne : SHEET_REGISTRO ≠ SHEET_HISTORIAL := by decide
  have htemp : ESTADO_TEMPORAL ≠ "" := by decide
  constructor
  · intro h
    rw [hg.1 h]
    have h1 : getLastRow hojaRegistro ≠ 0 := by omega
    have hcel : celda hojaRegistro (getLastRow hojaRegistro) (env.cols.ESTADO_ACCESO + 1) =
        ESTADO_TEMPORAL := by
      rw [← h.2 env.cols.ESTADO_ACCESO (by omega)]
      exact hst
    simp only [marcarTemporal, if_neg h1, hr]
    rw [setValue_mismo hojaRegistro _ _ _ (by unfold getLastRow at *; omega) hcel htemp]
    simp only [ponerHoja, if_neg hne.symm, if_true]
    exact ⟨trivial, hh⟩
  · intro h
    rw [hg.2 h]
    have h1 : getLastRow hojaRegistro + 1 ≠ 0 := by omega
    have hcel : celda (appendRow hojaRegistro
          (construirFila env reloj cedula nombre empresa hE hS tipo comentario))
        (getLastRow hojaRegistro + 1) (env.cols.ESTADO_ACCESO + 1) = ESTADO_TEMPORAL := by
      show celda _ (hojaRegistro.length + 1) _ = _
      rw [celda_appendRow]
      exact hst
    simp only [marcarTemporal, if_neg h1, ponerHoja, if_neg hne, if_true]
    rw [setValue_mismo _ _ _ _ (by simp [getLastRow, appendRow]) hcel htemp]
    simp only [if_neg hne.symm, if_true]
    exact ⟨rfl, rfl⟩

theorem construirFila_salida_porDefecto (t : String → Option Int) (reloj : Reloj)
    (cedula nombre empresa comentario : String) :
    construirFila { cols := Columnas.porDefecto, tiempoDeFecha := t } reloj cedula nombre empresa
        (.texto "") reloj.ahora "salida" comentario =
      [reloj.fechaHoy, trim cedula, if nombre = "" then "N/A" else nombre, ESTADO_TEMPORAL,
        "", formatearHora reloj.ahora, "",
        if empresa = "" then "N/A" else empresa, comentario] := by
  have h1 : ¬ ("salida" : String) = "entrada" := by decide
  have h2 : (ValorHora.texto "").verdadero = false := by decide
  have h3 : reloj.ahora.verdadero = true := rfl
  unfold construirFila
  simp only [Columnas.porDefecto, Columnas.valores, List.foldr, if_true, Bool.false_eq_true,
    if_false, h1, h2, h3, Bool.not_false, Bool.true_or, Bool.false_and]
  exact ponerEn_fila_nueva _ _ _ _ _ _ _ _

theorem construirFila_entrada_comentada_porDefecto (t : String → Option Int) (reloj : Reloj)
    (cedula nombre empresa comentario : String) (hcom : comentario ≠ "")
    (hmarca : esMarcaTemporal (toUpperCase comentario) = true) :
    construirFila { cols := Columnas.porDefecto, tiempoDeFecha := t } reloj cedula nombre empresa
        reloj.ahora (.texto "") "entrada" comentario =
      [reloj.fechaHoy, trim cedula, if nombre = "" then "N/A" else nombre, ESTADO_TEMPORAL,
        formatearHora reloj.ahora, "", "",
        if empresa = "" then "N/A" else empresa, comentario] := by
  have h3 : reloj.ahora.verdadero = true := rfl
  unfold construirFila
  simp only [Columnas.porDefecto, Columnas.valores, List.foldr, if_true, Bool.false_eq_true,
    if_false, h3, if_neg hcom, hmarca]
  exact ponerEn_fila_nueva _ _ _ _ _ _ _ _

theorem toUpperCase_append (a b : String) : toUpperCase (a ++ b) = toUpperCase a ++ toUpperCase b := by
  unfold toUpperCase
  apply String.ext
  simp [String.data_append, List.flatMap_append]

theorem incluye_prefijo (a b sub : String) (h : sub.data <:+: a.data) : incluye (a ++ b) sub = true := by
  unfold incluye
  rw [decide_eq_true_eq, String.data_append]
  exact List.IsInfix.trans h (List.infix_append' [] a.data b.data)

theorem esMarcaTemporal_visitante (x : String) :
    "VISITANTE: " ++ x ≠ "" ∧ esMarcaTemporal (toUpperCase ("VISITANTE: " ++ x)) = true := by
  constructor
  · intro h
    have h2 := congrArg String.data h
    simp [String.data_append] at h2
  · have e : toUpperCase "VISITANTE: " = "VISITANTE: " := by decide
    rw [toUpperCase_append, e]
    unfold esMarcaTemporal
    rw [incluye_prefijo _ _ "VISITANTE" (by decide)]
    rfl

/-- C16 fails as stated: when Luis commits the justified check-out `olvido`
a second time at the same clock reading, the commit succeeds but writes no
row, because the candidate row equals the last row of the ledger. -/
theorem commit_repetido_no_escribe :
    (manejarComentarioPersonaRegistrada ejemploEntorno ejemploEstadoJustificado ejemploReloj
        "77" "olvido").1.success = true ∧
      (manejarComentarioPersonaRegistrada ejemploEntorno ejemploEstadoJustificado ejemploReloj
        "77" "olvido").2.libro SHEET_REGISTRO = ejemploEstadoJustificado.libro SHEET_REGISTRO ∧
      (ejemploEstadoJustificado.libro SHEET_REGISTRO).map List.length = some 5 := by
  decide

/-! ### Duration calculator on dated text -/

theorem digitoChar_limpio : ∀ d, d < 10 →
    digitoChar d ≠ ' ' ∧ digitoChar d ≠ '/' ∧ digitoChar d ≠ ':' ∧ digitoChar d ≠ 'T' ∧
      esEspacio (digitoChar d) = false := by
  decide

theorem parseFechaHora_tres (t : String → Option Int) (d1 d2 m1 m2 y1 y2 y3 y4 h1 h2 n1 n2 s1 s2 : Char)
    (hd1 : d1 ≠ ' ' ∧ d1 ≠ '/' ∧ esEspacio d1 = false) (hd2 : d2 ≠ ' ' ∧ d2 ≠ '/')
    (hm1 : m1 ≠ ' ' ∧ m1 ≠ '/') (hm2 : m2 ≠ ' ' ∧ m2 ≠ '/')
    (hy1 : y1 ≠ ' ' ∧ y1 ≠ '/') (hy2 : y2 ≠ ' ' ∧ y2 ≠ '/')
    (hy3 : y3 ≠ ' ' ∧ y3 ≠ '/') (hy4 : y4 ≠ ' ' ∧ y4 ≠ '/')
    (hh1 : h1 ≠ ' ' ∧ h1 ≠ ':') (hh2 : h2 ≠ ' ' ∧ h2 ≠ ':')
    (hn1 : n1 ≠ ' ' ∧ n1 ≠ ':') (hn2 : n2 ≠ ' ' ∧ n2 ≠ ':')
    (hs1 : s1 ≠ ' ' ∧ s1 ≠ ':') (hs2 : s2 ≠ ' ' ∧ s2 ≠ ':' ∧ esEspacio s2 = false) :
    parseFechaHora t ⟨[d1, d2, '/', m1, m2, '/', y1, y2, y3, y4, ' ', h1, h2, ':', n1, n2, ':',
        s1, s2]⟩ =
      t ⟨[y1, y2, y3, y4, '-', m1, m2, '-', d1, d2, 'T', h1, h2, ':', n1, n2, ':', s1, s2]⟩ := by
  have hne : (⟨[d1, d2, '/', m1, m2, '/', y1, y2, y3, y4, ' ', h1, h2, ':', n1, n2, ':',
        s1, s2]⟩ : String) ≠ "" := by
    intro h
    have := congrArg String.data h
    simp at this
  have htrim : trim ⟨[d1, d2, '/', m1, m2, '/', y1, y2, y3, y4, ' ', h1, h2, ':', n1, n2, ':',
        s1, s2]⟩ = ⟨[d1, d2, '/', m1, m2, '/', y1, y2, y3, y4, ' ', h1, h2, ':', n1, n2, ':',
        s1, s2]⟩ := by
    simp [trim, recortar, hd1.2.2, hs2.2.2]
  unfold parseFechaHora
  rw [if_neg hne]
  simp only [htrim]
  simp [incluyeCaracter, partir, padStart2, hd1.1, hd1.2.1, hd2.1, hd2.2, hm1.1, hm1.2, hm2.1, hm2.2,
    hy1.1, hy1.2, hy2.1, hy2.2, hy3.1, hy3.2, hy4.1, hy4.2, hh1.1, hh1.2, hh2.1, hh2.2,
    hn1.1, hn1.2, hn2.1, hn2.2, hs1.1, hs1.2, hs2.1, hs2.2.1]
  rfl

theorem parseFechaHora_dos (t : String → Option Int) (d1 d2 m1 m2 y1 y2 y3 y4 h1 h2 n1 n2 : Char)
    (hd1 : d1 ≠ ' ' ∧ d1 ≠ '/' ∧ esEspacio d1 = false) (hd2 : d2 ≠ ' ' ∧ d2 ≠ '/')
    (hm1 : m1 ≠ ' ' ∧ m1 ≠ '/') (hm2 : m2 ≠ ' ' ∧ m2 ≠ '/')
    (hy1 : y1 ≠ ' ' ∧ y1 ≠ '/') (hy2 : y2 ≠ ' ' ∧ y2 ≠ '/')
    (hy3 : y3 ≠ ' ' ∧ y3 ≠ '/') (hy4 : y4 ≠ ' ' ∧ y4 ≠ '/')
    (hh1 : h1 ≠ ' ' ∧ h1 ≠ ':') (hh2 : h2 ≠ ' ' ∧ h2 ≠ ':')
    (hn1 : n1 ≠ ' ' ∧ n1 ≠ ':') (hn2 : n2 ≠ ' ' ∧ n2 ≠ ':' ∧ esEspacio n2 = false) :
    parseFechaHora t ⟨[d1, d2, '/', m1, m2, '/', y1, y2, y3, y4, ' ', h1, h2, ':', n1, n2]⟩ =
      t ⟨[y1, y2, y3, y4, '-', m1, m2, '-', d1, d2, 'T', h1, h2, ':', n1, n2, ':', '0', '0']⟩ := by
  have hne : (⟨[d1, d2, '/', m1, m2, '/', y1, y2, y3, y4, ' ', h1, h2, ':', n1, n2]⟩ : String) ≠
      "" := by
    intro h
    have := congrArg String.data h
    simp at this
  have htrim : trim ⟨[d1, d2, '/', m1, m2, '/', y1, y2, y3, y4, ' ', h1, h2, ':', n1, n2]⟩ =
      ⟨[d1, d2, '/', m1, m2, '/', y1, y2, y3, y4, ' ', h1, h2, ':', n1, n2]⟩ := by
    simp [trim, recortar, hd1.2.2, hn2.2.2]
  unfold parseFechaHora
  rw [if_neg hne]
  simp only [htrim]
  simp [incluyeCaracter, partir, padStart2, hd1.1, hd1.2.1, hd2.1, hd2.2, hm1.1, hm1.2, hm2.1, hm2.2,
    hy1.1, hy1.2, hy2.1, hy2.2, hy3.1, hy3.2, hy4.1, hy4.2, hh1.1, hh1.2, hh2.1, hh2.2,
    hn1.1, hn1.2, hn2.1, hn2.2.1]
  rfl

theorem parseFechaHora_fecha_hora (t : String → Option Int) (d : FechaCalendario) (a : HoraDelDia)
    (hd : d.valida) (ha : a.valida) :
    parseFechaHora t (d.texto ++ " " ++ a.texto) = t (d.fechaISO ++ "T" ++ a.completa.texto) := by
  obtain ⟨_, hd2, _, hm2, hy⟩ := hd
  have c1 := digitoChar_limpio (d.dia / 10) (by omega)
  have c2 := digitoChar_limpio (d.dia % 10) (by omega)
  have c3 := digitoChar_limpio (d.mes / 10) (by omega)
  have c4 := digitoChar_limpio (d.mes % 10) (by omega)
  have c5 := digitoChar_limpio (d.anio / 1000) (by omega)
  have c6 := digitoChar_limpio (d.anio / 100 % 10) (by omega)
  have c7 := digitoChar_limpio (d.anio / 10 % 10) (by omega)
  have c8 := digitoChar_limpio (d.anio % 10) (by omega)
  cases a with
  | hms h m s =>
    obtain ⟨hh, hm, hs⟩ := ha
    have k1 := digitoChar_limpio (h / 10) (by omega)
    have k2 := digitoChar_limpio (h % 10) (by omega)
    have k3 := digitoChar_limpio (m / 10) (by omega)
    have k4 := digitoChar_limpio (m % 10) (by omega)
    have k5 := digitoChar_limpio (s / 10) (by omega)
    have k6 := digitoChar_limpio (s % 10) (by omega)
    exact parseFechaHora_tres t _ _ _ _ _ _ _ _ _ _ _ _ _ _
      ⟨c1.1, c1.2.1, c1.2.2.2.2⟩ ⟨c2.1, c2.2.1⟩ ⟨c3.1, c3.2.1⟩ ⟨c4.1, c4.2.1⟩ ⟨c5.1, c5.2.1⟩
      ⟨c6.1, c6.2.1⟩ ⟨c7.1, c7.2.1⟩ ⟨c8.1, c8.2.1⟩ ⟨k1.1, k1.2.2.1⟩ ⟨k2.1, k2.2.2.1⟩
      ⟨k3.1, k3.2.2.1⟩ ⟨k4.1, k4.2.2.1⟩ ⟨k5.1, k5.2.2.1⟩ ⟨k6.1, k6.2.2.1, k6.2.2.2.2⟩
  | hm h m =>
    obtain ⟨hh, hm⟩ := ha
    have k1 := digitoChar_limpio (h / 10) (by omega)
    have k2 := digitoChar_limpio (h % 10) (by omega)
    have k3 := digitoChar_limpio (m / 10) (by omega)
    have k4 := digitoChar_limpio (m % 10) (by omega)
    exact parseFechaHora_dos t _ _ _ _ _ _ _ _ _ _ _ _
      ⟨c1.1, c1.2.1, c1.2.2.2.2⟩ ⟨c2.1, c2.2.1⟩ ⟨c3.1, c3.2.1⟩ ⟨c4.1, c4.2.1⟩ ⟨c5.1, c5.2.1⟩
      ⟨c6.1, c6.2.1⟩ ⟨c7.1, c7.2.1⟩ ⟨c8.1, c8.2.1⟩ ⟨k1.1, k1.2.2.1⟩ ⟨k2.1, k2.2.2.1⟩
      ⟨k3.1, k3.2.2.1⟩ ⟨k4.1, k4.2.2.1, k4.2.2.2.2⟩

theorem fechaHora_ne (d : FechaCalendario) (a : HoraDelDia) : d.texto ++ " " ++ a.texto ≠ "" := by
  intro h
  have h2 := congrArg String.data h
  simp [String.data_append, FechaCalendario.texto, dosDigitos] at h2

theorem calcularDuracion_de_segundos (t : String → Option Int) (d : FechaCalendario) (base : Int)
    (a b : HoraDelDia) (hd : d.valida) (ha : a.valida) (hb : b.valida)
    (hhost : hostUniforme t d base) :
    calcularDuracion t (d.texto ++ " " ++ a.texto) (d.texto ++ " " ++ b.texto) =
      codificarDuracion (((b.segundos : Int) - (a.segundos : Int)) % 86400).toNat := by
  have hsa := HoraDelDia.segundos_lt a ha
  have hsb := HoraDelDia.segundos_lt b hb
  have hvac : (decide (d.texto ++ " " ++ a.texto = "") || decide (d.texto ++ " " ++ b.texto = "")) =
      false := by
    rw [decide_eq_false (fechaHora_ne d a), decide_eq_false (fechaHora_ne d b)]
    rfl
  unfold calcularDuracion
  rw [hvac]
  simp only [Bool.false_eq_true, if_false]
  rw [parseFechaHora_fecha_hora t d a hd ha, parseFechaHora_fecha_hora t d b hd hb,
    hhost a ha, hhost b hb]
  dsimp only
  have key : (if base + 1000 * (b.segundos : Int) - (base + 1000 * (a.segundos : Int)) < 0 then
      base + 1000 * (b.segundos : Int) - (base + 1000 * (a.segundos : Int)) + 24 * 60 * 60 * 1000
      else base + 1000 * (b.segundos : Int) - (base + 1000 * (a.segundos : Int))) / 1000 =
      (((((b.segundos : Int) - (a.segundos : Int)) % 86400).toNat : Nat) : Int) := by
    split <;> omega
  rw [key]
  exact textoDuracion_natural _

theorem horaCompleta_sin_T (h m s : Nat) (hv : (HoraDelDia.hms h m s).valida) :
    ∀ x ∈ (HoraDelDia.hms h m s).texto.data, x ≠ 'T' := by
  obtain ⟨hh, hm, hs⟩ := hv
  have k1 := (digitoChar_limpio (h / 10) (by omega)).2.2.2.1
  have k2 := (digitoChar_limpio (h % 10) (by omega)).2.2.2.1
  have k3 := (digitoChar_limpio (m / 10) (by omega)).2.2.2.1
  have k4 := (digitoChar_limpio (m % 10) (by omega)).2.2.2.1
  have k5 := (digitoChar_limpio (s / 10) (by omega)).2.2.2.1
  have k6 := (digitoChar_limpio (s % 10) (by omega)).2.2.2.1
  have e1 : (HoraDelDia.hms h m s).texto.data =
      [digitoChar (h / 10), digitoChar (h % 10), ':', digitoChar (m / 10), digitoChar (m % 10),
        ':', digitoChar (s / 10), digitoChar (s % 10)] := rfl
  intro x hx
  rw [e1] at hx
  simp only [List.mem_cons, List.mem_nil_iff, or_false] at hx
  rcases hx with e | e | e | e | e | e | e | e <;> subst e <;> first | assumption | decide

theorem ejemploHost_uniforme : hostUniforme ejemploHost ejemploFecha 0 := by
  intro a ha
  have hv : a.completa.valida := by
    cases a with
    | hms h m s => exact ha
    | hm h m => exact ⟨ha.1, ha.2, by omega⟩
  have hs : a.completa.segundos = a.segundos := by
    cases a with
    | hms h m s => rfl
    | hm h m => simp [HoraDelDia.completa, HoraDelDia.segundos]
  have hsin : ∀ x ∈ a.completa.texto.data, x ≠ 'T' := by
    cases a with
    | hms h m s => exact horaCompleta_sin_T h m s ha
    | hm h m => exact horaCompleta_sin_T h m 0 ⟨ha.1, ha.2, by omega⟩
  have hp : (partir 'T' (ejemploFecha.fechaISO ++ "T" ++ a.completa.texto).data).getD 1 [] =
      a.completa.texto.data := by
    have e : (ejemploFecha.fechaISO ++ "T" ++ a.completa.texto).data =
        '2' :: '0' :: '2' :: '4' :: '-' :: '0' :: '5' :: '-' :: '0' :: '6' :: 'T' ::
          a.completa.texto.data := by
      simp only [String.data_append]
      rfl
    rw [e]
    simp [partir, partir_sin 'T' _ hsin]
  unfold ejemploHost
  simp only [hp]
  have hts := totalSegundos_texto a.completa hv
  rw [hs] at hts
  have e2 : (⟨a.completa.texto.data⟩ : String) = a.completa.texto := rfl
  rw [e2, hts]

/-- C27. Duration calculation is uniform across write paths: for a calendar
date `d` written `DD/MM/YYYY` and two valid times of day `a` and `b`, on a host
that reads the date-times of that date on a uniform scale,
`calcularDuracion("d a", "d b")` returns the same text as
`calcularDuracionSimple(a, b)`. -/
theorem calcularDuracion_uniforme (t : String → Option Int) (d : FechaCalendario) (base : Int)
    (a b : HoraDelDia) (hd : d.valida) (ha : a.valida) (hb : b.valida)
    (hhost : hostUniforme t d base) :
    calcularDuracion t (d.texto ++ " " ++ a.texto) (d.texto ++ " " ++ b.texto) =
      calcularDuracionSimple (.texto a.texto) (.texto b.texto) := by
  rw [calcularDuracion_de_segundos t d base a b hd ha hb hhost,
    calcularDuracionSimple_de_segundos a b ha hb]

/-- On 6 May 2024, from `23:15` to `00:05:30` both calculators give
`0:50:30`. -/
theorem calcularDuracion_uniforme_witness :
    ejemploFecha.valida ∧ (HoraDelDia.hm 23 15).valida ∧ (HoraDelDia.hms 0 5 30).valida ∧
      hostUniforme ejemploHost ejemploFecha 0 ∧
      calcularDuracion ejemploHost
          (ejemploFecha.texto ++ " " ++ (HoraDelDia.hm 23 15).texto)
          (ejemploFecha.texto ++ " " ++ (HoraDelDia.hms 0 5 30).texto) =
        calcularDuracionSimple (.texto (HoraDelDia.hm 23 15).texto)
          (.texto (HoraDelDia.hms 0 5 30).texto) ∧
      ejemploFecha.texto ++ " " ++ (HoraDelDia.hm 23 15).texto = "06/05/2024 23:15" ∧
      calcularDuracion ejemploHost "06/05/2024 23:15" "06/05/2024 00:05:30" = "0:50:30" :=
  ⟨by decide, by decide, by decide, ejemploHost_uniforme,
    calcularDuracion_uniforme ejemploHost ejemploFecha 0 (.hm 23 15) (.hms 0 5 30) (by decide)
      (by decide) (by decide) ejemploHost_uniforme,
    by decide, by decide⟩

/-! ### Script lock -/

/-- C25. The lock discipline holds for `handleHTMLFormSubmit` only: every
request of that function touches the ledger between `waitLock` and
`releaseLock`, while the justified commit, the visitor commit and the REAL bulk
close-out touch the ledger without ever taking the lock. -/
theorem cerrojo_solo_en_formulario :
    (∀ cedula tipoAcceso, respetaCerrojo (eventosHandleHTMLFormSubmit cedula tipoAcceso)) ∧
      ¬ respetaCerrojo (eventosManejarComentario (some ejemploPersona)
        (registrarEnHoja ejemploEntorno ejemploLibro ejemploReloj "77" "Luis" "Beta" (.texto "")
          ejemploReloj.ahora "salida" "JUSTIFICADO: olvido").1) ∧
      ¬ respetaCerrojo (eventosProcesarRegistro (some ejemploVisitante)
        (registrarEnHoja ejemploEntorno ejemploLibro ejemploReloj "9" "Rosa" "Visitante"
          ejemploReloj.ahora (.texto "") "entrada" (comentarioVisitante ejemploVisitante)).1) ∧
      ¬ respetaCerrojo (eventosRegistrarSalidasMasivas ejemploEntorno ejemploEstado ["77"] "REAL") := by
  refine ⟨?_, by decide, by decide, by decide⟩
  intro cedula tipoAcceso
  unfold respetaCerrojo eventosHandleHTMLFormSubmit
  split
  · rfl
  · split
    · rfl
    · split <;> rfl

/-! ### Presence snapshot -/

theorem Objeto.mem_poner {α : Type} (o : Objeto α) (k : String) (v : α) (p : String × α)
    (hk : k ≠ "__proto__") :
    p ∈ o.poner k v ↔ p = (k, v) ∨ (p.1 ≠ k ∧ p ∈ o) := by
  unfold Objeto.poner
  rw [if_neg hk]
  by_cases h : o.any (fun p => p.1 = k) = true
  · rw [if_pos h, List.mem_map]
    simp only [List.any_eq_true, decide_eq_true_eq] at h
    constructor
    · rintro ⟨q, hq, rfl⟩
      by_cases hk : q.1 = k
      · left; simp [hk]
      · right; simp [hk, hq]
    · rintro (rfl | ⟨hk, hp⟩)
      · obtain ⟨q, hq, hqk⟩ := h
        exact ⟨q, hq, by simp [hqk]⟩
      · exact ⟨p, hp, by simp [hk]⟩
  · rw [if_neg h, List.mem_append, List.mem_singleton]
    simp only [List.any_eq_true, decide_eq_true_eq, not_exists, not_and] at h
    constructor
    · rintro (hp | rfl)
      · exact Or.inr ⟨h p hp, hp⟩
      · exact Or.inl rfl
    · rintro (rfl | ⟨_, hp⟩)
      · exact Or.inr rfl
      · exact Or.inl hp

theorem Objeto.mem_borrar {α : Type} (o : Objeto α) (k : String) (p : String × α) :
    p ∈ o.borrar k ↔ p.1 ≠ k ∧ p ∈ o := by
  unfold Objeto.borrar
  rw [List.mem_filter]
  simp [and_comm]

theorem Objeto.claves_borrar_nodup {α : Type} (o : Objeto α) (k : String) (h : o.claves.Nodup) :
    (o.borrar k).claves.Nodup := by
  unfold Objeto.borrar Objeto.claves at *
  exact List.Nodup.sublist (List.Sublist.map _ (List.filter_sublist _)) h

theorem pasoEvacuacion_mem_ordinaria (o : Objeto PersonaDentro) (fila : List String)
    (p : String × PersonaDentro) (hproto : cedulaDeFila fila ≠ "__proto__") :
    p ∈ pasoEvacuacion o fila ↔
      (cedulaDeFila fila = p.1 ∧ p.1 ≠ "" ∧ abreEvacuacion fila = true ∧ p.2 = personaDeFila fila) ∨
        (p ∈ o ∧ ¬ cuentaPara fila p.1) := by
  obtain ⟨c, v⟩ := p
  unfold pasoEvacuacion cuentaPara abreEvacuacion
  dsimp only
  by_cases hc : cedulaDeFila fila = ""
  · rw [if_pos hc]
    constructor
    · intro h
      exact Or.inr ⟨h, fun hx => hx.2.1 (hx.1 ▸ hc)⟩
    · rintro (h | h)
      · exact absurd (h.1 ▸ hc) h.2.1
      · exact h.1
  · rw [if_neg hc]
    cases hE : tieneValor fila[4]? <;> cases hS : tieneValor fila[5]? <;>
      simp only [Bool.false_and, Bool.true_and, Bool.not_false, Bool.not_true, Bool.false_eq_true,
        if_false, if_true, Objeto.mem_poner _ _ _ _ hproto, Objeto.mem_borrar, Prod.mk.injEq,
        false_and, and_false,
        false_or, or_false, or_true, true_or, and_true, true_and, ne_eq, not_and, not_true_eq_false,
        not_false_eq_true, imp_false, implies_true]
    · constructor
      · rintro ⟨h1, h2⟩
        exact ⟨h2, fun h3 h4 => h1 h3.symm⟩
      · rintro ⟨h1, h2⟩
        refine ⟨fun h3 => ?_, h1⟩
        have := h2 h3.symm
        exact this (h3 ▸ hc)
    · constructor
      · rintro (⟨rfl, rfl⟩ | ⟨h1, h2⟩)
        · exact Or.inl ⟨rfl, hc, rfl⟩
        · exact Or.inr ⟨h2, fun h3 h4 => h1 h3.symm⟩
      · rintro (⟨h1, _, h3⟩ | ⟨h1, h2⟩)
        · exact Or.inl ⟨h1.symm, h3⟩
        · refine Or.inr ⟨fun h3 => ?_, h1⟩
          have := h2 h3.symm
          exact this (h3 ▸ hc)
    · constructor
      · rintro ⟨h1, h2⟩
        exact ⟨h2, fun h3 h4 => h1 h3.symm⟩
      · rintro ⟨h1, h2⟩
        refine ⟨fun h3 => ?_, h1⟩
        have := h2 h3.symm
        exact this (h3 ▸ hc)

theorem pasoEvacuacion_mem_proto (o : Objeto PersonaDentro) (fila : List String)
    (p : String × PersonaDentro) (ho : ∀ q ∈ o, q.1 ≠ "__proto__")
    (hproto : cedulaDeFila fila = "__proto__") : p ∈ pasoEvacuacion o fila ↔ p ∈ o := by
  unfold pasoEvacuacion
  dsimp only
  rw [hproto, if_neg (by decide)]
  split
  · unfold Objeto.poner
    rw [if_pos rfl]
  · split
    · rw [Objeto.mem_borrar]
      exact ⟨fun h => h.2, fun h => ⟨ho p h, h⟩⟩
    · rfl

theorem pasoEvacuacion_mem (o : Objeto PersonaDentro) (fila : List String)
    (p : String × PersonaDentro) (ho : ∀ q ∈ o, q.1 ≠ "__proto__") :
    p ∈ pasoEvacuacion o fila ↔
      (cedulaDeFila fila = p.1 ∧ p.1 ≠ "" ∧ p.1 ≠ "__proto__" ∧ abreEvacuacion fila = true ∧
          p.2 = personaDeFila fila) ∨
        (p ∈ o ∧ ¬ cuentaPara fila p.1) := by
  by_cases hproto : cedulaDeFila fila = "__proto__"
  · rw [pasoEvacuacion_mem_proto o fila p ho hproto]
    constructor
    · intro h
      exact Or.inr ⟨h, fun hx => ho p h (hx.1 ▸ hproto)⟩
    · rintro (h | h)
      · exact absurd (h.1 ▸ hproto) h.2.2.1
      · exact h.1
  · rw [pasoEvacuacion_mem_ordinaria o fila p hproto]
    constructor
    · rintro (⟨h1, h2, h3, h4⟩ | h)
      · exact Or.inl ⟨h1, h2, fun e => hproto (h1.trans e), h3, h4⟩
      · exact Or.inr h
    · rintro (⟨h1, h2, _, h3, h4⟩ | h)
      · exact Or.inl ⟨h1, h2, h3, h4⟩
      · exact Or.inr h

theorem pasoEvacuacion_nodup (o : Objeto PersonaDentro) (fila : List String)
    (h : o.claves.Nodup) : (pasoEvacuacion o fila).claves.Nodup := by
  unfold pasoEvacuacion
  dsimp only
  split
  · exact h
  · split
    · exact Objeto.claves_poner_nodup _ _ _ h
    · split
      · exact Objeto.claves_borrar_nodup _ _ h
      · exact h

theorem foldl_pasoEvacuacion_mem (F : Nat → List String) (n : Nat) (p : String × PersonaDentro) :
    p ∈ ((List.range n).map F).foldl pasoEvacuacion [] ↔
      ∃ i, i < n ∧ cedulaDeFila (F i) = p.1 ∧ p.1 ≠ "" ∧ p.1 ≠ "__proto__" ∧
        abreEvacuacion (F i) = true ∧
        p.2 = personaDeFila (F i) ∧ ∀ j, i < j → j < n → ¬ cuentaPara (F j) p.1 := by
  induction n generalizing p with
  | zero => simp
  | succ n ih =>
    rw [List.range_succ, List.map_append, List.foldl_append]
    simp only [List.map_cons, List.map_nil, List.foldl_cons, List.foldl_nil]
    have ho : ∀ q ∈ ((List.range n).map F).foldl pasoEvacuacion [], q.1 ≠ "__proto__" := by
      intro q hq
      obtain ⟨_, _, _, _, h, _⟩ := (ih q).1 hq
      exact h
    rw [pasoEvacuacion_mem _ _ _ ho, ih]
    constructor
    · rintro (⟨h1, h2, hp, h3, h4⟩ | ⟨⟨i, hi, h1, h2, hp, h3, h4, h5⟩, h6⟩)
      · exact ⟨n, by omega, h1, h2, hp, h3, h4, fun j hj1 hj2 => by omega⟩
      · refine ⟨i, by omega, h1, h2, hp, h3, h4, fun j hj1 hj2 => ?_⟩
        by_cases hjn : j = n
        · subst hjn; exact h6
        · exact h5 j hj1 (by omega)
    · rintro ⟨i, hi, h1, h2, hp, h3, h4, h5⟩
      by_cases hin : i = n
      · subst hin
        exact Or.inl ⟨h1, h2, hp, h3, h4⟩
      · exact Or.inr ⟨⟨i, by omega, h1, h2, hp, h3, h4, fun j hj1 hj2 => h5 j hj1 (by omega)⟩,
          h5 n (by omega) (by omega)⟩

theorem foldl_pasoEvacuacion_nodup (filas : List (List String)) (o : Objeto PersonaDentro)
    (h : o.claves.Nodup) : (filas.foldl pasoEvacuacion o).claves.Nodup := by
  induction filas generalizing o with
  | nil => exact h
  | cons f fs ih => exact ih _ (pasoEvacuacion_nodup o f h)

theorem Objeto.enOrden_perm {α : Type} (o : Objeto α) : o.enOrden.Perm o := by
  unfold Objeto.enOrden
  induction o with
  | nil => simp
  | cons p ps ih =>
    cases hi : indiceDeClave p.1 with
    | none =>
      simp only [List.filterMap_cons, hi, Option.map_none', List.filter_cons, Option.isNone_none,
        if_true]
      exact (List.perm_middle).trans (List.Perm.cons p ih)
    | some n =>
      simp only [List.filterMap_cons, hi, Option.map_some', List.filter_cons, Option.isNone_some,
        Bool.false_eq_true, if_false]
      have h1 : (((n, p) :: ps.filterMap (fun p => (indiceDeClave p.1).map (fun n => (n, p)))).insertionSort
          (fun a b => a.1 ≤ b.1)).Perm
          ((n, p) :: (ps.filterMap (fun p => (indiceDeClave p.1).map (fun n => (n, p)))).insertionSort
            (fun a b => a.1 ≤ b.1)) :=
        (List.perm_insertionSort _ _).trans
          (List.Perm.cons _ (List.perm_insertionSort _ _).symm)
      exact ((h1.map (fun q => q.2)).append_right _).trans (List.Perm.cons p ih)

theorem drop_uno_map_range {α : Type} (G : Nat → α) (n : Nat) :
    ((List.range n).map G).drop 1 = (List.range (n - 1)).map (fun i => G (i + 1)) := by
  cases n with
  | zero => rfl
  | succ n =>
    rw [List.range_succ_eq_map]
    simp [List.map_map, Function.comp_def]

theorem filaEvacuacion_get (hoja : Hoja) (i j : Nat) :
    (filaEvacuacion hoja i)[j]? =
      if j < getLastColumn hoja then some (campo hoja (i + 2) j) else none := by
  unfold filaEvacuacion campo
  by_cases h : j < getLastColumn hoja
  · rw [if_pos h]
    simp [List.getElem?_map, List.getElem?_range, h, Nat.add_comm]
    congr 1
    omega
  · rw [if_neg h]
    simp [h]
    omega

theorem verdadero_filaEvacuacion (hoja : Hoja) (i j : Nat) :
    verdadero (filaEvacuacion hoja i)[j]? = decide (campo hoja (i + 2) j ≠ "") := by
  rw [filaEvacuacion_get]
  by_cases h : j < getLastColumn hoja
  · rw [if_pos h]; rfl
  · rw [if_neg h]
    have e : campo hoja (i + 2) j = "" := celda_fuera_de_columnas hoja _ j (by omega)
    rw [e]
    rfl

theorem textoDe_filaEvacuacion (hoja : Hoja) (i j : Nat) (h : campo hoja (i + 2) j ≠ "") :
    textoDe (filaEvacuacion hoja i)[j]? = campo hoja (i + 2) j := by
  rw [filaEvacuacion_get]
  by_cases hj : j < getLastColumn hoja
  · rw [if_pos hj]; rfl
  · exact absurd (celda_fuera_de_columnas hoja _ j (by omega)) h

theorem cedulaDeFila_filaEvacuacion (hoja : Hoja) (i : Nat) :
    cedulaDeFila (filaEvacuacion hoja i) = trim (campo hoja (i + 2) 1) := by
  unfold cedulaDeFila
  rw [verdadero_filaEvacuacion]
  by_cases h : campo hoja (i + 2) 1 = ""
  · simp [h, trim_vacio]
  · simp [h, textoDe_filaEvacuacion hoja i 1 h]

theorem tieneValor_filaEvacuacion (hoja : Hoja) (i j : Nat) :
    tieneValor (filaEvacuacion hoja i)[j]? = true ↔ lleva hoja (i + 2) j := by
  unfold tieneValor lleva
  rw [verdadero_filaEvacuacion]
  by_cases h : campo hoja (i + 2) j = ""
  · simp [h, trim_vacio]
  · simp [h, textoDe_filaEvacuacion hoja i j h]

theorem personaDeFila_filaEvacuacion (hoja : Hoja) (i : Nat) (h : lleva hoja (i + 2) 4) :
    personaDeFila (filaEvacuacion hoja i) = personaDeHoja hoja (i + 2) := by
  have h4 : campo hoja (i + 2) 4 ≠ "" := by
    intro e
    apply h.1
    rw [e]
    exact trim_vacio
  unfold personaDeFila personaDeHoja
  rw [cedulaDeFila_filaEvacuacion, verdadero_filaEvacuacion, verdadero_filaEvacuacion,
    textoDe_filaEvacuacion hoja i 4 h4]
  congr 1
  · by_cases h2 : campo hoja (i + 2) 2 = ""
    · simp [h2]
    · simp [h2, textoDe_filaEvacuacion hoja i 2 h2]
  · by_cases h7 : campo hoja (i + 2) 7 = ""
    · simp [h7]
    · simp [h7, textoDe_filaEvacuacion hoja i 7 h7]

theorem abreEvacuacion_filaEvacuacion (hoja : Hoja) (i : Nat) :
    abreEvacuacion (filaEvacuacion hoja i) = true ↔ lleva hoja (i + 2) 4 ∧ ¬ lleva hoja (i + 2) 5 := by
  unfold abreEvacuacion
  rw [Bool.and_eq_true, Bool.not_eq_true', ← Bool.not_eq_true, tieneValor_filaEvacuacion,
    tieneValor_filaEvacuacion]

theorem cuentaPara_filaEvacuacion (hoja : Hoja) (i : Nat) (c : String) :
    cuentaPara (filaEvacuacion hoja i) c ↔
      trim (campo hoja (i + 2) 1) = c ∧ c ≠ "" ∧ (lleva hoja (i + 2) 4 ∨ lleva hoja (i + 2) 5) := by
  unfold cuentaPara
  rw [cedulaDeFila_filaEvacuacion, tieneValor_filaEvacuacion, tieneValor_filaEvacuacion]

theorem datosEvacuacion (hoja : Hoja) :
    (getValues hoja 1 1 (getLastRow hoja) (getLastColumn hoja)).drop 1 =
      (List.range (getLastRow hoja - 1)).map (filaEvacuacion hoja) := by
  unfold getValues
  rw [drop_uno_map_range]
  rfl

theorem evacuacion_mem (hoja : Hoja) (p : String × PersonaDentro) :
    p ∈ ((getValues hoja 1 1 (getLastRow hoja) (getLastColumn hoja)).drop 1).foldl
        pasoEvacuacion [] ↔
      p.1 ≠ "" ∧ p.1 ≠ "__proto__" ∧ ∃ k, k ≤ getLastRow hoja ∧ esUltimaMarca hoja p.1 k ∧
        lleva hoja k 4 ∧ ¬ lleva hoja k 5 ∧ p.2 = personaDeHoja hoja k := by
  rw [datosEvacuacion, foldl_pasoEvacuacion_mem]
  constructor
  · rintro ⟨i, hi, h1, h2, hp, h3, h4, h5⟩
    rw [cedulaDeFila_filaEvacuacion] at h1
    rw [abreEvacuacion_filaEvacuacion] at h3
    rw [personaDeFila_filaEvacuacion hoja i h3.1] at h4
    refine ⟨h2, hp, i + 2, by omega, ⟨by omega, by omega, h1, Or.inl h3.1, ?_⟩, h3.1, h3.2, h4⟩
    intro q hq1 hq2 hq3 hq4
    have hq : q = (q - 2) + 2 := by omega
    apply h5 (q - 2) (by omega) (by omega)
    rw [cuentaPara_filaEvacuacion, ← hq]
    exact ⟨hq3, h2, hq4⟩
  · rintro ⟨h2, hp, k, hk, ⟨hk2, _, h1, _, h5⟩, h3, h3b, h4⟩
    have hkk : k = (k - 2) + 2 := by omega
    refine ⟨k - 2, by omega, ?_, h2, hp, ?_, ?_, ?_⟩
    · rw [cedulaDeFila_filaEvacuacion, ← hkk]; exact h1
    · rw [abreEvacuacion_filaEvacuacion, ← hkk]; exact ⟨h3, h3b⟩
    · rw [personaDeFila_filaEvacuacion hoja (k - 2) (by rw [← hkk]; exact h3), ← hkk]; exact h4
    · intro j hj1 hj2 hc
      rw [cuentaPara_filaEvacuacion] at hc
      exact h5 (j + 2) (by omega) (by omega) hc.1 hc.2.2

theorem personasDentro_eq (libro : Libro) (hoja : Hoja) (hreg : libro "Registro" = some hoja) :
    (getEvacuacionDataForClient libro).personasDentro =
      if getLastRow hoja ≤ 1 then []
      else ((((getValues hoja 1 1 (getLastRow hoja) (getLastColumn hoja)).drop 1).foldl
        pasoEvacuacion []).enOrden.map (fun p => p.2)) := by
  unfold getEvacuacionDataForClient
  rw [hreg]
  dsimp only
  split <;> rfl

theorem personasDentro_mem (libro : Libro) (hoja : Hoja) (hreg : libro "Registro" = some hoja)
    (q : PersonaDentro) :
    q ∈ (getEvacuacionDataForClient libro).personasDentro ↔
      q.cedula ≠ "" ∧ q.cedula ≠ "__proto__" ∧ ∃ k, k ≤ getLastRow hoja ∧
        esUltimaMarca hoja q.cedula k ∧ lleva hoja k 4 ∧ ¬ lleva hoja k 5 ∧
        q = personaDeHoja hoja k := by
  rw [personasDentro_eq libro hoja hreg]
  by_cases h : getLastRow hoja ≤ 1
  · rw [if_pos h]
    constructor
    · intro hq; cases hq
    · rintro ⟨_, _, k, hk, ⟨hk2, _⟩, _⟩
      omega
  · rw [if_neg h, List.mem_map]
    constructor
    · rintro ⟨p, hp, rfl⟩
      rw [Objeto.mem_enOrden, evacuacion_mem] at hp
      obtain ⟨h1, hpr, k, hk, hu, h4, h5, hp2⟩ := hp
      have hc : p.2.cedula = p.1 := by
        rw [hp2]
        exact hu.2.2.1
      rw [hc]
      exact ⟨h1, hpr, k, hk, hu, h4, h5, hp2⟩
    · rintro ⟨h1, hpr, k, hk, hu, h4, h5, hq⟩
      refine ⟨(q.cedula, q), ?_, rfl⟩
      rw [Objeto.mem_enOrden, evacuacion_mem]
      exact ⟨h1, hpr, k, hk, hu, h4, h5, hq⟩

theorem personasDentro_nodup (libro : Libro) (hoja : Hoja) (hreg : libro "Registro" = some hoja) :
    ((getEvacuacionDataForClient libro).personasDentro.map (fun p => p.cedula)).Nodup := by
  rw [personasDentro_eq libro hoja hreg]
  by_cases h : getLastRow hoja ≤ 1
  · rw [if_pos h]
    exact List.nodup_nil
  · rw [if_neg h, List.map_map]
    have hcong : List.map ((fun p : PersonaDentro => p.cedula) ∘ fun p : String × PersonaDentro => p.2)
        (((getValues hoja 1 1 (getLastRow hoja) (getLastColumn hoja)).drop 1).foldl
          pasoEvacuacion []).enOrden =
        List.map (fun p : String × PersonaDentro => p.1)
          (((getValues hoja 1 1 (getLastRow hoja) (getLastColumn hoja)).drop 1).foldl
            pasoEvacuacion []).enOrden := by
      apply List.map_congr_left
      intro p hp
      rw [Objeto.mem_enOrden, evacuacion_mem] at hp
      obtain ⟨_, _, k, _, hu, _, _, hp2⟩ := hp
      show p.2.cedula = p.1
      rw [hp2]
      exact hu.2.2.1
    rw [hcong]
    exact ((Objeto.enOrden_perm _).map _).nodup_iff.2
      (foldl_pasoEvacuacion_nodup _ [] List.nodup_nil)

theorem totalDentro_eq (libro : Libro) :
    (getEvacuacionDataForClient libro).totalDentro =
      (getEvacuacionDataForClient libro).personasDentro.length := by
  unfold getEvacuacionDataForClient
  split
  · rfl
  · dsimp only
    split <;> rfl

/-! ### Effect of the bulk close-out -/

theorem esUltimaAbiertaDe_unica (cols : Columnas) (hoja : Hoja) (c : String) (k q : Nat)
    (hk : esUltimaAbiertaDe cols hoja c k) (hq : esUltimaAbiertaDe cols hoja c q) : k = q := by
  by_contra hne
  rcases Nat.lt_or_gt_of_ne hne with h | h
  · exact hk.2 q hq.1.2.1 h hq.1
  · exact hq.2 k hk.1.2.1 h hk.1

theorem buscar_ultima_some (cols : Columnas) (hoja : Hoja) (c : String) (i : Nat)
    (h : buscarHaciaAtras (esAbiertaPara cols (getDataRangeValues hoja) c)
      (getDataRangeValues hoja).length = some i) :
    esUltimaAbiertaDe cols hoja c (i + 1) := by
  obtain ⟨hi, hp, hu⟩ := buscarHaciaAtras_some _ _ _ h
  refine ⟨(esAbiertaPara_iff cols hoja c i hi).1 hp, ?_⟩
  intro q hq hiq hab
  have hq2 : q - 1 < (getDataRangeValues hoja).length := by
    rw [getDataRangeValues_length]; omega
  have e : q - 1 + 1 = q := by omega
  have := hu (q - 1) (by omega) hq2
  rw [← e] at hab
  rw [(esAbiertaPara_iff cols hoja c (q - 1) hq2).2 hab] at this
  cases this

theorem buscar_ultima_none (cols : Columnas) (hoja : Hoja) (c : String)
    (h : buscarHaciaAtras (esAbiertaPara cols (getDataRangeValues hoja) c)
      (getDataRangeValues hoja).length = none) (k : Nat) :
    ¬ esUltimaAbiertaDe cols hoja c k := by
  intro hk
  have h2 : 2 ≤ k := hk.1.1
  have hlen : k ≤ hoja.length := hk.1.2.1
  have hj : k - 1 < (getDataRangeValues hoja).length := by
    rw [getDataRangeValues_length]; omega
  have e : k - 1 + 1 = k := by omega
  have hab := hk.1
  rw [← e] at hab
  have := (buscarHaciaAtras_none _ _).1 h (k - 1) hj
  rw [(esAbiertaPara_iff cols hoja c (k - 1) hj).2 hab] at this
  cases this

theorem entrada_de_abierta (cols : Columnas) (hoja : Hoja) (c : String) (i : Nat)
    (h : esAbiertaDe cols hoja c (i + 1)) :
    textoDe ((getDataRangeValues hoja).getD i [])[cols.ENTRADA]? = campo hoja (i + 1) cols.ENTRADA := by
  have hlen : i + 1 ≤ hoja.length := h.2.1
  have hv : verdadero (filaLeida hoja (i + 1))[cols.ENTRADA]? = true := h.2.2.2.1
  unfold filaLeida at hv
  simp only [Nat.add_sub_cancel] at hv
  have hc := getDataRangeValues_celda hoja i cols.ENTRADA (by omega)
  rw [List.getD_eq_getElem?_getD] at hc
  cases hx : ((getDataRangeValues hoja).getD i [])[cols.ENTRADA]? with
  | none => rw [hx] at hv; cases hv
  | some s =>
    rw [hx] at hc
    exact hc

theorem cierraMasivo_append (cols : Columnas) (hoja : Hoja) (l : List String) (x : String) (k : Nat) :
    cierraMasivo cols hoja (l ++ [x]) k ↔
      cierraMasivo cols hoja l k ∨ esUltimaAbiertaDe cols hoja x k := by
  unfold cierraMasivo
  constructor
  · rintro ⟨c, hc, h⟩
    rcases List.mem_append.1 hc with h1 | h1
    · exact Or.inl ⟨c, h1, h⟩
    · rw [List.mem_singleton] at h1
      subst h1
      exact Or.inr h
  · rintro (⟨c, hc, h⟩ | h)
    · exact ⟨c, List.mem_append.2 (Or.inl hc), h⟩
    · exact ⟨x, List.mem_append.2 (Or.inr (List.mem_singleton.2 rfl)), h⟩

theorem foldl_pasoSalidaReal_efecto (cols : Columnas) (hoja : Hoja) (hora : String)
    (hcol : cols.SALIDA ≠ cols.DURACION) (cedulas : List String) :
    (cedulas.foldl (pasoSalidaReal cols (getDataRangeValues hoja) hora)
        { hoja := hoja, procesados := 0, errores := [] }).hoja.length = hoja.length ∧
      ∀ f pos, 1 ≤ f →
        campo (cedulas.foldl (pasoSalidaReal cols (getDataRangeValues hoja) hora)
            { hoja := hoja, procesados := 0, errores := [] }).hoja f pos =
          if cierraMasivo cols hoja cedulas f then
            (if pos = cols.SALIDA then hora
             else if pos = cols.DURACION then
              calcularDuracionSimple (.texto (campo hoja f cols.ENTRADA)) (.texto hora)
             else campo hoja f pos)
          else campo hoja f pos := by
  induction cedulas using List.reverseRecOn with
  | nil =>
    refine ⟨rfl, fun f pos _ => ?_⟩
    have h : ¬ cierraMasivo cols hoja [] f := by
      rintro ⟨c, hc, _⟩
      cases hc
    rw [if_neg h]
    rfl
  | append_singleton l x ih =>
    obtain ⟨ihl, ihc⟩ := ih
    rw [List.foldl_append]
    simp only [List.foldl_cons, List.foldl_nil]
    cases hb : buscarHaciaAtras (esAbiertaPara cols (getDataRangeValues hoja) x)
        (getDataRangeValues hoja).length with
    | none =>
      have hno := buscar_ultima_none cols hoja x hb
      have e : pasoSalidaReal cols (getDataRangeValues hoja) hora
          (l.foldl (pasoSalidaReal cols (getDataRangeValues hoja) hora)
            { hoja := hoja, procesados := 0, errores := [] }) x =
          { (l.foldl (pasoSalidaReal cols (getDataRangeValues hoja) hora)
            { hoja := hoja, procesados := 0, errores := [] }) with
            errores := (l.foldl (pasoSalidaReal cols (getDataRangeValues hoja) hora)
              { hoja := hoja, procesados := 0, errores := [] }).errores ++
              ["No se encontró entrada activa para " ++ x] } := by
        simp only [pasoSalidaReal, hb]
      rw [e]
      refine ⟨ihl, fun f pos hf => ?_⟩
      have hiff : cierraMasivo cols hoja (l ++ [x]) f ↔ cierraMasivo cols hoja l f := by
        rw [cierraMasivo_append]
        exact ⟨fun h => h.elim id (fun h2 => absurd h2 (hno f)), Or.inl⟩
      rw [if_congr hiff rfl rfl]
      exact ihc f pos hf
    | some i =>
      have hult := buscar_ultima_some cols hoja x i hb
      have hi1 : 1 ≤ i + 1 := by omega
      have hi2 : i + 1 ≤ hoja.length := hult.1.2.1
      have hent := entrada_de_abierta cols hoja x i hult.1
      have e : (pasoSalidaReal cols (getDataRangeValues hoja) hora
          (l.foldl (pasoSalidaReal cols (getDataRangeValues hoja) hora)
            { hoja := hoja, procesados := 0, errores := [] }) x).hoja =
          setValue (setValue (l.foldl (pasoSalidaReal cols (getDataRangeValues hoja) hora)
            { hoja := hoja, procesados := 0, errores := [] }).hoja (i + 1) (cols.SALIDA + 1) hora)
            (i + 1) (cols.DURACION + 1)
            (calcularDuracionSimple (.texto (campo hoja (i + 1) cols.ENTRADA)) (.texto hora)) := by
        simp only [pasoSalidaReal, hb, hent]
      rw [e]
      constructor
      · rw [setValue_length _ _ _ _ hi1 (by rw [setValue_length _ _ _ _ hi1 (by omega)]; omega),
          setValue_length _ _ _ _ hi1 (by omega)]
        exact ihl
      · intro f pos hf
        unfold campo
        rw [celda_setValue _ _ _ _ _ _ hi1 (by omega) hf (by omega),
          celda_setValue _ _ _ _ _ _ hi1 (by omega) hf (by omega)]
        have ihf := ihc f pos hf
        unfold campo at ihf
        rw [ihf]
        by_cases hfi : f = i + 1
        · have hcm : cierraMasivo cols hoja (l ++ [x]) f := by
            rw [cierraMasivo_append, hfi]
            exact Or.inr hult
          rw [if_pos hcm]
          by_cases hd : pos = cols.DURACION
          · have hs : pos ≠ cols.SALIDA := by rw [hd]; exact Ne.symm hcol
            rw [if_pos ⟨hfi, by omega⟩, if_neg hs, if_pos hd, hfi]
          · rw [if_neg (fun h => hd (by omega))]
            by_cases hs : pos = cols.SALIDA
            · rw [if_pos ⟨hfi, by omega⟩, if_pos hs]
            · rw [if_neg (fun h => hs (by omega))]
              simp only [if_neg hs, if_neg hd, ite_self]
        · have hiff : cierraMasivo cols hoja (l ++ [x]) f ↔ cierraMasivo cols hoja l f := by
            rw [cierraMasivo_append]
            refine ⟨fun h => h.elim id (fun h2 => ?_), Or.inl⟩
            exact absurd (esUltimaAbiertaDe_unica cols hoja x f (i + 1) h2 hult) hfi
          rw [if_neg (fun h => hfi h.1), if_neg (fun h => hfi h.1)]
          rw [if_congr hiff rfl rfl]

/-- C11. Bulk REAL close-out, effect: with the ledger present, a non-empty
roster and a column map that keeps the check-out and the duration in different
columns, after `registrarSalidasMasivas(roster, 'REAL')` the ledger has the
same number of rows; in the most recent open row of each roster entry (at any
position, for any date) the check-out cell is the current time and the duration
cell is `calcularDuracionSimple` of that row's check-in and the current time;
every other cell of the ledger, and every other sheet, is as before. -/
theorem registrarSalidasMasivas_real_efecto (env : Entorno) (estado : Estado) (reloj : Reloj)
    (cedulas : List String) (hoja : Hoja) (hreg : estado.libro SHEET_REGISTRO = some hoja)
    (hne : cedulas ≠ []) (hcol : env.cols.SALIDA ≠ env.cols.DURACION) :
    (∃ despues : Hoja,
      (registrarSalidasMasivas env estado reloj cedulas "REAL").2.libro SHEET_REGISTRO =
          some despues ∧
        getLastRow despues = getLastRow hoja ∧
        ∀ f pos, 1 ≤ f →
          campo despues f pos =
            if cierraMasivo env.cols hoja cedulas f then
              (if pos = env.cols.SALIDA then formatearHora reloj.ahora
               else if pos = env.cols.DURACION then
                calcularDuracionSimple (.texto (campo hoja f env.cols.ENTRADA))
                  (.texto (formatearHora reloj.ahora))
               else campo hoja f pos)
            else campo hoja f pos) ∧
      ∀ n, n ≠ SHEET_REGISTRO →
        (registrarSalidasMasivas env estado reloj cedulas "REAL").2.libro n = estado.libro n := by
  have hmay : toUpperCase "REAL" = "REAL" := by decide
  have hvac : cedulas.isEmpty = false := by
    cases cedulas with
    | nil => exact absurd rfl hne
    | cons _ _ => rfl
  obtain ⟨h1, h2⟩ := foldl_pasoSalidaReal_efecto env.cols hoja (formatearHora reloj.ahora) hcol
    cedulas
  simp only [registrarSalidasMasivas, hvac, hmay, hreg, Bool.false_eq_true, if_false, if_true]
  refine ⟨⟨_, ?_, h1, h2⟩, ?_⟩
  · simp only [ponerHoja, if_true]
  · intro n hn
    simp only [ponerHoja, if_neg hn]

/-- In the example ledger the most recent open row of `77` is row 4; the bulk
close-out at 09:30:00 writes the check-out and the duration of that row and
leaves row 3, an older open row of `77`, as it was. -/
theorem registrarSalidasMasivas_real_efecto_witness :
    ejemploEstado.libro SHEET_REGISTRO = some ejemploHoja ∧ (["77"] : List String) ≠ [] ∧
      ejemploEntorno.cols.SALIDA ≠ ejemploEntorno.cols.DURACION ∧
      cierraMasivo ejemploEntorno.cols ejemploHoja ["77"] 4 ∧
      ¬ cierraMasivo ejemploEntorno.cols ejemploHoja ["77"] 3 ∧
      (∃ despues : Hoja,
        (registrarSalidasMasivas ejemploEntorno ejemploEstado ejemploReloj ["77"]
          "REAL").2.libro SHEET_REGISTRO = some despues ∧
        getLastRow despues = getLastRow ejemploHoja ∧
        campo despues 4 5 = "09:30:00" ∧ campo despues 4 6 = "1:20:00" ∧ campo despues 3 5 = "") :=
  ⟨rfl, by decide, by decide, by decide, by decide,
    (registrarSalidasMasivas_real_efecto ejemploEntorno ejemploEstado ejemploReloj ["77"]
      ejemploHoja rfl (by decide) (by decide)).1.imp
      (fun despues h => ⟨h.1, h.2.1,
        (h.2.2 4 5 (by decide)).trans (by decide),
        (h.2.2 4 6 (by decide)).trans (by decide),
        (h.2.2 3 5 (by decide)).trans (by decide)⟩)⟩

/-! ### Clock readings and the last row of the ledger -/

theorem formatearHora_reloj (r : Reloj) (hh : r.horas < 24) (hm : r.minutos < 60)
    (hs : r.segundos < 60) :
    formatearHora r.ahora = (HoraDelDia.hms r.horas r.minutos r.segundos).texto := by
  show padStart2 (textoDeEntero (r.horas : Int)) ++ ":" ++
      padStart2 (textoDeEntero (r.minutos : Int)) ++ ":" ++
      padStart2 (textoDeEntero (r.segundos : Int)) =
    dosDigitos r.horas ++ ":" ++ dosDigitos r.minutos ++ ":" ++ dosDigitos r.segundos
  have e1 := padStart2_entero r.horas (by omega)
  have e2 := padStart2_entero r.minutos (by omega)
  have e3 := padStart2_entero r.segundos (by omega)
  simp only [Int.ofNat_eq_coe] at e1 e2 e3
  rw [e1, e2, e3]

theorem trim_horaDelDia (h m s : Nat) (hv : (HoraDelDia.hms h m s).valida) :
    trim (HoraDelDia.hms h m s).texto = (HoraDelDia.hms h m s).texto := by
  obtain ⟨hh, hm, hs⟩ := hv
  have k1 := (digitoChar_limpio (h / 10) (by omega)).2.2.2.2
  have k6 := (digitoChar_limpio (s % 10) (by omega)).2.2.2.2
  have e1 : (HoraDelDia.hms h m s).texto =
      ⟨[digitoChar (h / 10), digitoChar (h % 10), ':', digitoChar (m / 10), digitoChar (m % 10),
        ':', digitoChar (s / 10), digitoChar (s % 10)]⟩ := rfl
  rw [e1]
  simp [trim, recortar, k1, k6]

theorem celda_append_izq (hoja otra : Hoja) (f c : Nat) (hf : f ≤ hoja.length) (h1 : 1 ≤ f) :
    celda (hoja ++ otra) f c = celda hoja f c := by
  unfold celda
  have e : (hoja ++ otra).getD (f - 1) [] = hoja.getD (f - 1) [] := by
    rw [List.getD_eq_getElem?_getD, List.getD_eq_getElem?_getD,
      List.getElem?_append_left (by omega)]
  rw [e]

theorem verificarEntradaActiva_ultima_fila (cols : Columnas) (libro : Libro) (hoja : Hoja)
    (reloj : Reloj) (cedula : String) (hreg : libro SHEET_REGISTRO = some hoja)
    (h2 : 2 ≤ hoja.length)
    (hab : esFilaAbierta cols hoja cedula reloj.fechaHoy hoja.length) :
    (verificarEntradaActiva cols libro reloj cedula).found = true ∧
      (verificarEntradaActiva cols libro reloj cedula).fila = hoja.length := by
  have hc := verificarEntradaActiva_caracteriza cols libro reloj cedula hoja hreg
  have hven : enVentana hoja hoja.length := by
    unfold enVentana
    omega
  have hf : (verificarEntradaActiva cols libro reloj cedula).found = true :=
    hc.1.2 ⟨hoja.length, hven, hab⟩
  obtain ⟨h3, _, h5, _⟩ := hc.2 hf
  have h6 := h5 hoja.length hven hab
  have h7 := (enVentana_rango hoja _ h3).2
  exact ⟨hf, by omega⟩

theorem personasDentro_estaDentro (libro : Libro) (hoja : Hoja)
    (hreg : libro "Registro" = some hoja) (c : String) (hc : c ≠ "") (hproto : c ≠ "__proto__") :
    (∃ p ∈ (getEvacuacionDataForClient libro).personasDentro, p.cedula = c) ↔
      estaDentro hoja c := by
  constructor
  · rintro ⟨p, hp, rfl⟩
    obtain ⟨_, _, k, hk, hu, h4, h5, _⟩ := (personasDentro_mem libro hoja hreg p).1 hp
    exact ⟨k, hk, hu, h4, h5⟩
  · rintro ⟨k, hk, hu, h4, h5⟩
    refine ⟨personaDeHoja hoja k, ?_, hu.2.2.1⟩
    rw [personasDentro_mem libro hoja hreg]
    have e : (personaDeHoja hoja k).cedula = c := hu.2.2.1
    rw [e]
    exact ⟨hc, hproto, k, hk, hu, h4, h5, rfl⟩

/-! ### Append-only ledger -/

theorem soloAnexa_refl (hoja : Hoja) : soloAnexa hoja hoja :=
  ⟨Nat.le_refl _, fun _ _ _ _ h => absurd rfl h⟩

theorem soloAnexa_append (hoja otra : Hoja) : soloAnexa hoja (hoja ++ otra) := by
  refine ⟨by simp, fun i j h1 h2 h => ?_⟩
  exact absurd (celda_append_izq hoja otra i (j + 1) h2 h1) h

theorem registrarEnHoja_casos (env : Entorno) (libro : Libro) (reloj : Reloj)
    (cedula nombre empresa : String) (hE hS : ValorHora) (tipo comentario : String)
    (hoja : Hoja) (hr : libro SHEET_REGISTRO = some hoja) :
    ((registrarEnHoja env libro reloj cedula nombre empresa hE hS tipo comentario).2 = libro ∧
        (registrarEnHoja env libro reloj cedula nombre empresa hE hS tipo comentario).1.filaIndex =
          0) ∨
      ((registrarEnHoja env libro reloj cedula nombre empresa hE hS tipo comentario).2 = libro ∧
        (registrarEnHoja env libro reloj cedula nombre empresa hE hS tipo comentario).1.filaIndex =
          getLastRow hoja ∧ 1 < getLastRow hoja ∧
        esFilaDuplicada (construirFila env reloj cedula nombre empresa hE hS tipo comentario)
          ((getValues hoja (getLastRow hoja) 1 1 (getLastColumn hoja)).headD []) = true) ∨
      ((registrarEnHoja env libro reloj cedula nombre empresa hE hS tipo comentario).2
          SHEET_REGISTRO =
          some (appendRow hoja
            (construirFila env reloj cedula nombre empresa hE hS tipo comentario)) ∧
        (registrarEnHoja env libro reloj cedula nombre empresa hE hS tipo comentario).1.filaIndex =
          getLastRow hoja + 1) := by
  have hne : SHEET_REGISTRO ≠ SHEET_HISTORIAL := by decide
  unfold registrarEnHoja
  by_cases hc : trim cedula = ""
  · rw [if_pos hc]
    exact Or.inl ⟨rfl, rfl⟩
  · rw [if_neg hc, hr]
    cases hh : libro SHEET_HISTORIAL with
    | none => exact Or.inl ⟨rfl, rfl⟩
    | some hojaHistorial =>
      dsimp only
      by_cases h1 : getLastRow hoja > 1
      · rw [if_pos h1]
        cases hd : esFilaDuplicada
            (construirFila env reloj cedula nombre empresa hE hS tipo comentario)
            ((getValues hoja (getLastRow hoja) 1 1 (getLastColumn hoja)).headD []) with
        | true =>
          refine Or.inr (Or.inl ⟨?_, ?_, h1, rfl⟩)
          · simp only [Bool.not_true, Bool.false_eq_true, if_false]
          · simp only [Bool.not_true, Bool.false_eq_true, if_false, hr, Option.getD_some]
        | false =>
          refine Or.inr (Or.inr ⟨?_, ?_⟩)
          · simp only [Bool.not_false, if_true, ponerHoja, if_neg hne]
          · simp only [Bool.not_false, if_true, ponerHoja, if_neg hne, Option.getD_some, getLastRow,
              appendRow, List.length_append, List.length_singleton]
      · rw [if_neg h1]
        refine Or.inr (Or.inr ⟨?_, ?_⟩)
        · simp only [Bool.not_false, if_true, ponerHoja, if_neg hne]
        · simp only [Bool.not_false, if_true, ponerHoja, if_neg hne, Option.getD_some, getLastRow,
            appendRow, List.length_append, List.length_singleton]

theorem registrarEnHoja_anexa (env : Entorno) (libro : Libro) (reloj : Reloj)
    (cedula nombre empresa : String) (hE hS : ValorHora) (tipo comentario : String)
    (hoja : Hoja) (hr : libro SHEET_REGISTRO = some hoja) :
    ∃ despues,
      (registrarEnHoja env libro reloj cedula nombre empresa hE hS tipo comentario).2
        SHEET_REGISTRO = some despues ∧ soloAnexa hoja despues := by
  rcases registrarEnHoja_casos env libro reloj cedula nombre empresa hE hS tipo comentario hoja hr
    with ⟨h, _⟩ | ⟨h, _⟩ | ⟨h, _⟩
  · exact ⟨hoja, by rw [h]; exact hr, soloAnexa_refl hoja⟩
  · exact ⟨hoja, by rw [h]; exact hr, soloAnexa_refl hoja⟩
  · exact ⟨_, h, soloAnexa_append hoja _⟩

theorem commit_anexa (env : Entorno) (libro : Libro) (reloj : Reloj)
    (cedula nombre empresa : String) (hE hS : ValorHora) (tipo comentario : String)
    (hoja : Hoja) (hr : libro SHEET_REGISTRO = some hoja)
    (hst : (construirFila env reloj cedula nombre empresa hE hS tipo comentario).getD
      env.cols.ESTADO_ACCESO "" = ESTADO_TEMPORAL) :
    ∃ despues,
      marcarTemporal env
        (registrarEnHoja env libro reloj cedula nombre empresa hE hS tipo comentario).2
        (registrarEnHoja env libro reloj cedula nombre empresa hE hS tipo comentario).1
        SHEET_REGISTRO = some despues ∧ soloAnexa hoja despues := by
  have htemp : ESTADO_TEMPORAL ≠ "" := by decide
  have hlen := construirFila_length env reloj cedula nombre empresa hE hS tipo comentario
  have hcol := (columnas_dentro env.cols).2.2.2.1
  rcases registrarEnHoja_casos env libro reloj cedula nombre empresa hE hS tipo comentario hoja hr
    with ⟨h1, h2⟩ | ⟨h1, h2, h3, h4⟩ | ⟨h1, h2⟩
  · refine ⟨hoja, ?_, soloAnexa_refl hoja⟩
    unfold marcarTemporal
    rw [if_pos h2, h1]
    exact hr
  · refine ⟨hoja, ?_, soloAnexa_refl hoja⟩
    have hcampo := esFilaDuplicada_campo _ _ h4 env.cols.ESTADO_ACCESO (by omega)
    rw [hst] at hcampo
    have hcel : celda hoja (getLastRow hoja) (env.cols.ESTADO_ACCESO + 1) = ESTADO_TEMPORAL := by
      by_cases hw : env.cols.ESTADO_ACCESO < getLastColumn hoja
      · rw [ultimaFila_dentro hoja _ _ _ hw] at hcampo
        exact hcampo.symm
      · rw [ultimaFila_fuera hoja _ _ _ (by omega)] at hcampo
        exact absurd hcampo (by decide)
    unfold marcarTemporal
    rw [if_neg (by omega), h1, hr]
    dsimp only
    rw [h2, setValue_mismo hoja _ _ _ (by unfold getLastRow at h3 ⊢; omega) hcel htemp]
    simp only [ponerHoja, if_true]
  · refine ⟨appendRow hoja (construirFila env reloj cedula nombre empresa hE hS tipo comentario),
      ?_, soloAnexa_append hoja _⟩
    have hcel : celda (appendRow hoja
          (construirFila env reloj cedula nombre empresa hE hS tipo comentario))
        (getLastRow hoja + 1) (env.cols.ESTADO_ACCESO + 1) = ESTADO_TEMPORAL := by
      show celda _ (hoja.length + 1) _ = _
      rw [celda_appendRow]
      exact hst
    unfold marcarTemporal
    rw [if_neg (by omega), h1]
    dsimp only
    rw [h2, setValue_mismo _ _ _ _ (by simp [getLastRow, appendRow]) hcel htemp]
    simp only [ponerHoja, if_true]

theorem procesarRegistro_anexa (t : String → Option Int) (libro : Libro) (reloj : Reloj)
    (datos : Option DatosVisitante) (hoja : Hoja) (hr : libro SHEET_REGISTRO = some hoja) :
    ∃ despues,
      (procesarRegistroPersonaNoRegistrada { cols := Columnas.porDefecto, tiempoDeFecha := t }
        libro reloj datos).2 SHEET_REGISTRO = some despues ∧
      soloAnexa hoja despues := by
  cases datos with
  | none => exact ⟨hoja, hr, soloAnexa_refl hoja⟩
  | some datos =>
    unfold procesarRegistroPersonaNoRegistrada
    dsimp only
    by_cases hg : (decide (datos.cedula = "") || decide (datos.nombre = "") ||
        decide (datos.tipoAcceso = "")) = true
    · rw [if_pos hg]
      exact ⟨hoja, hr, soloAnexa_refl hoja⟩
    · rw [if_neg hg]
      dsimp only
      have hv := esMarcaTemporal_visitante (datos.nombre ++ " | " ++
        (if datos.empresa = "" then "N/A" else datos.empresa) ++ " | MOTIVO: " ++
        (if datos.motivo = "" then "No especificado" else datos.motivo))
      have hcom : "VISITANTE: " ++ (datos.nombre ++ " | " ++
        (if datos.empresa = "" then "N/A" else datos.empresa) ++ " | MOTIVO: " ++
        (if datos.motivo = "" then "No especificado" else datos.motivo)) =
          "VISITANTE: " ++ datos.nombre ++ " | " ++
          (if datos.empresa = "" then "N/A" else datos.empresa) ++ " | MOTIVO: " ++
          (if datos.motivo = "" then "No especificado" else datos.motivo) := by
        simp only [String.append_assoc]
      rw [hcom] at hv
      by_cases hent : datos.tipoAcceso = "entrada"
      · rw [if_pos hent]
        exact commit_anexa { cols := Columnas.porDefecto, tiempoDeFecha := t } libro reloj
          datos.cedula datos.nombre _ reloj.ahora (.texto "") "entrada" _ hoja hr
          (by rw [construirFila_entrada_comentada_porDefecto t reloj _ _ _ _ hv.1 hv.2]; rfl)
      · rw [if_neg hent]
        exact commit_anexa { cols := Columnas.porDefecto, tiempoDeFecha := t } libro reloj
          datos.cedula datos.nombre _ (.texto "") reloj.ahora "salida" _ hoja hr
          (by rw [construirFila_salida_porDefecto]; rfl)

theorem procesarEntrada_anexa (env : Entorno) (libro : Libro) (reloj : Reloj)
    (persona : Option Usuario) (ea : EntradaActiva) (cedula : String) (hoja : Hoja)
    (hr : libro SHEET_REGISTRO = some hoja) :
    ∃ despues,
      (procesarEntrada env libro reloj persona ea cedula).2 SHEET_REGISTRO = some despues ∧
        soloAnexa hoja despues := by
  unfold procesarEntrada
  dsimp only
  cases persona with
  | none => exact ⟨hoja, hr, soloAnexa_refl hoja⟩
  | some p =>
    dsimp only
    by_cases hf : ea.found = true
    · rw [if_pos hf]
      exact ⟨hoja, hr, soloAnexa_refl hoja⟩
    · rw [if_neg hf]
      exact registrarEnHoja_anexa env libro reloj cedula p.nombre p.empresa reloj.ahora
        (.texto "") "entrada" "" hoja hr

theorem procesarSalida_anexa (libro : Libro) (reloj : Reloj) (persona : Option Usuario)
    (cedula : String) (hoja : Hoja) (hr : libro SHEET_REGISTRO = some hoja) :
    ∃ despues,
      (procesarSalida libro reloj persona
        (verificarEntradaActiva Columnas.porDefecto libro reloj cedula) cedula).2 SHEET_REGISTRO =
        some despues ∧ soloAnexa hoja despues := by
  by_cases hf : (verificarEntradaActiva Columnas.porDefecto libro reloj cedula).found = true
  · obtain ⟨d, h1, h2, _, _, h5, _⟩ := procesarSalida_en_sitio libro hoja reloj persona cedula hr hf
    have hab := ((verificarEntradaActiva_caracteriza Columnas.porDefecto libro reloj cedula hoja
      hr).2 hf).2.1
    refine ⟨d, h1, by omega, fun i j hi1 _ hne => ?_⟩
    by_cases hc : i = (verificarEntradaActiva Columnas.porDefecto libro reloj cedula).fila ∧
        (j = Columnas.porDefecto.SALIDA ∨ j = Columnas.porDefecto.DURACION)
    · refine ⟨hc.2, ?_⟩
      rw [hc.1]
      exact hab.2.2.2.2
    · exact absurd (h5 i j hi1 hc) hne
  · refine ⟨hoja, ?_, soloAnexa_refl hoja⟩
    unfold procesarSalida
    dsimp only
    rw [if_neg hf]
    cases persona <;> exact hr

theorem abierta_salida_vacia (cols : Columnas) (hoja : Hoja) (c : String) (k : Nat)
    (h : esAbiertaDe cols hoja c k) : campo hoja k cols.SALIDA = "" := by
  have h2 : 2 ≤ k := h.1
  have hlen : k ≤ hoja.length := h.2.1
  have hv : verdadero (filaLeida hoja k)[cols.SALIDA]? = false := h.2.2.2.2
  unfold filaLeida at hv
  have hc := getDataRangeValues_celda hoja (k - 1) cols.SALIDA (by omega)
  have e : k - 1 + 1 = k := by omega
  rw [e, List.getD_eq_getElem?_getD] at hc
  unfold campo
  rw [← hc]
  cases hx : ((getDataRangeValues hoja).getD (k - 1) [])[cols.SALIDA]? with
  | none => rfl
  | some s =>
    rw [hx] at hv
    simp only [verdadero, ne_eq, decide_not, Bool.not_eq_false', decide_eq_true_eq] at hv
    simp [hv]

/-! ### Evacuating the snapshot -/

theorem campo_dentro_de_columnas (hoja : Hoja) (k pos : Nat) (h : campo hoja k pos ≠ "") :
    pos < getLastColumn hoja := by
  by_contra hno
  exact h (celda_fuera_de_columnas hoja k pos (by omega))

theorem filaLeida_get (hoja : Hoja) (k pos : Nat) (h1 : 1 ≤ k) (h2 : k ≤ hoja.length) :
    (filaLeida hoja k)[pos]? =
      if pos < max 1 (getLastColumn hoja) then some (campo hoja k pos) else none := by
  unfold filaLeida getDataRangeValues
  have hi : k - 1 < max 1 (getLastRow hoja) := by
    have e : getLastRow hoja = hoja.length := rfl
    omega
  have e : 1 + (k - 1) = k := by omega
  by_cases hp : pos < max 1 (getLastColumn hoja)
  · rw [if_pos hp, getValues_celda hoja 1 _ _ (k - 1) pos hi hp, e]
  · rw [if_neg hp, getValues_fuera hoja 1 _ _ (k - 1) pos hi (by omega)]

theorem verdadero_filaLeida (hoja : Hoja) (k pos : Nat) (h1 : 1 ≤ k) (h2 : k ≤ hoja.length) :
    verdadero (filaLeida hoja k)[pos]? = decide (campo hoja k pos ≠ "") := by
  rw [filaLeida_get hoja k pos h1 h2]
  by_cases hp : pos < max 1 (getLastColumn hoja)
  · rw [if_pos hp]; rfl
  · rw [if_neg hp]
    have e : campo hoja k pos = "" := celda_fuera_de_columnas hoja k pos (by omega)
    rw [e]
    rfl

theorem textoDe_filaLeida (hoja : Hoja) (k pos : Nat) (h1 : 1 ≤ k) (h2 : k ≤ hoja.length)
    (hw : pos < getLastColumn hoja) :
    textoDe (filaLeida hoja k)[pos]? = campo hoja k pos := by
  rw [filaLeida_get hoja k pos h1 h2, if_pos (by omega)]
  rfl

theorem esAbiertaDe_campos (cols : Columnas) (hoja : Hoja) (c : String) (k : Nat)
    (hw : cols.CEDULA < getLastColumn hoja) :
    esAbiertaDe cols hoja c k ↔
      2 ≤ k ∧ k ≤ hoja.length ∧ trim (campo hoja k cols.CEDULA) = c ∧
        campo hoja k cols.ENTRADA ≠ "" ∧ campo hoja k cols.SALIDA = "" := by
  unfold esAbiertaDe
  constructor
  · rintro ⟨h1, h2, h3, h4, h5⟩
    rw [textoDe_filaLeida hoja k _ (by omega) h2 hw] at h3
    rw [verdadero_filaLeida hoja k _ (by omega) h2] at h4 h5
    refine ⟨h1, h2, h3, by simpa using h4, by simpa using h5⟩
  · rintro ⟨h1, h2, h3, h4, h5⟩
    rw [textoDe_filaLeida hoja k _ (by omega) h2 hw,
      verdadero_filaLeida hoja k _ (by omega) h2, verdadero_filaLeida hoja k _ (by omega) h2]
    exact ⟨h1, h2, h3, by simpa using h4, by simpa using h5⟩

theorem lleva_ne (hoja : Hoja) (k pos : Nat) (h : lleva hoja k pos) : campo hoja k pos ≠ "" := by
  intro e
  apply h.1
  rw [e]
  exact trim_vacio

theorem formatearHora_es_hora (r : Reloj) (hr : r.hora.valida) :
    trim (formatearHora r.ahora) ≠ "" ∧ formatearHora r.ahora ≠ "Invalid Date" := by
  have hf1 : formatearHora r.ahora = r.hora.texto := formatearHora_reloj r hr.1 hr.2.1 hr.2.2
  have e : trim r.hora.texto = r.hora.texto := trim_horaDelDia _ _ _ hr
  refine ⟨?_, formatearHora_fecha_ne _ _ _ _ (by decide)⟩
  rw [hf1, e, ← hf1]
  exact formatearHora_fecha_ne _ _ _ "" (by simp)

theorem dentro_es_ultima_abierta (hoja : Hoja) (c : String) (k : Nat) (hreg : horasRegulares hoja)
    (hc : c ≠ "") (hu : esUltimaMarca hoja c k) (h4 : lleva hoja k 4) (h5 : ¬ lleva hoja k 5) :
    esUltimaAbiertaDe Columnas.porDefecto hoja c k := by
  obtain ⟨hk2, hklen, hid, _, hult⟩ := hu
  have hlr : getLastRow hoja = hoja.length := rfl
  have hced : campo hoja k 1 ≠ "" := by
    intro e
    rw [e, trim_vacio] at hid
    exact hc hid.symm
  have hw : Columnas.porDefecto.CEDULA < getLastColumn hoja :=
    campo_dentro_de_columnas hoja k 1 hced
  constructor
  · rw [esAbiertaDe_campos Columnas.porDefecto hoja c k hw]
    exact ⟨hk2, by omega, hid, lleva_ne hoja k 4 h4, ((hreg k hklen hk2).2).resolve_right h5⟩
  · intro q hq1 hq2 hab
    rw [esAbiertaDe_campos Columnas.porDefecto hoja c q hw] at hab
    obtain ⟨hq3, _, hq5, hq6, _⟩ := hab
    have hll := ((hreg q (by omega) hq3).1).resolve_left hq6
    exact hult q (by omega) hq2 hq5 (Or.inl hll)

theorem evacuada_vacia (libro : Libro) (despues hoja : Hoja) (roster : List String) (hora : String)
    (hlibro : libro "Registro" = some despues) (hlen : despues.length = hoja.length)
    (hcells : ∀ f pos, 1 ≤ f →
      campo despues f pos =
        if cierraMasivo Columnas.porDefecto hoja roster f then
          (if pos = Columnas.porDefecto.SALIDA then hora
           else if pos = Columnas.porDefecto.DURACION then
            calcularDuracionSimple (.texto (campo hoja f Columnas.porDefecto.ENTRADA)) (.texto hora)
           else campo hoja f pos)
        else campo hoja f pos)
    (hhora : trim hora ≠ "" ∧ hora ≠ "Invalid Date") (hreg : horasRegulares hoja)
    (hroster : ∀ c, c ≠ "" → c ≠ "__proto__" → estaDentro hoja c → c ∈ roster) :
    (getEvacuacionDataForClient libro).personasDentro = [] := by
  have hlr : getLastRow despues = getLastRow hoja := hlen
  have h5e : Columnas.porDefecto.SALIDA = 5 := rfl
  have h6e : Columnas.porDefecto.DURACION = 6 := rfl
  have hotro : ∀ f pos, 1 ≤ f → pos ≠ 5 → pos ≠ 6 → campo despues f pos = campo hoja f pos := by
    intro f pos hf hp5 hp6
    rw [hcells f pos hf]
    split
    · rw [if_neg (by rw [h5e]; exact hp5), if_neg (by rw [h6e]; exact hp6)]
    · rfl
  have hsal : ∀ f, 1 ≤ f → cierraMasivo Columnas.porDefecto hoja roster f →
      lleva despues f 5 := by
    intro f hf hcm
    unfold lleva
    rw [hcells f 5 hf, if_pos hcm, if_pos h5e.symm]
    exact hhora
  have hno : ∀ f pos, 1 ≤ f → ¬ cierraMasivo Columnas.porDefecto hoja roster f →
      campo despues f pos = campo hoja f pos := by
    intro f pos hf hcm
    rw [hcells f pos hf, if_neg hcm]
  rw [List.eq_nil_iff_forall_not_mem]
  intro q hq
  obtain ⟨hc, hpr, k, hk, ⟨hk2, hklen, hid, _, hult⟩, h4, h5, _⟩ :=
    (personasDentro_mem libro despues hlibro q).1 hq
  have hcm : ¬ cierraMasivo Columnas.porDefecto hoja roster k :=
    fun h => h5 (hsal k (by omega) h)
  have h4' : lleva hoja k 4 := by
    unfold lleva at h4 ⊢
    rw [hotro k 4 (by omega) (by decide) (by decide)] at h4
    exact h4
  have h5' : ¬ lleva hoja k 5 := by
    unfold lleva at h5 ⊢
    rw [hno k 5 (by omega) hcm] at h5
    exact h5
  have hid' : trim (campo hoja k 1) = q.cedula := by
    rw [← hotro k 1 (by omega) (by decide) (by decide)]
    exact hid
  have hu' : esUltimaMarca hoja q.cedula k := by
    refine ⟨hk2, by omega, hid', Or.inl h4', ?_⟩
    intro r hr1 hr2 hr3 hr4
    have hr3' : trim (campo despues r 1) = q.cedula := by
      rw [hotro r 1 (by omega) (by decide) (by decide)]
      exact hr3
    apply hult r (by omega) hr2 hr3'
    rcases hr4 with h | h
    · left
      unfold lleva at h ⊢
      rw [hotro r 4 (by omega) (by decide) (by decide)]
      exact h
    · right
      by_cases hcr : cierraMasivo Columnas.porDefecto hoja roster r
      · exact hsal r (by omega) hcr
      · unfold lleva at h ⊢
        rw [hno r 5 (by omega) hcr]
        exact h
  have hmem := hroster q.cedula hc hpr ⟨k, by omega, hu', h4', h5'⟩
  exact hcm ⟨q.cedula, hmem, dentro_es_ultima_abierta hoja q.cedula k hreg hc hu' h4' h5'⟩

theorem registrarSalidasMasivas_real_partes (env : Entorno) (estado : Estado) (reloj : Reloj)
    (cedulas : List String) (hoja : Hoja) (hreg : estado.libro SHEET_REGISTRO = some hoja)
    (hne : cedulas ≠ []) :
    (registrarSalidasMasivas env estado reloj cedulas "REAL").1.procesados =
        (cedulas.foldl (pasoSalidaReal env.cols (getDataRangeValues hoja)
          (formatearHora reloj.ahora)) { hoja := hoja, procesados := 0, errores := [] }).procesados ∧
      (registrarSalidasMasivas env estado reloj cedulas "REAL").1.errores =
        (cedulas.foldl (pasoSalidaReal env.cols (getDataRangeValues hoja)
          (formatearHora reloj.ahora)) { hoja := hoja, procesados := 0, errores := [] }).errores ∧
      (registrarSalidasMasivas env estado reloj cedulas "REAL").2.libro =
        ponerHoja estado.libro SHEET_REGISTRO
          (cedulas.foldl (pasoSalidaReal env.cols (getDataRangeValues hoja)
            (formatearHora reloj.ahora)) { hoja := hoja, procesados := 0, errores := [] }).hoja := by
  have hmay : toUpperCase "REAL" = "REAL" := by decide
  have hvac : cedulas.isEmpty = false := by
    cases cedulas with
    | nil => exact absurd rfl hne
    | cons _ _ => rfl
  simp only [registrarSalidasMasivas, hvac, hmay, hreg, Bool.false_eq_true, if_false, if_true]
  exact ⟨trivial, trivial, trivial⟩

/-- C28. Evacuating the snapshot empties it, in the default column layout:
for a ledger whose check-in and check-out cells are each either empty or a time
(not blank, not `Invalid Date`) and a valid clock reading, when the roster is
the list of identifiers of the presence snapshot,
`registrarSalidasMasivas(roster, 'REAL')` reports no error, `procesados` is the
length of the roster, and the presence snapshot of the resulting ledger is
empty. -/
theorem evacuar_instantanea_vacia (t : String → Option Int) (estado : Estado) (reloj : Reloj)
    (hoja : Hoja) (hr : estado.libro SHEET_REGISTRO = some hoja) (hreg : horasRegulares hoja)
    (hclock : reloj.hora.valida) :
    (registrarSalidasMasivas { cols := Columnas.porDefecto, tiempoDeFecha := t } estado reloj
        ((getEvacuacionDataForClient estado.libro).personasDentro.map (fun p => p.cedula))
        "REAL").1.errores = [] ∧
      (registrarSalidasMasivas { cols := Columnas.porDefecto, tiempoDeFecha := t } estado reloj
        ((getEvacuacionDataForClient estado.libro).personasDentro.map (fun p => p.cedula))
        "REAL").1.procesados =
        ((getEvacuacionDataForClient estado.libro).personasDentro.map (fun p => p.cedula)).length ∧
      (getEvacuacionDataForClient
        (registrarSalidasMasivas { cols := Columnas.porDefecto, tiempoDeFecha := t } estado reloj
          ((getEvacuacionDataForClient estado.libro).personasDentro.map (fun p => p.cedula))
          "REAL").2.libro).personasDentro = [] ∧
      (getEvacuacionDataForClient
        (registrarSalidasMasivas { cols := Columnas.porDefecto, tiempoDeFecha := t } estado reloj
          ((getEvacuacionDataForClient estado.libro).personasDentro.map (fun p => p.cedula))
          "REAL").2.libro).totalDentro = 0 := by
  have hr' : estado.libro "Registro" = some hoja := hr
  have hvacia : ∀ libro, (getEvacuacionDataForClient libro).personasDentro = [] →
      (getEvacuacionDataForClient libro).totalDentro = 0 := by
    intro libro h
    rw [totalDentro_eq, h]
    rfl
  by_cases hne : (getEvacuacionDataForClient estado.libro).personasDentro.map (fun p => p.cedula) = []
  · rw [hne]
    have hP : (getEvacuacionDataForClient estado.libro).personasDentro = [] :=
      List.map_eq_nil_iff.1 hne
    exact ⟨rfl, rfl, hP, hvacia _ hP⟩
  · obtain ⟨hp, he, hl⟩ := registrarSalidasMasivas_real_partes
      { cols := Columnas.porDefecto, tiempoDeFecha := t } estado reloj _ hoja hr hne
    obtain ⟨hcp, hce⟩ := foldl_pasoSalidaReal_cuenta Columnas.porDefecto (getDataRangeValues hoja)
      (formatearHora reloj.ahora)
      ((getEvacuacionDataForClient estado.libro).personasDentro.map (fun p => p.cedula))
      { hoja := hoja, procesados := 0, errores := [] }
    obtain ⟨hlen, hcells⟩ := foldl_pasoSalidaReal_efecto Columnas.porDefecto hoja
      (formatearHora reloj.ahora) (by decide)
      ((getEvacuacionDataForClient estado.libro).personasDentro.map (fun p => p.cedula))
    have htodos : ∀ c ∈ (getEvacuacionDataForClient estado.libro).personasDentro.map
        (fun p => p.cedula),
        (buscarHaciaAtras (esAbiertaPara Columnas.porDefecto (getDataRangeValues hoja) c)
          (getDataRangeValues hoja).length).isSome = true := by
      intro c hc
      obtain ⟨p, hp1, rfl⟩ := List.mem_map.1 hc
      obtain ⟨hc1, _, k, hk, hu, h4, h5, _⟩ := (personasDentro_mem estado.libro hoja hr' p).1 hp1
      have hua := dentro_es_ultima_abierta hoja p.cedula k hreg hc1 hu h4 h5
      rw [buscar_abierta_isSome]
      exact ⟨k, hua.1.2.1, hua.1⟩
    have hf1 : ((getEvacuacionDataForClient estado.libro).personasDentro.map
        (fun p => p.cedula)).filter (fun c =>
          (buscarHaciaAtras (esAbiertaPara Columnas.porDefecto (getDataRangeValues hoja) c)
            (getDataRangeValues hoja).length).isSome) =
        (getEvacuacionDataForClient estado.libro).personasDentro.map (fun p => p.cedula) :=
      List.filter_eq_self.2 htodos
    have hf2 : ((getEvacuacionDataForClient estado.libro).personasDentro.map
        (fun p => p.cedula)).filter (fun c =>
          !(buscarHaciaAtras (esAbiertaPara Columnas.porDefecto (getDataRangeValues hoja) c)
            (getDataRangeValues hoja).length).isSome) = [] := by
      rw [List.filter_eq_nil_iff]
      intro c hc
      rw [htodos c hc]
      decide
    have hvac : (getEvacuacionDataForClient
        (registrarSalidasMasivas { cols := Columnas.porDefecto, tiempoDeFecha := t } estado reloj
          ((getEvacuacionDataForClient estado.libro).personasDentro.map (fun p => p.cedula))
          "REAL").2.libro).personasDentro = [] := by
      rw [hl]
      refine evacuada_vacia _ _ hoja _ (formatearHora reloj.ahora) ?_ hlen hcells
        (formatearHora_es_hora reloj hclock) hreg ?_
      · simp only [ponerHoja]
        rfl
      · intro c hc hpr hd
        obtain ⟨p, hp1, hp2⟩ := (personasDentro_estaDentro estado.libro hoja hr' c hc hpr).2 hd
        exact List.mem_map.2 ⟨p, hp1, hp2⟩
    refine ⟨?_, ?_, hvac, hvacia _ hvac⟩
    · rw [he]
      dsimp only
      rw [hce, hf2]
      rfl
    · rw [hp]
      dsimp only
      rw [hcp, hf1]
      dsimp only
      omega

/-- In the example ledger the snapshot lists `77`; the bulk close-out of that
roster at 09:30:00 leaves a ledger whose snapshot is empty. -/
theorem evacuar_instantanea_vacia_witness :
    ejemploEstado.libro SHEET_REGISTRO = some ejemploHoja ∧ horasRegulares ejemploHoja ∧
      ejemploReloj.hora.valida ∧
      (getEvacuacionDataForClient ejemploEstado.libro).personasDentro.map (fun p => p.cedula) =
        ["77"] ∧
      (getEvacuacionDataForClient
        (registrarSalidasMasivas ejemploEntorno ejemploEstado ejemploReloj
          ((getEvacuacionDataForClient ejemploEstado.libro).personasDentro.map (fun p => p.cedula))
          "REAL").2.libro).personasDentro = [] :=
  ⟨rfl, by decide, by decide, by decide,
    (evacuar_instantanea_vacia (fun _ => none) ejemploEstado ejemploReloj ejemploHoja rfl
      (by decide) (by decide)).2.2.1⟩

/-! ### Statistics and snapshot -/

theorem Objeto.claves_borrar {α : Type} (o : Objeto α) (k : String) :
    (o.borrar k).claves = o.claves.filter (fun x => x ≠ k) := by
  unfold Objeto.borrar Objeto.claves
  rw [List.filter_map]
  rfl

theorem claves_pasoEvacuacion (o : Objeto PersonaDentro) (fila : List String) :
    (pasoEvacuacion o fila).claves =
      pasoClaves o.claves (cedulaDeFila fila) (tieneValor fila[4]?) (tieneValor fila[5]?) := by
  unfold pasoEvacuacion pasoClaves
  dsimp only
  by_cases hc : cedulaDeFila fila = ""
  · rw [if_pos hc, if_pos hc]
  · rw [if_neg hc, if_neg hc]
    by_cases h1 : (tieneValor fila[4]? && !tieneValor fila[5]?) = true
    · rw [if_pos h1, if_pos h1, Objeto.claves_poner]
    · rw [if_neg h1, if_neg h1]
      by_cases h2 : tieneValor fila[5]? = true
      · rw [if_pos h2, if_pos h2, Objeto.claves_borrar]
      · rw [if_neg h2, if_neg h2]

theorem claves_pasoEstadisticas (cols : Columnas) (o : Objeto String) (fila : List String) :
    (pasoEstadisticas cols o fila).claves =
      pasoClaves o.claves (trim (oSiNo fila[cols.CEDULA]? "")) (verdadero fila[cols.ENTRADA]?)
        (verdadero fila[cols.SALIDA]?) := by
  unfold pasoEstadisticas pasoClaves
  dsimp only
  by_cases hc : trim (oSiNo fila[cols.CEDULA]? "") = ""
  · rw [if_pos hc, if_pos hc]
  · rw [if_neg hc, if_neg hc]
    cases hE : verdadero fila[cols.ENTRADA]? <;> cases hS : verdadero fila[cols.SALIDA]? <;>
      simp [Objeto.claves_poner, Objeto.claves_borrar]

theorem filaEstadisticas_get (hoja : Hoja) (i pos : Nat) (hp : pos < 9) :
    (filaEstadisticas hoja i)[pos]? = some (campo hoja (i + 2) pos) := by
  unfold filaEstadisticas campo
  simp [List.getElem?_map, List.getElem?_range, hp, Nat.add_comm]

theorem pasos_coinciden (hoja : Hoja) (i : Nat) (claves : List String)
    (h4 : campo hoja (i + 2) 4 = "" ∨ lleva hoja (i + 2) 4)
    (h5 : campo hoja (i + 2) 5 = "" ∨ lleva hoja (i + 2) 5) :
    pasoClaves claves (trim (oSiNo (filaEstadisticas hoja i)[Columnas.porDefecto.CEDULA]? ""))
        (verdadero (filaEstadisticas hoja i)[Columnas.porDefecto.ENTRADA]?)
        (verdadero (filaEstadisticas hoja i)[Columnas.porDefecto.SALIDA]?) =
      pasoClaves claves (cedulaDeFila (filaEvacuacion hoja i))
        (tieneValor (filaEvacuacion hoja i)[4]?) (tieneValor (filaEvacuacion hoja i)[5]?) := by
  have e1 : Columnas.porDefecto.CEDULA = 1 := rfl
  have e4 : Columnas.porDefecto.ENTRADA = 4 := rfl
  have e5 : Columnas.porDefecto.SALIDA = 5 := rfl
  rw [e1, e4, e5, filaEstadisticas_get hoja i 1 (by omega), filaEstadisticas_get hoja i 4 (by omega),
    filaEstadisticas_get hoja i 5 (by omega), oSiNo_vacio, cedulaDeFila_filaEvacuacion]
  have hv : ∀ pos, (campo hoja (i + 2) pos = "" ∨ lleva hoja (i + 2) pos) →
      verdadero (some (campo hoja (i + 2) pos)) = tieneValor (filaEvacuacion hoja i)[pos]? := by
    intro pos h
    rcases h with h | h
    · have hno : ¬ lleva hoja (i + 2) pos := fun hl => lleva_ne hoja _ pos hl h
      have : tieneValor (filaEvacuacion hoja i)[pos]? = false := by
        rw [← Bool.not_eq_true, tieneValor_filaEvacuacion]
        exact hno
      rw [this, h]
      rfl
    · rw [(tieneValor_filaEvacuacion hoja i pos).2 h]
      have := lleva_ne hoja _ pos h
      simp [verdadero, this]
  rw [hv 4 h4, hv 5 h5]

theorem foldl_claves_coinciden (hoja : Hoja) (n : Nat)
    (hreg : ∀ i, i < n →
      (campo hoja (i + 2) 4 = "" ∨ lleva hoja (i + 2) 4) ∧
        (campo hoja (i + 2) 5 = "" ∨ lleva hoja (i + 2) 5)) :
    (((List.range n).map (filaEstadisticas hoja)).foldl (pasoEstadisticas Columnas.porDefecto)
        []).claves =
      (((List.range n).map (filaEvacuacion hoja)).foldl pasoEvacuacion []).claves := by
  induction n with
  | zero => rfl
  | succ n ih =>
    rw [List.range_succ, List.map_append, List.map_append, List.foldl_append, List.foldl_append]
    simp only [List.map_cons, List.map_nil, List.foldl_cons, List.foldl_nil]
    rw [claves_pasoEstadisticas, claves_pasoEvacuacion, ih (fun i hi => hreg i (by omega)),
      pasos_coinciden hoja n _ (hreg n (by omega)).1 (hreg n (by omega)).2]

/-- C30. The windowed statistics view agrees with the full snapshot on small
ledgers, in the default column layout: for a ledger with at most 300 data rows
whose check-in and check-out cells are each either empty or a time (not blank,
not `Invalid Date`), the count `personasDentro` of `obtenerEstadisticas` equals
`totalDentro` of `getEvacuacionDataForClient`. -/
theorem estadisticas_coinciden_con_instantanea (t : String → Option Int) (libro : Libro)
    (hoja : Hoja) (hr : libro SHEET_REGISTRO = some hoja) (hn : getLastRow hoja - 1 ≤ 300)
    (hreg : horasRegulares hoja) :
    obtenerEstadisticasPersonasDentro { cols := Columnas.porDefecto, tiempoDeFecha := t } libro =
      (getEvacuacionDataForClient libro).totalDentro := by
  have hr' : libro "Registro" = some hoja := hr
  have hlr : getLastRow hoja = hoja.length := rfl
  rw [totalDentro_eq, personasDentro_eq libro hoja hr']
  unfold obtenerEstadisticasPersonasDentro
  rw [hr]
  dsimp only
  by_cases h1 : getLastRow hoja ≤ 1
  · rw [if_pos h1, if_pos h1]
    rfl
  · rw [if_neg h1, if_neg h1]
    have hmax : min (getLastRow hoja - 1) 300 = getLastRow hoja - 1 := by omega
    have hstart : max 2 (getLastRow hoja - (getLastRow hoja - 1) + 1) = 2 := by omega
    have hcols : [Columnas.porDefecto.CEDULA, Columnas.porDefecto.NOMBRE,
        Columnas.porDefecto.EMPRESA, Columnas.porDefecto.ENTRADA, Columnas.porDefecto.SALIDA,
        Columnas.porDefecto.ESTADO_ACCESO, Columnas.porDefecto.COMENTARIO].foldr max 0 + 1 = 9 := by
      decide
    rw [hmax, hstart, hcols]
    have hdatos : getValues hoja 2 1 (getLastRow hoja - 1) 9 =
        (List.range (getLastRow hoja - 1)).map (filaEstadisticas hoja) := rfl
    rw [hdatos, datosEvacuacion, Objeto.enOrden_length, List.length_map, Objeto.enOrden_length]
    have hclaves := foldl_claves_coinciden hoja (getLastRow hoja - 1)
      (fun i hi => hreg (i + 2) (by omega) (by omega))
    have hlen := congrArg List.length hclaves
    unfold Objeto.claves at hlen
    rw [List.length_map, List.length_map] at hlen
    exact hlen

/-- In the example ledger both views count one person inside. -/
theorem estadisticas_coinciden_con_instantanea_witness :
    ejemploLibro SHEET_REGISTRO = some ejemploHoja ∧ getLastRow ejemploHoja - 1 ≤ 300 ∧
      horasRegulares ejemploHoja ∧
      obtenerEstadisticasPersonasDentro ejemploEntorno ejemploLibro =
        (getEvacuacionDataForClient ejemploLibro).totalDentro ∧
      (getEvacuacionDataForClient ejemploLibro).totalDentro = 1 :=
  ⟨rfl, by decide, by decide,
    estadisticas_coinciden_con_instantanea (fun _ => none) ejemploLibro ejemploHoja rfl
      (by decide) (by decide),
    by decide⟩

/-! ### Structure of the spreadsheet -/

theorem escribirEncabezados_drop (hoja : Hoja) (encabezados : List String) :
    (escribirEncabezados hoja encabezados).drop 1 = hoja.drop 1 := by
  unfold escribirEncabezados ponerEn
  cases hoja with
  | nil => rfl
  | cons a t => simp

theorem escribirEncabezados_length (hoja : Hoja) (encabezados : List String) :
    hoja.length ≤ (escribirEncabezados hoja encabezados).length := by
  unfold escribirEncabezados ponerEn
  simp

theorem conservaDatos_refl (libro : Libro) : conservaDatos libro libro :=
  fun _ => ⟨rfl, fun hoja h => ⟨hoja, h, Nat.le_refl _⟩⟩

theorem conservaDatos_trans (a b c : Libro) (h1 : conservaDatos a b) (h2 : conservaDatos b c) :
    conservaDatos a c := by
  intro nombre
  refine ⟨(h2 nombre).1.trans (h1 nombre).1, fun hoja h => ?_⟩
  obtain ⟨hoja1, hb, hl1⟩ := (h1 nombre).2 hoja h
  obtain ⟨hoja2, hc, hl2⟩ := (h2 nombre).2 hoja1 hb
  exact ⟨hoja2, hc, Nat.le_trans hl1 hl2⟩

theorem conservaDatos_ponerHoja (libro : Libro) (nombre : String) (nueva : Hoja)
    (hd : nueva.drop 1 = ((libro nombre).getD []).drop 1)
    (hl : ∀ hoja, libro nombre = some hoja → hoja.length ≤ nueva.length) :
    conservaDatos libro (ponerHoja libro nombre nueva) := by
  intro n
  unfold filasDeDatos ponerHoja
  by_cases hn : n = nombre
  · subst hn
    rw [if_pos rfl]
    exact ⟨hd, fun hoja h => ⟨nueva, rfl, hl hoja h⟩⟩
  · rw [if_neg hn]
    exact ⟨rfl, fun hoja h => ⟨hoja, h, Nat.le_refl _⟩⟩

theorem verificarHoja_conserva (libro : Libro) (nombre : String) :
    conservaDatos libro (verificarHoja libro nombre) := by
  unfold verificarHoja
  dsimp only
  cases h : libro nombre with
  | none =>
    dsimp only
    split
    · apply conservaDatos_ponerHoja
      · rw [h, escribirEncabezados_drop]; rfl
      · intro hoja hh; rw [h] at hh; cases hh
    · apply conservaDatos_ponerHoja
      · rw [h]; rfl
      · intro hoja hh; rw [h] at hh; cases hh
  | some sheet =>
    dsimp only
    have hp : conservaDatos libro
        (ponerHoja libro nombre (escribirEncabezados sheet (getEncabezadosPredefinidos nombre))) := by
      apply conservaDatos_ponerHoja
      · rw [h, escribirEncabezados_drop]; rfl
      · intro hoja hh
        rw [h] at hh
        cases hh
        exact escribirEncabezados_length _ _
    split
    · exact hp
    · split
      · split
        · exact hp
        · exact conservaDatos_refl libro
      · exact conservaDatos_refl libro

theorem foldl_verificarHoja_conserva (nombres : List String) (libro : Libro) :
    conservaDatos libro (nombres.foldl verificarHoja libro) := by
  induction nombres generalizing libro with
  | nil => exact conservaDatos_refl libro
  | cons n ns ih =>
    exact conservaDatos_trans _ _ _ (verificarHoja_conserva libro n) (ih _)

theorem tienePersonal_conserva (a b : Libro) (h : conservaDatos a b) (ha : tienePersonal a) :
    tienePersonal b := by
  unfold tienePersonal at *
  rw [(h SHEET_BD).1]
  exact ha

theorem verificarYCrearEstructuraHojas_con_personal (crear : Libro → Libro) (libro : Libro)
    (h : tienePersonal libro) :
    verificarYCrearEstructuraHojas crear libro = estructuraHojas.foldl verificarHoja libro := by
  have hc := foldl_verificarHoja_conserva estructuraHojas libro
  have hp := tienePersonal_conserva _ _ hc h
  unfold verificarYCrearEstructuraHojas
  dsimp only
  cases hbd : estructuraHojas.foldl verificarHoja libro SHEET_BD with
  | none => rfl
  | some hojaBD =>
    dsimp only
    have : ¬ getLastRow hojaBD ≤ 1 := by
      intro hle
      apply hp
      unfold filasDeDatos
      rw [hbd]
      simp only [Option.getD_some]
      apply List.drop_eq_nil_of_le
      exact hle
    rw [if_neg this]

theorem verificarYCrearEstructuraHojas_conserva (crear : Libro → Libro) (libro : Libro)
    (h : tienePersonal libro) :
    conservaDatos libro (verificarYCrearEstructuraHojas crear libro) := by
  rw [verificarYCrearEstructuraHojas_con_personal crear libro h]
  exact foldl_verificarHoja_conserva _ _

theorem inicializarCacheUsuarios_conserva (estado : Estado) (h : tienePersonal estado.libro) :
    conservaDatos estado.libro (inicializarCacheUsuarios estado).libro := by
  unfold inicializarCacheUsuarios
  split
  · exact conservaDatos_refl _
  · dsimp only
    split <;> exact verificarYCrearEstructuraHojas_conserva _ _ h

theorem inicializarCacheUsuarios_crear (estado : Estado) :
    (inicializarCacheUsuarios estado).crearDatosPrueba = estado.crearDatosPrueba := by
  unfold inicializarCacheUsuarios
  split
  · rfl
  · dsimp only
    split <;> rfl

theorem buscarUsuario_conserva (estado : Estado) (c : String) (h : tienePersonal estado.libro) :
    conservaDatos estado.libro (buscarUsuario estado c).2.libro := by
  unfold buscarUsuario
  split
  · exact conservaDatos_refl _
  · dsimp only
    cases buscarEnCache estado.cacheUsuarios (trim c) with
    | some u => exact conservaDatos_refl _
    | none => exact inicializarCacheUsuarios_conserva estado h
theorem encabezados_predefinidos_llenos :
    ∀ nombre ∈ estructuraHojas, 0 < (getEncabezadosPredefinidos nombre).length ∧
      (getEncabezadosPredefinidos nombre).getD ((getEncabezadosPredefinidos nombre).length - 1) ""
        ≠ "" := by
  decide

theorem getValues_una_fila (sheet : Hoja) (f c m : Nat) :
    (getValues sheet f c 1 m).headD [] = (List.range m).map (fun j => celda sheet f (c + j)) := by
  rfl

theorem encabezado_leido (sheet : Hoja) (esperados : List String)
    (h : (sheet.headD []).take esperados.length = esperados) (i : Nat) (hi : i < esperados.length) :
    ((getValues sheet 1 1 1 esperados.length).headD [])[i]? = esperados[i]? := by
  have hrow : sheet.headD [] = sheet.getD 0 [] := by cases sheet <;> rfl
  have e1 : ((getValues sheet 1 1 1 esperados.length).headD [])[i]? =
      some ((sheet.getD 0 []).getD i "") := by
    rw [getValues_una_fila, List.getElem?_map, List.getElem?_range hi]
    simp [celda]
  rw [e1, ← hrow]
  have e2 : esperados[i]? = (sheet.headD [])[i]? := by
    conv_lhs => rw [← h]
    rw [List.getElem?_take]
    simp [hi]
  rw [e2]
  have hlt : i < (sheet.headD []).length := by
    have := congrArg List.length h
    rw [List.length_take] at this
    omega
  rw [List.getD_eq_getElem _ _ hlt, List.getElem?_eq_getElem hlt]

theorem verificarHoja_enOrden (libro : Libro) (nombre : String) (hn : nombre ∈ estructuraHojas)
    (h : hojaEnOrden libro nombre = true) : verificarHoja libro nombre = libro := by
  unfold hojaEnOrden at h
  cases hs : libro nombre with
  | none => rw [hs] at h; cases h
  | some sheet =>
    rw [hs] at h
    simp only [decide_eq_true_eq] at h
    obtain ⟨hlen, hult⟩ := encabezados_predefinidos_llenos nombre hn
    have hrow : sheet.headD [] = sheet.getD 0 [] := by cases sheet <;> rfl
    have hcol : (getEncabezadosPredefinidos nombre).length ≤ getLastColumn sheet := by
      by_contra hlt
      have hv := celda_fuera_de_columnas sheet 1 ((getEncabezadosPredefinidos nombre).length - 1)
        (by omega)
      apply hult
      have hget := encabezado_leido sheet _ h ((getEncabezadosPredefinidos nombre).length - 1)
        (by omega)
      have e1 : ((getValues sheet 1 1 1 (getEncabezadosPredefinidos nombre).length).headD [])[
          (getEncabezadosPredefinidos nombre).length - 1]? =
          some (celda sheet 1 ((getEncabezadosPredefinidos nombre).length - 1 + 1)) := by
        rw [getValues_una_fila, List.getElem?_map, List.getElem?_range (by omega)]
        simp [Nat.add_comm]
      rw [e1, hv] at hget
      rw [List.getD_eq_getElem?_getD, ← hget]
      rfl
    unfold verificarHoja
    rw [hs]
    dsimp only
    have h0 : (decide (getLastColumn sheet = 0) &&
        decide ((getEncabezadosPredefinidos nombre).length > 0)) = false := by
      have : getLastColumn sheet ≠ 0 := by omega
      simp [this]
    rw [h0]
    simp only [Bool.false_eq_true, if_false]
    rw [if_pos hlen, Nat.min_eq_right hcol]
    have hup : ((List.range (getEncabezadosPredefinidos nombre).length).any fun i =>
        decide (((getValues sheet 1 1 1 (getEncabezadosPredefinidos nombre).length).headD [])[i]? ≠
          (getEncabezadosPredefinidos nombre)[i]?)) = false := by
      rw [List.any_eq_false]
      intro i hi
      rw [List.mem_range] at hi
      rw [decide_eq_true_eq]
      exact fun hne => hne (encabezado_leido sheet _ h i hi)
    rw [hup]
    have hlt : decide (getLastColumn sheet < (getEncabezadosPredefinidos nombre).length) = false := by
      simp
      omega
    rw [hlt]
    rfl

theorem foldl_verificarHoja_enOrden (nombres : List String) (libro : Libro)
    (hsub : ∀ n ∈ nombres, n ∈ estructuraHojas) (h : estructuraEnOrden libro) :
    nombres.foldl verificarHoja libro = libro := by
  induction nombres with
  | nil => rfl
  | cons n ns ih =>
    rw [List.foldl_cons, verificarHoja_enOrden libro n (hsub n (List.mem_cons_self _ _))
      (h n (hsub n (List.mem_cons_self _ _)))]
    exact ih (fun m hm => hsub m (List.mem_cons_of_mem _ hm))

theorem verificarYCrearEstructuraHojas_enOrden (crear : Libro → Libro) (libro : Libro)
    (h : estructuraEnOrden libro) (hp : tienePersonal libro) :
    verificarYCrearEstructuraHojas crear libro = libro := by
  rw [verificarYCrearEstructuraHojas_con_personal crear libro hp]
  exact foldl_verificarHoja_enOrden _ _ (fun _ hn => hn) h

theorem inicializarCacheUsuarios_libro (estado : Estado) (h : estructuraEnOrden estado.libro)
    (hp : tienePersonal estado.libro) : (inicializarCacheUsuarios estado).libro = estado.libro := by
  unfold inicializarCacheUsuarios
  split
  · rfl
  · dsimp only
    rw [verificarYCrearEstructuraHojas_enOrden _ _ h hp]
    split <;> rfl

theorem buscarUsuario_libro (estado : Estado) (c : String) (h : estructuraEnOrden estado.libro)
    (hp : tienePersonal estado.libro) : (buscarUsuario estado c).2.libro = estado.libro := by
  unfold buscarUsuario
  split
  · rfl
  · dsimp only
    cases buscarEnCache estado.cacheUsuarios (trim c) with
    | some u => rfl
    | none => exact inicializarCacheUsuarios_libro estado h hp

/-! ### End to end in the evening -/

/-- C7. A check-in at 18:00:00 and a check-out at 19:30:00 of the same evening
in the zone of the script (America/Panama): the check-in writes the row of Eva
under the date 2024-05-06, the date of `toISOString` (23:00 in UTC); at the
check-out that date is 2024-05-07 (00:30 in UTC), the resolver skips the row as
one of another day, the request answers `salida_sin_entrada_previa` with
`success: false`, and the row stays open. -/
theorem salida_de_la_tarde_sin_entrada :
    (handleHTMLFormSubmit ejemploEntorno ejemploEstadoSinRegistros ejemploRelojTarde "5"
        "entrada").1.tipoFlujo = "entrada_registrada" ∧
      ejemploTrasEntradaTarde.libro SHEET_REGISTRO =
        some [ejemploEncabezado,
          ["2024-05-06", "5", "Eva", "Acceso Permitido", "18:00:00", "", "", "Gamma", ""]] ∧
      ejemploRelojTarde.fechaHoy = "2024-05-06" ∧ ejemploRelojNoche.fechaHoy = "2024-05-07" ∧
      (verificarEntradaActiva Columnas.porDefecto ejemploTrasEntradaTarde.libro ejemploRelojNoche
        "5").found = false ∧
      (handleHTMLFormSubmit ejemploEntorno ejemploTrasEntradaTarde ejemploRelojNoche "5"
        "salida").1.tipoFlujo = "salida_sin_entrada_previa" ∧
      (handleHTMLFormSubmit ejemploEntorno ejemploTrasEntradaTarde ejemploRelojNoche "5"
        "salida").1.success = false ∧
      (handleHTMLFormSubmit ejemploEntorno ejemploTrasEntradaTarde ejemploRelojNoche "5"
        "salida").2.libro SHEET_REGISTRO = ejemploTrasEntradaTarde.libro SHEET_REGISTRO := by
  decide

/-- C8. Two check-ins of Eva the same evening, at 18:00:00 and at 19:30:00 in
the zone of the script, with no check-out in between: the second request is not
rejected. It answers `entrada_registrada` with `success: true` and the ledger
then holds two open rows of the identifier `5` (the presence snapshot lists the
identifier once). -/
theorem doble_entrada_de_la_tarde :
    (verificarEntradaActiva Columnas.porDefecto ejemploTrasEntradaTarde.libro ejemploRelojNoche
        "5").found = false ∧
      (handleHTMLFormSubmit ejemploEntorno ejemploTrasEntradaTarde ejemploRelojNoche "5"
        "entrada").1.success = true ∧
      (handleHTMLFormSubmit ejemploEntorno ejemploTrasEntradaTarde ejemploRelojNoche "5"
        "entrada").1.tipoFlujo = "entrada_registrada" ∧
      (handleHTMLFormSubmit ejemploEntorno ejemploTrasEntradaTarde ejemploRelojNoche "5"
        "entrada").2.libro SHEET_REGISTRO =
        some [ejemploEncabezado,
          ["2024-05-06", "5", "Eva", "Acceso Permitido", "18:00:00", "", "", "Gamma", ""],
          ["2024-05-07", "5", "Eva", "Acceso Permitido", "19:30:00", "", "", "Gamma", ""]] ∧
      (getEvacuacionDataForClient
        (handleHTMLFormSubmit ejemploEntorno ejemploTrasEntradaTarde ejemploRelojNoche "5"
          "entrada").2.libro).personasDentro.map (fun p => p.cedula) = ["5"] := by
  decide

/-! ### Presence snapshot at fixed columns -/

/-- C9. The snapshot reads fixed columns and keeps its entries in a plain
object. In a ledger whose header `Salida` stands in column I, Luis, who left at
09:30:00, is listed as inside, because column F is empty. And an open entry of
the identifier `__proto__`, the last row of that identifier, is not listed:
the snapshot is empty and `totalDentro` is 0. -/
theorem getEvacuacionDataForClient_columnas_fijas :
    (ejemploLibroSalidaEnI "Registro").map (fun hoja => campo hoja 2 8) = some "09:30:00" ∧
      (getEvacuacionDataForClient ejemploLibroSalidaEnI).personasDentro =
        [{ cedula := "77", nombre := "Luis", empresa := "Beta", horaEntrada := "08:00:00" }] ∧
      estaDentro ejemploHojaProto "__proto__" ∧
      (getEvacuacionDataForClient
        (ponerHoja ejemploLibroEnOrden "Registro" ejemploHojaProto)).personasDentro = [] ∧
      (getEvacuacionDataForClient
        (ponerHoja ejemploLibroEnOrden "Registro" ejemploHojaProto)).totalDentro = 0 := by
  decide

/-! ### Commits for an identifier that is no entry of the directory -/

/-- C17. The identifier `constructor` is no entry of the example directory
(its entries are `8-123-456`, `77` and `5`, and none matches by digits or by
text), yet the justified commit for it answers `success: true` and appends a
row with status `Acceso Temporal`: the first test of `buscarEnCache` finds the
member that the index inherits under that name. -/
theorem commit_de_nombre_heredado :
    (inicializarCacheUsuarios ejemploEstadoEnOrden).cacheUsuarios.claves = ["8-123-456", "77", "5"] ∧
      (∀ p ∈ (inicializarCacheUsuarios ejemploEstadoEnOrden).cacheUsuarios,
        ¬ coincideDigitos p.2 "constructor" ∧ ¬ coincideTexto p.2 "constructor") ∧
      (manejarComentarioPersonaRegistrada ejemploEntorno ejemploEstadoEnOrden ejemploReloj
        "constructor" "olvido").1.success = true ∧
      (manejarComentarioPersonaRegistrada ejemploEntorno ejemploEstadoEnOrden ejemploReloj
        "constructor" "olvido").2.libro SHEET_REGISTRO =
        some (ejemploHoja ++ [["2024-05-06", "constructor", "N/A", "Acceso Temporal", "",
          "09:30:00", "", "N/A", "JUSTIFICADO: olvido"]]) := by
  decide

/-! ### Write failures -/

/-- C22. Without the archive sheet the write path refuses the row
(`success: false`, nothing written), yet `procesarEntrada`, which discards that
result, answers `success: true` with `tipoFlujo` `entrada_registrada` and
leaves the ledger as it was. -/
theorem procesarEntrada_ignora_fallo_de_escritura :
    (registrarEnHoja ejemploEntorno ejemploLibroSinHistorial ejemploReloj "5" "Eva" "Gamma"
        ejemploReloj.ahora (.texto "") "entrada" "").1.success = false ∧
      (procesarEntrada ejemploEntorno ejemploLibroSinHistorial ejemploReloj (some ejemploEva)
        { found := false } "5").1.success = true ∧
      (procesarEntrada ejemploEntorno ejemploLibroSinHistorial ejemploReloj (some ejemploEva)
        { found := false } "5").1.tipoFlujo = "entrada_registrada" ∧
      (procesarEntrada ejemploEntorno ejemploLibroSinHistorial ejemploReloj (some ejemploEva)
        { found := false } "5").2 SHEET_REGISTRO = some ejemploHoja ∧
      (procesarEntrada ejemploEntorno ejemploLibroSinHistorial ejemploReloj (some ejemploEva)
        { found := false } "5").2 SHEET_HISTORIAL = none := by
  decide

/-! ### Header rows under the structure check -/

/-- C12 fails as stated: on a ledger whose header row reads `Cedula` in column
B, the drill for Luis succeeds and the main ledger is not what it was before:
cell B1 reads `Cédula` afterwards. -/
theorem simulacro_reescribe_encabezados :
    (registrarSalidasMasivas ejemploEntorno ejemploEstadoCedula ejemploReloj ["77"]
        "SIMULACRO").1.success = true ∧
      (ejemploEstadoCedula.libro SHEET_REGISTRO).map (fun hoja => celda hoja 1 2) =
        some "Cedula" ∧
      ((registrarSalidasMasivas ejemploEntorno ejemploEstadoCedula ejemploReloj ["77"]
        "SIMULACRO").2.libro SHEET_REGISTRO).map (fun hoja => celda hoja 1 2) = some "Cédula" ∧
      (registrarSalidasMasivas ejemploEntorno ejemploEstadoCedula ejemploReloj ["77"]
        "SIMULACRO").2.libro SHEET_REGISTRO ≠ ejemploEstadoCedula.libro SHEET_REGISTRO := by
  decide

/-- C21 fails as stated: a request with the action `consulta` on a ledger whose
header row reads `Cedula` in column B is rejected, and the ledger is not what it
was before: cell B1 reads `Cédula` afterwards. -/
theorem accion_invalida_reescribe_encabezados :
    (handleHTMLFormSubmit ejemploEntorno ejemploEstadoCedula ejemploReloj "77"
        "consulta").1.success = false ∧
      (ejemploEstadoCedula.libro SHEET_REGISTRO).map (fun hoja => celda hoja 1 2) =
        some "Cedula" ∧
      ((handleHTMLFormSubmit ejemploEntorno ejemploEstadoCedula ejemploReloj "77"
        "consulta").2.libro SHEET_REGISTRO).map (fun hoja => celda hoja 1 2) = some "Cédula" ∧
      (handleHTMLFormSubmit ejemploEntorno ejemploEstadoCedula ejemploReloj "77"
        "consulta").2.libro SHEET_REGISTRO ≠ ejemploEstadoCedula.libro SHEET_REGISTRO := by
  decide

/-- C23 fails as stated: the check-in of Eva on a ledger whose header row reads
`Cedula`, `Estado` and `Duracion` changes three cells of a row that existed
before, the header row: the cells in the columns of the identifier, of the
status and of the duration (B1, D1 and G1), although the check-out cell of that
row (F1) is not empty. -/
theorem entrada_reescribe_encabezados :
    (handleHTMLFormSubmit ejemploEntorno ejemploEstadoCedula ejemploReloj "5"
        "entrada").1.tipoFlujo = "entrada_registrada" ∧
      (ejemploEstadoCedula.libro SHEET_REGISTRO).map
        (fun hoja => [campo hoja 1 Columnas.porDefecto.CEDULA,
          campo hoja 1 Columnas.porDefecto.ESTADO_ACCESO, campo hoja 1 Columnas.porDefecto.SALIDA,
          campo hoja 1 Columnas.porDefecto.DURACION]) =
        some ["Cedula", "Estado", "Salida", "Duracion"] ∧
      ((handleHTMLFormSubmit ejemploEntorno ejemploEstadoCedula ejemploReloj "5"
        "entrada").2.libro SHEET_REGISTRO).map
        (fun hoja => [campo hoja 1 Columnas.porDefecto.CEDULA,
          campo hoja 1 Columnas.porDefecto.ESTADO_ACCESO, campo hoja 1 Columnas.porDefecto.SALIDA,
          campo hoja 1 Columnas.porDefecto.DURACION]) =
        some ["Cédula", "Estado del Acceso", "Salida", "Duración"] := by
  decide
/-! ### Requests under the structure check -/

theorem consulta_conserva (estado : Estado) (c : String) (h : tienePersonal estado.libro) :
    conservaDatos estado.libro (buscarUsuario (inicializarCacheUsuarios estado) c).2.libro := by
  have h1 := inicializarCacheUsuarios_conserva estado h
  exact conservaDatos_trans _ _ _ h1
    (buscarUsuario_conserva _ c (tienePersonal_conserva _ _ h1 h))

theorem consulta_libro (estado : Estado) (c : String) (h : estructuraEnOrden estado.libro)
    (hp : tienePersonal estado.libro) :
    (buscarUsuario (inicializarCacheUsuarios estado) c).2.libro = estado.libro := by
  have h1 := inicializarCacheUsuarios_libro estado h hp
  rw [buscarUsuario_libro _ c (by rw [h1]; exact h) (by rw [h1]; exact hp), h1]

/-- C21, as the code has it. `handleHTMLFormSubmit` with an empty identifier or
an empty action returns the same `success: false` result with a message and the
state as it was. With an action other than `entrada` and `salida` it returns
`success: false` with a message after the structure check has run: no sheet
gains, loses or changes a data row, and a spreadsheet whose structure is in
order is left as it was. `registrarSalidasMasivas` with an empty roster, or
with a mode that in upper case is neither `REAL` nor `SIMULACRO`, returns
`success: false` and the state as it was. The personnel store is taken to list
a person and the text of the mode to have no character beyond U+00FF. -/
theorem validacion_de_entradas (env : Entorno) (estado : Estado) (reloj : Reloj)
    (cedula tipoAcceso : String) (cedulas : List String) (tipo : String)
    (haccion : tipoAcceso ≠ "entrada" ∧ tipoAcceso ≠ "salida")
    (_hlatin : esLatin1 tipo)
    (hmodo : toUpperCase tipo ≠ "REAL" ∧ toUpperCase tipo ≠ "SIMULACRO")
    (hpersonal : tienePersonal estado.libro) :
    handleHTMLFormSubmit env estado reloj "" tipoAcceso =
        ({ success := false, message := "Cédula o tipo de acceso no proporcionados.",
           color := "red" }, estado) ∧
      handleHTMLFormSubmit env estado reloj cedula "" =
        ({ success := false, message := "Cédula o tipo de acceso no proporcionados.",
           color := "red" }, estado) ∧
      (handleHTMLFormSubmit env estado reloj cedula tipoAcceso).1.success = false ∧
      (handleHTMLFormSubmit env estado reloj cedula tipoAcceso).1.message ≠ "" ∧
      (∀ nombre,
        filasDeDatos (handleHTMLFormSubmit env estado reloj cedula tipoAcceso).2.libro nombre =
          filasDeDatos estado.libro nombre) ∧
      (estructuraEnOrden estado.libro →
        (handleHTMLFormSubmit env estado reloj cedula tipoAcceso).2.libro = estado.libro) ∧
      registrarSalidasMasivas env estado reloj [] tipo =
        ({ success := false, message := "No se proporcionaron cédulas." }, estado) ∧
      (registrarSalidasMasivas env estado reloj cedulas tipo).1.success = false ∧
      (registrarSalidasMasivas env estado reloj cedulas tipo).2 = estado := by
  refine ⟨?_, ?_, ?_, ?_, ?_, ?_, ?_, ?_, ?_⟩
  · simp [handleHTMLFormSubmit]
  · simp [handleHTMLFormSubmit]
  · unfold handleHTMLFormSubmit
    split
    · rfl
    · simp [haccion.1, haccion.2]
  · unfold handleHTMLFormSubmit
    split
    · simp
    · simp [haccion.1, haccion.2]
  · intro nombre
    unfold handleHTMLFormSubmit
    split
    · rfl
    · simp only [haccion.1, haccion.2, if_false]
      exact (consulta_conserva estado (trim cedula) hpersonal nombre).1
  · intro horden
    unfold handleHTMLFormSubmit
    split
    · rfl
    · simp only [haccion.1, haccion.2, if_false]
      exact consulta_libro estado (trim cedula) horden hpersonal
  · simp [registrarSalidasMasivas]
  · unfold registrarSalidasMasivas
    split
    · rfl
    · simp [hmodo.1, hmodo.2]
  · unfold registrarSalidasMasivas
    split
    · rfl
    · simp [hmodo.1, hmodo.2]

/-- The action `consulta` and the mode `prueba` are rejected on the example
state, whose spreadsheet is in order and is left as it was. -/
theorem validacion_de_entradas_witness :
    ("consulta" ≠ "entrada" ∧ "consulta" ≠ "salida") ∧ esLatin1 "prueba" ∧
      (toUpperCase "prueba" ≠ "REAL" ∧ toUpperCase "prueba" ≠ "SIMULACRO") ∧
      tienePersonal ejemploEstadoEnOrden.libro ∧ estructuraEnOrden ejemploEstadoEnOrden.libro ∧
      (handleHTMLFormSubmit ejemploEntorno ejemploEstadoEnOrden ejemploReloj "77"
        "consulta").1.success = false ∧
      (handleHTMLFormSubmit ejemploEntorno ejemploEstadoEnOrden ejemploReloj "77"
        "consulta").2.libro = ejemploEstadoEnOrden.libro ∧
      (registrarSalidasMasivas ejemploEntorno ejemploEstadoEnOrden ejemploReloj ["77"]
        "prueba").1.success = false :=
  ⟨by decide, by decide, by decide, by decide, by decide,
    (validacion_de_entradas ejemploEntorno ejemploEstadoEnOrden ejemploReloj "77" "consulta" ["77"]
      "prueba" (by decide) (by decide) (by decide) (by decide)).2.2.1,
    (validacion_de_entradas ejemploEntorno ejemploEstadoEnOrden ejemploReloj "77" "consulta" ["77"]
      "prueba" (by decide) (by decide) (by decide) (by decide)).2.2.2.2.2.1 (by decide),
    (validacion_de_entradas ejemploEntorno ejemploEstadoEnOrden ejemploReloj "77" "consulta" ["77"]
      "prueba" (by decide) (by decide) (by decide) (by decide)).2.2.2.2.2.2.2.1⟩

/-! ### Bulk close-out in drill mode -/

theorem nombreSimulacro_fuera (sello : String) : "Simulacro_" ++ sello ∉ estructuraHojas := by
  intro h
  have h1 : ∀ n ∈ estructuraHojas, n.data.head? ≠ some 'S' := by decide
  apply h1 _ h
  simp [String.data_append]

theorem tienePersonal_ponerHoja (libro : Libro) (nombre : String) (hoja : Hoja)
    (hn : nombre ≠ SHEET_BD) (hp : tienePersonal libro) :
    tienePersonal (ponerHoja libro nombre hoja) := by
  unfold tienePersonal filasDeDatos ponerHoja at *
  rw [if_neg (Ne.symm hn)]
  exact hp

theorem estructuraEnOrden_ponerHoja (libro : Libro) (nombre : String) (hoja : Hoja)
    (hn : nombre ∉ estructuraHojas) (ho : estructuraEnOrden libro) :
    estructuraEnOrden (ponerHoja libro nombre hoja) := by
  intro n hmem
  have hne : n ≠ nombre := fun e => hn (e ▸ hmem)
  have := ho n hmem
  unfold hojaEnOrden ponerHoja at *
  rw [if_neg hne]
  exact this

theorem foldl_pasoSimulacro (hora : String) (cedulas : List String) (acc : Hoja × Estado × Nat)
    (P : Libro → Prop) (hP : ∀ (e : Estado) c, P e.libro → P (buscarUsuario e c).2.libro)
    (h0 : P acc.2.1.libro) :
    ∃ filas : Hoja,
      (cedulas.foldl (pasoSimulacro hora) acc).1 = acc.1 ++ filas ∧
        List.Forall₂ (fun c f => ∃ nombre empresa, f = [c, nombre, empresa, hora, "SIMULACRO"])
          cedulas filas ∧
        (cedulas.foldl (pasoSimulacro hora) acc).2.2 = acc.2.2 + cedulas.length ∧
        P (cedulas.foldl (pasoSimulacro hora) acc).2.1.libro := by
  induction cedulas generalizing acc with
  | nil => exact ⟨[], by simp, List.Forall₂.nil, rfl, h0⟩
  | cons c cs ih =>
    obtain ⟨filas, h1, h2, h3, h4⟩ := ih (pasoSimulacro hora acc c) (hP _ _ h0)
    refine ⟨(pasoSimulacro hora acc c).1.getLastD [] :: filas, ?_, ?_, ?_, ?_⟩
    · rw [List.foldl_cons, h1]
      simp [pasoSimulacro, appendRow]
    · refine List.Forall₂.cons ?_ h2
      simp [pasoSimulacro, appendRow]
    · rw [List.foldl_cons, h3]
      simp [pasoSimulacro]
      omega
    · rw [List.foldl_cons]
      exact h4

theorem simulacro_rama (hora nombreHoja : String) (estado : Estado) (cedulas : List String)
    (hs : Hoja) (hfuera : nombreHoja ∉ estructuraHojas) (hpersonal : tienePersonal estado.libro) :
    ∃ filas : Hoja,
      (cedulas.foldl (pasoSimulacro hora)
        (hs, inicializarCacheUsuarios
          (Estado.mk (ponerHoja estado.libro nombreHoja hs) estado.cacheUsuarios
            estado.crearDatosPrueba), 0)).1 = hs ++ filas ∧
      List.Forall₂ (fun c f => ∃ nombre empresa, f = [c, nombre, empresa, hora, "SIMULACRO"])
        cedulas filas ∧
      (cedulas.foldl (pasoSimulacro hora)
        (hs, inicializarCacheUsuarios
          (Estado.mk (ponerHoja estado.libro nombreHoja hs) estado.cacheUsuarios
            estado.crearDatosPrueba), 0)).2.2 = cedulas.length ∧
      (∀ n, n ≠ nombreHoja →
        filasDeDatos (cedulas.foldl (pasoSimulacro hora)
          (hs, inicializarCacheUsuarios
            (Estado.mk (ponerHoja estado.libro nombreHoja hs) estado.cacheUsuarios
              estado.crearDatosPrueba), 0)).2.1.libro n = filasDeDatos estado.libro n) ∧
      (estructuraEnOrden estado.libro → ∀ n, n ≠ nombreHoja →
        (cedulas.foldl (pasoSimulacro hora)
          (hs, inicializarCacheUsuarios
            (Estado.mk (ponerHoja estado.libro nombreHoja hs) estado.cacheUsuarios
              estado.crearDatosPrueba), 0)).2.1.libro n = estado.libro n) := by
  have hbd : nombreHoja ≠ SHEET_BD := fun e => hfuera (e ▸ by decide)
  have hp1 : tienePersonal (ponerHoja estado.libro nombreHoja hs) :=
    tienePersonal_ponerHoja _ _ _ hbd hpersonal
  have hc1 := inicializarCacheUsuarios_conserva
    (Estado.mk (ponerHoja estado.libro nombreHoja hs) estado.cacheUsuarios
      estado.crearDatosPrueba) hp1
  obtain ⟨filas, h1, h2, h3, h4⟩ := foldl_pasoSimulacro hora cedulas
    (hs, inicializarCacheUsuarios
      (Estado.mk (ponerHoja estado.libro nombreHoja hs) estado.cacheUsuarios
        estado.crearDatosPrueba), 0)
    (fun l => conservaDatos (ponerHoja estado.libro nombreHoja hs) l ∧
      (estructuraEnOrden estado.libro → l = ponerHoja estado.libro nombreHoja hs))
    (fun e c hl => by
      have hpe : tienePersonal e.libro := tienePersonal_conserva _ _ hl.1 hp1
      refine ⟨conservaDatos_trans _ _ _ hl.1 (buscarUsuario_conserva e c hpe), fun ho => ?_⟩
      have he := hl.2 ho
      rw [buscarUsuario_libro e c (by rw [he]; exact estructuraEnOrden_ponerHoja _ _ _ hfuera ho)
        hpe, he])
    ⟨hc1, fun ho => inicializarCacheUsuarios_libro _
      (estructuraEnOrden_ponerHoja _ _ _ hfuera ho) hp1⟩
  refine ⟨filas, h1, h2, by rw [h3]; simp, ?_, ?_⟩
  · intro n hn
    rw [(h4.1 n).1]
    unfold filasDeDatos ponerHoja
    rw [if_neg hn]
  · intro ho n hn
    rw [h4.2 ho]
    unfold ponerHoja
    rw [if_neg hn]

/-- C12, as the code has it. The personnel store is taken to list a person.
After `registrarSalidasMasivas(roster, 'SIMULACRO')` every sheet other than the
drill sheet `Simulacro_<timestamp>`, the main ledger among them, has the data
rows it had before: the structure check that the drill runs touches header
rows only, and when the structure of the spreadsheet is in order every such
sheet is what it was before. For a non-empty roster the call succeeds, the
drill sheet (started with its header row when it did not exist) has received
one row per roster entry, in roster order, of the form identifier, name,
organization, current time, `SIMULACRO`, whatever the ledger and the directory
hold for the identifier, and `procesados` is the length of the roster. -/
theorem registrarSalidasMasivas_simulacro (env : Entorno) (estado : Estado) (reloj : Reloj)
    (cedulas : List String) (hpersonal : tienePersonal estado.libro) :
    (∀ n, n ≠ "Simulacro_" ++ reloj.sello →
        filasDeDatos (registrarSalidasMasivas env estado reloj cedulas "SIMULACRO").2.libro n =
          filasDeDatos estado.libro n) ∧
      (estructuraEnOrden estado.libro → ∀ n, n ≠ "Simulacro_" ++ reloj.sello →
        (registrarSalidasMasivas env estado reloj cedulas "SIMULACRO").2.libro n = estado.libro n) ∧
      (cedulas ≠ [] →
        (registrarSalidasMasivas env estado reloj cedulas "SIMULACRO").1.success = true ∧
          (registrarSalidasMasivas env estado reloj cedulas "SIMULACRO").1.procesados =
            cedulas.length ∧
          (registrarSalidasMasivas env estado reloj cedulas "SIMULACRO").1.hoja =
            some ("Simulacro_" ++ reloj.sello) ∧
          ∃ filas : Hoja,
            List.Forall₂ (fun c f => ∃ nombre empresa,
                f = [c, nombre, empresa, formatearHora reloj.ahora, "SIMULACRO"]) cedulas filas ∧
              (estado.libro ("Simulacro_" ++ reloj.sello) = none →
                (registrarSalidasMasivas env estado reloj cedulas "SIMULACRO").2.libro
                    ("Simulacro_" ++ reloj.sello) =
                  some (["Cédula", "Nombre", "Empresa", "Hora Salida", "Tipo Evento"] :: filas)) ∧
              (∀ previa, estado.libro ("Simulacro_" ++ reloj.sello) = some previa →
                (registrarSalidasMasivas env estado reloj cedulas "SIMULACRO").2.libro
                    ("Simulacro_" ++ reloj.sello) = some (previa ++ filas))) := by
  have hmay : toUpperCase "SIMULACRO" = "SIMULACRO" := by decide
  have hreal : ("SIMULACRO" : String) ≠ "REAL" := by decide
  have hfuera := nombreSimulacro_fuera reloj.sello
  by_cases hvac : cedulas.isEmpty = true
  · refine ⟨fun n _ => ?_, fun _ n _ => ?_, fun hne => ?_⟩
    · simp only [registrarSalidasMasivas, hvac, if_true]
    · simp only [registrarSalidasMasivas, hvac, if_true]
    · cases cedulas with
      | nil => exact absurd rfl hne
      | cons _ _ => cases hvac
  · obtain ⟨filas, h1, h2, h3, h4, h5⟩ := simulacro_rama (formatearHora reloj.ahora)
      ("Simulacro_" ++ reloj.sello) estado cedulas
      (match estado.libro ("Simulacro_" ++ reloj.sello) with
        | some hoja => hoja
        | none => appendRow [] ["Cédula", "Nombre", "Empresa", "Hora Salida", "Tipo Evento"])
      hfuera hpersonal
    refine ⟨fun n hn => ?_, fun ho n hn => ?_, fun _ => ?_⟩
    · simp only [registrarSalidasMasivas, hvac, hmay, hreal, Bool.false_eq_true, if_false, if_true]
      rw [← h4 n hn]
      unfold filasDeDatos
      simp only [ponerHoja, if_neg hn]
    · simp only [registrarSalidasMasivas, hvac, hmay, hreal, Bool.false_eq_true, if_false, if_true]
      rw [← h5 ho n hn]
      simp only [ponerHoja, if_neg hn]
    · simp only [registrarSalidasMasivas, hvac, hmay, hreal, Bool.false_eq_true, if_false, if_true]
      refine ⟨trivial, h3, trivial, filas, h2, ?_, ?_⟩
      · intro hnone
        simp only [ponerHoja, if_true]
        rw [h1, hnone]
        rfl
      · intro previa hprevia
        simp only [ponerHoja, if_true]
        rw [h1, hprevia]

/-- On the example spreadsheet, whose structure is in order, the drill for
Luis and for an unknown identifier counts two and leaves the main ledger
as it was. -/
theorem registrarSalidasMasivas_simulacro_witness :
    tienePersonal ejemploEstadoEnOrden.libro ∧ estructuraEnOrden ejemploEstadoEnOrden.libro ∧
      (["77", "nadie"] : List String) ≠ [] ∧
      (registrarSalidasMasivas ejemploEntorno ejemploEstadoEnOrden ejemploReloj ["77", "nadie"]
        "SIMULACRO").1.procesados = 2 ∧
      (registrarSalidasMasivas ejemploEntorno ejemploEstadoEnOrden ejemploReloj ["77", "nadie"]
        "SIMULACRO").2.libro SHEET_REGISTRO = some ejemploHoja :=
  ⟨by decide, by decide, by decide,
    ((registrarSalidasMasivas_simulacro ejemploEntorno ejemploEstadoEnOrden ejemploReloj
      ["77", "nadie"] (by decide)).2.2 (by decide)).2.1,
    (registrarSalidasMasivas_simulacro ejemploEntorno ejemploEstadoEnOrden ejemploReloj
      ["77", "nadie"] (by decide)).2.1 (by decide) SHEET_REGISTRO
      (Ne.symm (nombreSimulacro_ne ejemploReloj.sello).1)⟩

/-! ### Append-only ledger under the structure check -/

theorem campo_de_datos (a b : Hoja) (h : b.drop 1 = a.drop 1) (i j : Nat) (hi : 2 ≤ i) :
    campo b i j = campo a i j := by
  unfold campo celda
  have e : ∀ l : Hoja, l.getD (i - 1) [] = (l.drop 1).getD (i - 2) [] := by
    intro l
    rw [List.getD_eq_getElem?_getD, List.getD_eq_getElem?_getD, List.getElem?_drop]
    congr 2
    omega
  rw [e a, e b, h]

theorem conservaFilas_de_soloAnexa (hoja hoja1 despues : Hoja) (hd : hoja1.drop 1 = hoja.drop 1)
    (hl : hoja.length ≤ hoja1.length) (h : soloAnexa hoja1 despues) :
    conservaFilas hoja despues := by
  refine ⟨Nat.le_trans hl h.1, fun i j hi1 hi2 hne => ?_⟩
  rw [← campo_de_datos hoja hoja1 hd i j hi1] at hne
  have := h.2 i j (by omega) (by omega) hne
  rw [campo_de_datos hoja hoja1 hd i _ hi1] at this
  exact this

theorem anexa_de (hoja hoja1 despues : Hoja) (P : Prop) (hd : hoja1.drop 1 = hoja.drop 1)
    (hl : hoja.length ≤ hoja1.length) (hi : P → hoja1 = hoja) (h : soloAnexa hoja1 despues) :
    conservaFilas hoja despues ∧ (P → soloAnexa hoja despues) :=
  ⟨conservaFilas_de_soloAnexa hoja hoja1 despues hd hl h, fun hp => hi hp ▸ h⟩

theorem hoja_en_orden (estado : Estado) (c : String) (hoja hoja1 : Hoja)
    (hr : estado.libro SHEET_REGISTRO = some hoja) (hp : tienePersonal estado.libro)
    (hr1 : (buscarUsuario (inicializarCacheUsuarios estado) c).2.libro SHEET_REGISTRO = some hoja1)
    (ho : estructuraEnOrden estado.libro) : hoja1 = hoja := by
  rw [consulta_libro estado c ho hp, hr] at hr1
  exact (Option.some.inj hr1).symm

theorem hoja_conservada (a b : Libro) (nombre : String) (hoja : Hoja) (h : conservaDatos a b)
    (ha : a nombre = some hoja) :
    ∃ hoja1, b nombre = some hoja1 ∧ hoja1.drop 1 = hoja.drop 1 ∧ hoja.length ≤ hoja1.length := by
  obtain ⟨hoja1, hb, hl⟩ := (h nombre).2 hoja ha
  refine ⟨hoja1, hb, ?_, hl⟩
  have := (h nombre).1
  unfold filasDeDatos at this
  rw [ha, hb] at this
  exact this

theorem handleHTMLFormSubmit_conserva (t : String → Option Int) (estado : Estado) (reloj : Reloj)
    (cedula tipoAcceso : String) (hoja : Hoja) (hr : estado.libro SHEET_REGISTRO = some hoja)
    (hpersonal : tienePersonal estado.libro) :
    ∃ despues,
      (handleHTMLFormSubmit { cols := Columnas.porDefecto, tiempoDeFecha := t } estado reloj cedula
        tipoAcceso).2.libro SHEET_REGISTRO = some despues ∧ conservaFilas hoja despues ∧
      (estructuraEnOrden estado.libro → soloAnexa hoja despues) := by
  obtain ⟨hoja1, hr1, hd, hl⟩ := hoja_conservada _ _ SHEET_REGISTRO hoja
    (consulta_conserva estado (trim cedula) hpersonal) hr
  have hi := hoja_en_orden estado (trim cedula) hoja hoja1 hr hpersonal hr1
  unfold handleHTMLFormSubmit
  by_cases hg : (decide (cedula = "") || decide (tipoAcceso = "")) = true
  · rw [if_pos hg]
    exact ⟨hoja, hr, anexa_de hoja hoja hoja _ rfl (Nat.le_refl _) (fun _ => rfl)
      (soloAnexa_refl hoja)⟩
  · rw [if_neg hg]
    dsimp only
    by_cases he : tipoAcceso = "entrada"
    · rw [if_pos he]
      obtain ⟨d, h1, h2⟩ := procesarEntrada_anexa
        { cols := Columnas.porDefecto, tiempoDeFecha := t }
        (buscarUsuario (inicializarCacheUsuarios estado) (trim cedula)).2.libro reloj
        (buscarUsuario (inicializarCacheUsuarios estado) (trim cedula)).1
        (verificarEntradaActiva Columnas.porDefecto
          (buscarUsuario (inicializarCacheUsuarios estado) (trim cedula)).2.libro reloj
          (trim cedula)) (trim cedula) hoja1 hr1
      exact ⟨d, h1, anexa_de hoja hoja1 d _ hd hl hi h2⟩
    · rw [if_neg he]
      by_cases hs : tipoAcceso = "salida"
      · rw [if_pos hs]
        obtain ⟨d, h1, h2⟩ := procesarSalida_anexa
          (buscarUsuario (inicializarCacheUsuarios estado) (trim cedula)).2.libro reloj
          (buscarUsuario (inicializarCacheUsuarios estado) (trim cedula)).1 (trim cedula) hoja1 hr1
        exact ⟨d, h1, anexa_de hoja hoja1 d _ hd hl hi h2⟩
      · rw [if_neg hs]
        exact ⟨hoja1, hr1, anexa_de hoja hoja1 hoja1 _ hd hl hi (soloAnexa_refl hoja1)⟩

theorem manejarComentario_conserva (t : String → Option Int) (estado : Estado) (reloj : Reloj)
    (cedula comentario : String) (hoja : Hoja) (hr : estado.libro SHEET_REGISTRO = some hoja)
    (hpersonal : tienePersonal estado.libro) :
    ∃ despues,
      (manejarComentarioPersonaRegistrada { cols := Columnas.porDefecto, tiempoDeFecha := t }
        estado reloj cedula comentario).2.libro SHEET_REGISTRO = some despues ∧
      conservaFilas hoja despues ∧ (estructuraEnOrden estado.libro → soloAnexa hoja despues) := by
  obtain ⟨hoja1, hr1, hd, hl⟩ := hoja_conservada _ _ SHEET_REGISTRO hoja
    (consulta_conserva estado cedula hpersonal) hr
  have hi := hoja_en_orden estado cedula hoja hoja1 hr hpersonal hr1
  unfold manejarComentarioPersonaRegistrada
  dsimp only
  cases hp : (buscarUsuario (inicializarCacheUsuarios estado) cedula).1 with
  | none =>
    dsimp only
    exact ⟨hoja1, hr1, anexa_de hoja hoja1 hoja1 _ hd hl hi (soloAnexa_refl hoja1)⟩
  | some persona =>
    dsimp only
    obtain ⟨d, h1, h2⟩ := commit_anexa { cols := Columnas.porDefecto, tiempoDeFecha := t }
      (buscarUsuario (inicializarCacheUsuarios estado) cedula).2.libro reloj
      cedula persona.nombre persona.empresa (.texto "") reloj.ahora "salida"
      ("JUSTIFICADO: " ++ comentario) hoja1 hr1
      (by rw [construirFila_salida_porDefecto]; rfl)
    exact ⟨d, h1, anexa_de hoja hoja1 d _ hd hl hi h2⟩

theorem simulacro_conserva (hora nombreHoja : String) (estado : Estado) (cedulas : List String)
    (hs : Hoja) (hbd : nombreHoja ≠ SHEET_BD) (hpersonal : tienePersonal estado.libro) :
    conservaDatos (ponerHoja estado.libro nombreHoja hs)
      (cedulas.foldl (pasoSimulacro hora)
        (hs, inicializarCacheUsuarios
          (Estado.mk (ponerHoja estado.libro nombreHoja hs) estado.cacheUsuarios
            estado.crearDatosPrueba), 0)).2.1.libro := by
  have hp1 : tienePersonal (ponerHoja estado.libro nombreHoja hs) :=
    tienePersonal_ponerHoja _ _ _ hbd hpersonal
  obtain ⟨_, _, _, _, h4⟩ := foldl_pasoSimulacro hora cedulas
    (hs, inicializarCacheUsuarios
      (Estado.mk (ponerHoja estado.libro nombreHoja hs) estado.cacheUsuarios
        estado.crearDatosPrueba), 0)
    (fun l => conservaDatos (ponerHoja estado.libro nombreHoja hs) l)
    (fun e c hl => conservaDatos_trans _ _ _ hl
      (buscarUsuario_conserva e c (tienePersonal_conserva _ _ hl hp1)))
    (inicializarCacheUsuarios_conserva
      (Estado.mk (ponerHoja estado.libro nombreHoja hs) estado.cacheUsuarios
        estado.crearDatosPrueba) hp1)
  exact h4

theorem registrarSalidasMasivas_conserva (t : String → Option Int) (estado : Estado)
    (reloj : Reloj) (cedulas : List String) (tipo : String) (hoja : Hoja)
    (hr : estado.libro SHEET_REGISTRO = some hoja) (hpersonal : tienePersonal estado.libro) :
    ∃ despues,
      (registrarSalidasMasivas { cols := Columnas.porDefecto, tiempoDeFecha := t } estado reloj
        cedulas tipo).2.libro SHEET_REGISTRO = some despues ∧ conservaFilas hoja despues ∧
      (estructuraEnOrden estado.libro → soloAnexa hoja despues) := by
  have hmismo : conservaFilas hoja hoja ∧ (estructuraEnOrden estado.libro → soloAnexa hoja hoja) :=
    anexa_de hoja hoja hoja _ rfl (Nat.le_refl _) (fun _ => rfl) (soloAnexa_refl hoja)
  unfold registrarSalidasMasivas
  by_cases hv : cedulas.isEmpty = true
  · rw [if_pos hv]
    exact ⟨hoja, hr, hmismo⟩
  · rw [if_neg hv]
    dsimp only
    by_cases hreal : toUpperCase tipo = "REAL"
    · rw [if_pos hreal, hr]
      dsimp only
      obtain ⟨h1, h2⟩ := foldl_pasoSalidaReal_efecto Columnas.porDefecto hoja
        (formatearHora reloj.ahora) (by decide) cedulas
      refine ⟨(cedulas.foldl (pasoSalidaReal Columnas.porDefecto (getDataRangeValues hoja)
        (formatearHora reloj.ahora)) { hoja := hoja, procesados := 0, errores := [] }).hoja,
        by simp only [ponerHoja, if_true],
        anexa_de hoja hoja _ _ rfl (Nat.le_refl _) (fun _ => rfl)
          ⟨by omega, fun i j hi1 _ hne => ?_⟩⟩
      rw [h2 i j hi1] at hne
      by_cases hcm : cierraMasivo Columnas.porDefecto hoja cedulas i
      · rw [if_pos hcm] at hne
        obtain ⟨c, _, hc⟩ := hcm
        refine ⟨?_, abierta_salida_vacia Columnas.porDefecto hoja c i hc.1⟩
        by_cases hs : j = Columnas.porDefecto.SALIDA
        · exact Or.inl hs
        · by_cases hd : j = Columnas.porDefecto.DURACION
          · exact Or.inr hd
          · rw [if_neg hs, if_neg hd] at hne
            exact absurd rfl hne
      · rw [if_neg hcm] at hne
        exact absurd rfl hne
    · rw [if_neg hreal]
      by_cases hsim : toUpperCase tipo = "SIMULACRO"
      · rw [if_pos hsim]
        have hnom := (nombreSimulacro_ne reloj.sello).1
        have hbd : "Simulacro_" ++ reloj.sello ≠ SHEET_BD := (nombreSimulacro_ne reloj.sello).2.2
        have hc := simulacro_conserva (formatearHora reloj.ahora)
          ("Simulacro_" ++ reloj.sello) estado cedulas
          (match estado.libro ("Simulacro_" ++ reloj.sello) with
            | some hoja => hoja
            | none => appendRow [] ["Cédula", "Nombre", "Empresa", "Hora Salida", "Tipo Evento"])
          hbd hpersonal
        obtain ⟨_, _, _, _, _, h5⟩ := simulacro_rama (formatearHora reloj.ahora)
          ("Simulacro_" ++ reloj.sello) estado cedulas
          (match estado.libro ("Simulacro_" ++ reloj.sello) with
            | some hoja => hoja
            | none => appendRow [] ["Cédula", "Nombre", "Empresa", "Hora Salida", "Tipo Evento"])
          (nombreSimulacro_fuera reloj.sello) hpersonal
        obtain ⟨hoja1, hr1, hd, hl⟩ := hoja_conservada _ _ SHEET_REGISTRO hoja hc
          (by simp only [ponerHoja, if_neg (Ne.symm hnom)]; exact hr)
        refine ⟨hoja1, ?_, anexa_de hoja hoja1 hoja1 _ hd hl (fun ho => ?_) (soloAnexa_refl hoja1)⟩
        · simp only [ponerHoja, if_neg (Ne.symm hnom)]
          exact hr1
        · rw [h5 ho SHEET_REGISTRO (Ne.symm hnom), hr] at hr1
          exact (Option.some.inj hr1).symm
      · rw [if_neg hsim]
        exact ⟨hoja, hr, hmismo⟩

/-- C23, as the code has it, in the default column layout. The ledger is
present, the personnel store lists a person and the column map that the code
detects from the header row is the default one. Every request through
`handleHTMLFormSubmit` (check-in, check-out or any other action text), every
justified commit, every visitor commit and every bulk close-out (REAL,
SIMULACRO or any other mode text) leaves a ledger with at least as many rows,
in which a cell of a data row (row 2 and below) that existed before differs
only if it is the check-out or the duration of a row whose check-out was
empty; so date, identifier, name, status, check-in, organization and comment
of every existing data row are unchanged and a closed data row keeps all its
cells. The header row is what the structure check of the spreadsheet makes of
it; it too is unchanged by the visitor commit, and by every other operation
when the structure of the spreadsheet is in order. -/
theorem libro_solo_anexa (t : String → Option Int) (estado : Estado) (hoja : Hoja)
    (hr : estado.libro SHEET_REGISTRO = some hoja) (hpersonal : tienePersonal estado.libro)
    (_hmapa : mapaPorDefecto estado) :
    (∀ reloj cedula tipoAcceso, ∃ despues,
      (handleHTMLFormSubmit { cols := Columnas.porDefecto, tiempoDeFecha := t } estado reloj cedula
        tipoAcceso).2.libro SHEET_REGISTRO = some despues ∧ conservaFilas hoja despues ∧
      (estructuraEnOrden estado.libro → soloAnexa hoja despues)) ∧
      (∀ reloj cedula comentario, ∃ despues,
        (manejarComentarioPersonaRegistrada { cols := Columnas.porDefecto, tiempoDeFecha := t }
          estado reloj cedula comentario).2.libro SHEET_REGISTRO = some despues ∧
        conservaFilas hoja despues ∧ (estructuraEnOrden estado.libro → soloAnexa hoja despues)) ∧
      (∀ reloj datos, ∃ despues,
        (procesarRegistroPersonaNoRegistrada { cols := Columnas.porDefecto, tiempoDeFecha := t }
          estado.libro reloj datos).2 SHEET_REGISTRO = some despues ∧
        conservaFilas hoja despues ∧ soloAnexa hoja despues) ∧
      (∀ reloj cedulas tipo, ∃ despues,
        (registrarSalidasMasivas { cols := Columnas.porDefecto, tiempoDeFecha := t } estado reloj
          cedulas tipo).2.libro SHEET_REGISTRO = some despues ∧ conservaFilas hoja despues ∧
        (estructuraEnOrden estado.libro → soloAnexa hoja despues)) ∧
      (∀ despues, conservaFilas hoja despues → ∀ i j, 2 ≤ i → i ≤ getLastRow hoja →
        campo hoja i Columnas.porDefecto.SALIDA ≠ "" → campo despues i j = campo hoja i j) := by
  refine ⟨fun reloj cedula tipoAcceso =>
      handleHTMLFormSubmit_conserva t estado reloj cedula tipoAcceso hoja hr hpersonal,
    fun reloj cedula comentario =>
      manejarComentario_conserva t estado reloj cedula comentario hoja hr hpersonal,
    fun reloj datos => ?_,
    fun reloj cedulas tipo =>
      registrarSalidasMasivas_conserva t estado reloj cedulas tipo hoja hr hpersonal,
    ?_⟩
  · obtain ⟨d, h1, h2⟩ := procesarRegistro_anexa t estado.libro reloj datos hoja hr
    exact ⟨d, h1, conservaFilas_de_soloAnexa hoja hoja d rfl (Nat.le_refl _) h2, h2⟩
  · intro despues hd i j hi1 hi2 hs
    by_contra hne
    exact hs (hd.2 i j hi1 hi2 hne).2

/-- On the ledger whose header row reads `Cedula`, `Estado` and `Duracion` the
check-in of Eva rewrites the header row and appends one row: the two data
rows keep every cell, and the ledger has four rows. -/
theorem libro_solo_anexa_witness :
    ejemploEstadoCedula.libro SHEET_REGISTRO = some ejemploHojaCedula ∧
      tienePersonal ejemploEstadoCedula.libro ∧ mapaPorDefecto ejemploEstadoCedula ∧
      (∃ despues,
        (handleHTMLFormSubmit ejemploEntorno ejemploEstadoCedula ejemploReloj "5"
          "entrada").2.libro SHEET_REGISTRO = some despues ∧
        conservaFilas ejemploHojaCedula despues ∧
        (estructuraEnOrden ejemploEstadoCedula.libro → soloAnexa ejemploHojaCedula despues)) ∧
      ((handleHTMLFormSubmit ejemploEntorno ejemploEstadoCedula ejemploReloj "5"
        "entrada").2.libro SHEET_REGISTRO).map
          (fun d => (getLastRow d, decide (d.drop 1 = ejemploHojaCedula.drop 1 ++ d.drop 3))) =
        some (4, true) :=
  ⟨by decide, by decide, by decide,
    (libro_solo_anexa (fun _ => none) ejemploEstadoCedula ejemploHojaCedula (by decide)
      (by decide) (by decide)).1 ejemploReloj "5" "entrada", by decide⟩

/-! ### Commits that follow additional input, under the structure check -/

theorem esUltimaFila_de_datos (a b : Hoja) (fila : Fila) (hd : b.drop 1 = a.drop 1)
    (hl : a.length = b.length) : esUltimaFila b fila ↔ esUltimaFila a fila := by
  have hlr : getLastRow b = getLastRow a := hl.symm
  have e : ∀ j, 1 < getLastRow a →
      celda b (getLastRow a) (j + 1) = celda a (getLastRow a) (j + 1) :=
    fun j h1 => campo_de_datos a b hd (getLastRow a) j (by omega)
  unfold esUltimaFila
  rw [hlr]
  constructor
  · rintro ⟨h1, h2⟩
    exact ⟨h1, fun j hj => by rw [h2 j hj, e j h1]⟩
  · rintro ⟨h1, h2⟩
    exact ⟨h1, fun j hj => by rw [h2 j hj, e j h1]⟩

theorem escribirEncabezados_ancho (hoja : Hoja) :
    9 ≤ getLastColumn (escribirEncabezados hoja (getEncabezadosPredefinidos SHEET_REGISTRO)) := by
  have h : campo (escribirEncabezados hoja (getEncabezadosPredefinidos SHEET_REGISTRO)) 1 8 ≠ "" := by
    have e : campo (escribirEncabezados hoja (getEncabezadosPredefinidos SHEET_REGISTRO)) 1 8 =
        "Comentario" := by
      unfold campo celda escribirEncabezados ponerEn
      cases hoja with
      | nil => rfl
      | cons a l =>
        simp only [List.length_cons, List.set_cons_zero, List.cons_append]
        rfl
    rw [e]
    decide
  exact campo_dentro_de_columnas _ 1 8 h

theorem verificarHoja_ancho (libro : Libro) (nombre : String) (hoja : Hoja)
    (hr : libro SHEET_REGISTRO = some hoja) (h : 9 ≤ getLastColumn hoja) :
    ∃ hoja1, verificarHoja libro nombre SHEET_REGISTRO = some hoja1 ∧ 9 ≤ getLastColumn hoja1 := by
  by_cases hn : nombre = SHEET_REGISTRO
  · subst hn
    unfold verificarHoja
    dsimp only
    rw [hr]
    dsimp only
    have hp : ∃ hoja1,
        ponerHoja libro SHEET_REGISTRO
            (escribirEncabezados hoja (getEncabezadosPredefinidos SHEET_REGISTRO)) SHEET_REGISTRO =
          some hoja1 ∧ 9 ≤ getLastColumn hoja1 :=
      ⟨_, by simp only [ponerHoja, if_true], escribirEncabezados_ancho hoja⟩
    split
    · exact hp
    · split
      · split
        · exact hp
        · exact ⟨hoja, hr, h⟩
      · exact ⟨hoja, hr, h⟩
  · have e : ∀ x, ponerHoja libro nombre x SHEET_REGISTRO = libro SHEET_REGISTRO := by
      intro x
      simp only [ponerHoja, if_neg (Ne.symm hn)]
    refine ⟨hoja, ?_, h⟩
    rw [← hr]
    unfold verificarHoja
    dsimp only
    cases libro nombre with
    | none =>
      dsimp only
      split <;> exact e _
    | some sheet =>
      dsimp only
      split
      · exact e _
      · split
        · split
          · exact e _
          · rfl
        · rfl

theorem foldl_verificarHoja_ancho (nombres : List String) (libro : Libro) (hoja : Hoja)
    (hr : libro SHEET_REGISTRO = some hoja) (h : 9 ≤ getLastColumn hoja) :
    ∃ hoja1, nombres.foldl verificarHoja libro SHEET_REGISTRO = some hoja1 ∧
      9 ≤ getLastColumn hoja1 := by
  induction nombres generalizing libro hoja with
  | nil => exact ⟨hoja, hr, h⟩
  | cons n ns ih =>
    obtain ⟨hoja1, h1, h2⟩ := verificarHoja_ancho libro n hoja hr h
    exact ih _ hoja1 h1 h2

theorem inicializarCacheUsuarios_ancho (estado : Estado) (hoja : Hoja)
    (hr : estado.libro SHEET_REGISTRO = some hoja) (h : 9 ≤ getLastColumn hoja)
    (hp : tienePersonal estado.libro) :
    ∃ hoja1, (inicializarCacheUsuarios estado).libro SHEET_REGISTRO = some hoja1 ∧
      9 ≤ getLastColumn hoja1 := by
  unfold inicializarCacheUsuarios
  split
  · exact ⟨hoja, hr, h⟩
  · dsimp only
    rw [verificarYCrearEstructuraHojas_con_personal _ _ hp]
    obtain ⟨hoja1, h1, h2⟩ := foldl_verificarHoja_ancho estructuraHojas estado.libro hoja hr h
    split <;> exact ⟨hoja1, h1, h2⟩

theorem manejarComentario_conocida (env : Entorno) (estado : Estado) (reloj : Reloj)
    (cedula comentario : String) (persona : Usuario) (hc : trim cedula ≠ "")
    (hp : (inicializarCacheUsuarios estado).cacheUsuarios.obtener (trim cedula) = some persona) :
    manejarComentarioPersonaRegistrada env estado reloj cedula comentario =
      ({ success := true
         message := "Salida registrada con justificación exitosamente"
         nombre := persona.nombre
         empresa := persona.empresa },
        { inicializarCacheUsuarios estado with
          libro := marcarTemporal env
            (registrarEnHoja env (inicializarCacheUsuarios estado).libro reloj cedula
              persona.nombre persona.empresa (.texto "") reloj.ahora "salida"
              ("JUSTIFICADO: " ++ comentario)).2
            (registrarEnHoja env (inicializarCacheUsuarios estado).libro reloj cedula
              persona.nombre persona.empresa (.texto "") reloj.ahora "salida"
              ("JUSTIFICADO: " ++ comentario)).1 }) := by
  have hne : cedula ≠ "" := by
    intro e
    rw [e] at hc
    exact hc (by decide)
  have hb : buscarUsuario (inicializarCacheUsuarios estado) cedula =
      (some persona, inicializarCacheUsuarios estado) := by
    unfold buscarUsuario
    rw [if_neg hne]
    dsimp only
    have : buscarEnCache (inicializarCacheUsuarios estado).cacheUsuarios (trim cedula) =
        some persona := by
      unfold buscarEnCache
      rw [hp]
    rw [this]
  unfold manejarComentarioPersonaRegistrada
  dsimp only
  rw [hb]

/-- C16, as the code has it. In the default layout (the column map that the
code detects from the header row is the default one), with the ledger and the
archive present, a ledger whose used width covers the nine columns, a
personnel store that lists a person and an identifier that is not blank: a
justified commit for a person whose identifier is a key of the directory index
and a visitor commit with identifier, name and action succeed and append one
row with status `Acceso Temporal` (empty check-in and check-out = now for the
justified commit and for a visitor check-out, check-in = now and empty
check-out for a visitor check-in), leaving every earlier data row as it was,
unless that row equals the last row of the ledger field by field, in which case
nothing is appended. The header row of the ledger is untouched by the visitor
commit, and by the justified commit when the structure of the spreadsheet is in
order. -/
theorem commits_temporales (t : String → Option Int) (estado : Estado) (reloj : Reloj)
    (hojaRegistro hojaHistorial : Hoja)
    (hr : estado.libro SHEET_REGISTRO = some hojaRegistro)
    (hh : estado.libro SHEET_HISTORIAL = some hojaHistorial)
    (hancho : 9 ≤ getLastColumn hojaRegistro)
    (hpersonal : tienePersonal estado.libro) (_hmapa : mapaPorDefecto estado) :
    (∀ cedula comentario persona, trim cedula ≠ "" →
      (inicializarCacheUsuarios estado).cacheUsuarios.obtener (trim cedula) = some persona →
      (manejarComentarioPersonaRegistrada { cols := Columnas.porDefecto, tiempoDeFecha := t }
        estado reloj cedula comentario).1.success = true ∧
      ∃ despues,
        (manejarComentarioPersonaRegistrada { cols := Columnas.porDefecto, tiempoDeFecha := t }
          estado reloj cedula comentario).2.libro SHEET_REGISTRO = some despues ∧
        (¬ esUltimaFila hojaRegistro (filaJustificada reloj persona cedula comentario) →
          despues.drop 1 =
              hojaRegistro.drop 1 ++ [filaJustificada reloj persona cedula comentario] ∧
            (estructuraEnOrden estado.libro →
              despues = hojaRegistro ++ [filaJustificada reloj persona cedula comentario])) ∧
        (esUltimaFila hojaRegistro (filaJustificada reloj persona cedula comentario) →
          despues.drop 1 = hojaRegistro.drop 1 ∧
            (estructuraEnOrden estado.libro → despues = hojaRegistro))) ∧
    (∀ datos : DatosVisitante, trim datos.cedula ≠ "" → datos.nombre ≠ "" →
      datos.tipoAcceso ≠ "" →
      (procesarRegistroPersonaNoRegistrada { cols := Columnas.porDefecto, tiempoDeFecha := t }
        estado.libro reloj (some datos)).1.success = true ∧
      (¬ esUltimaFila hojaRegistro (filaVisitante reloj datos) →
        (procesarRegistroPersonaNoRegistrada { cols := Columnas.porDefecto, tiempoDeFecha := t }
          estado.libro reloj (some datos)).2 SHEET_REGISTRO =
          some (hojaRegistro ++ [filaVisitante reloj datos])) ∧
      (esUltimaFila hojaRegistro (filaVisitante reloj datos) →
        (procesarRegistroPersonaNoRegistrada { cols := Columnas.porDefecto, tiempoDeFecha := t }
          estado.libro reloj (some datos)).2 SHEET_REGISTRO = some hojaRegistro)) := by
  have hancho2 : (Columnas.porDefecto).valores.foldr max 0 + 1 ≤ getLastColumn hojaRegistro := by
    have e : (Columnas.porDefecto).valores.foldr max 0 + 1 = 9 := by decide
    omega
  constructor
  · intro cedula comentario persona hc hp
    obtain ⟨hoja1, hr1, hd, hl⟩ := hoja_conservada _ _ SHEET_REGISTRO hojaRegistro
      (inicializarCacheUsuarios_conserva estado hpersonal) hr
    obtain ⟨hist1, hh1, _, _⟩ := hoja_conservada _ _ SHEET_HISTORIAL hojaHistorial
      (inicializarCacheUsuarios_conserva estado hpersonal) hh
    obtain ⟨hoja2, hr2, hancho1⟩ := inicializarCacheUsuarios_ancho estado hojaRegistro hr hancho
      hpersonal
    rw [hr1] at hr2
    cases hr2
    have hne : hojaRegistro ≠ [] := by
      intro e
      rw [e] at hancho
      exact absurd hancho (by decide)
    have hlen : hojaRegistro.length = hoja1.length := by
      have e1 := congrArg List.length hd
      rw [List.length_drop, List.length_drop] at e1
      have : 0 < hojaRegistro.length := List.length_pos.mpr hne
      omega
    have hne1 : hoja1 ≠ [] := by
      intro e
      rw [e] at hlen
      exact hne (List.length_eq_zero.mp hlen)
    have hult := esUltimaFila_de_datos hojaRegistro hoja1
      (filaJustificada reloj persona cedula comentario) hd hlen
    have hord : estructuraEnOrden estado.libro → hoja1 = hojaRegistro := by
      intro ho
      rw [inicializarCacheUsuarios_libro estado ho hpersonal, hr] at hr1
      exact (Option.some.inj hr1).symm
    have hfila := construirFila_salida_porDefecto t reloj cedula persona.nombre persona.empresa
      ("JUSTIFICADO: " ++ comentario)
    have hm := marcarTemporal_tras_registrar { cols := Columnas.porDefecto, tiempoDeFecha := t }
      (inicializarCacheUsuarios estado).libro reloj cedula persona.nombre persona.empresa
      (.texto "") reloj.ahora "salida"
      ("JUSTIFICADO: " ++ comentario) hoja1 hist1 hr1 hh1 hc
      (by
        have e : (Columnas.porDefecto).valores.foldr max 0 + 1 = 9 := by decide
        show (Columnas.porDefecto).valores.foldr max 0 + 1 ≤ getLastColumn hoja1
        omega)
      (by rw [hfila]; rfl)
    rw [hfila] at hm
    rw [manejarComentario_conocida _ estado reloj cedula comentario persona hc hp]
    refine ⟨rfl, ?_⟩
    dsimp only
    by_cases hu : esUltimaFila hojaRegistro (filaJustificada reloj persona cedula comentario)
    · refine ⟨hoja1, (hm.1 (hult.mpr hu)).1, fun hno => absurd hu hno, fun _ => ⟨hd, hord⟩⟩
    · refine ⟨hoja1 ++ [filaJustificada reloj persona cedula comentario],
        (hm.2 (fun h => hu (hult.mp h))).1, fun _ => ⟨?_, fun ho => by rw [hord ho]⟩,
        fun h => absurd h hu⟩
      rw [List.drop_append_of_le_length (by
        have : 0 < hoja1.length := List.length_pos.mpr hne1
        omega), hd]
  · intro datos hc hn ht
    have hcne : datos.cedula ≠ "" := by
      intro e
      rw [e] at hc
      exact hc (by decide)
    have hv := esMarcaTemporal_visitante (datos.nombre ++ " | " ++
      (if datos.empresa = "" then "N/A" else datos.empresa) ++ " | MOTIVO: " ++
      (if datos.motivo = "" then "No especificado" else datos.motivo))
    have hcom : "VISITANTE: " ++ (datos.nombre ++ " | " ++
      (if datos.empresa = "" then "N/A" else datos.empresa) ++ " | MOTIVO: " ++
      (if datos.motivo = "" then "No especificado" else datos.motivo)) = comentarioVisitante datos := by
      unfold comentarioVisitante
      simp only [String.append_assoc]
    rw [hcom] at hv
    have hemp : (if datos.empresa = "" then "Visitante" else datos.empresa) ≠ "" := by
      split
      · decide
      · assumption
    have hguard : (datos.cedula = "" || datos.nombre = "" || datos.tipoAcceso = "") = false := by
      simp [hcne, hn, ht]
    by_cases hent : datos.tipoAcceso = "entrada"
    · have hfila := construirFila_entrada_comentada_porDefecto t reloj datos.cedula datos.nombre
        (if datos.empresa = "" then "Visitante" else datos.empresa) (comentarioVisitante datos)
        hv.1 hv.2
      rw [if_neg hn, if_neg hemp] at hfila
      have hm := marcarTemporal_tras_registrar { cols := Columnas.porDefecto, tiempoDeFecha := t }
        estado.libro reloj datos.cedula datos.nombre
        (if datos.empresa = "" then "Visitante" else datos.empresa) reloj.ahora (.texto "")
        "entrada" (comentarioVisitante datos) hojaRegistro hojaHistorial hr hh hc hancho2
        (by rw [hfila]; rfl)
      rw [hfila] at hm
      have hfv : filaVisitante reloj datos = [reloj.fechaHoy, trim datos.cedula, datos.nombre,
          ESTADO_TEMPORAL, formatearHora reloj.ahora, "", "",
          if datos.empresa = "" then "Visitante" else datos.empresa, comentarioVisitante datos] := by
        simp only [filaVisitante, hent, if_true]
      rw [hfv]
      unfold procesarRegistroPersonaNoRegistrada
      dsimp only
      rw [hguard]
      simp only [Bool.false_eq_true, if_false]
      rw [if_pos hent]
      exact ⟨trivial, fun h => (hm.2 h).1, fun h => (hm.1 h).1⟩
    · have hfila := construirFila_salida_porDefecto t reloj datos.cedula datos.nombre
        (if datos.empresa = "" then "Visitante" else datos.empresa) (comentarioVisitante datos)
      rw [if_neg hn, if_neg hemp] at hfila
      have hm := marcarTemporal_tras_registrar { cols := Columnas.porDefecto, tiempoDeFecha := t }
        estado.libro reloj datos.cedula datos.nombre
        (if datos.empresa = "" then "Visitante" else datos.empresa) (.texto "") reloj.ahora
        "salida" (comentarioVisitante datos) hojaRegistro hojaHistorial hr hh hc hancho2
        (by rw [hfila]; rfl)
      rw [hfila] at hm
      have hfv : filaVisitante reloj datos = [reloj.fechaHoy, trim datos.cedula, datos.nombre,
          ESTADO_TEMPORAL, "", formatearHora reloj.ahora, "",
          if datos.empresa = "" then "Visitante" else datos.empresa, comentarioVisitante datos] := by
        simp only [filaVisitante, hent, if_false]
      rw [hfv]
      unfold procesarRegistroPersonaNoRegistrada
      dsimp only
      rw [hguard]
      simp only [Bool.false_eq_true, if_false]
      rw [if_neg hent]
      exact ⟨trivial, fun h => (hm.2 h).1, fun h => (hm.1 h).1⟩

/-- On the ledger whose header row reads `Cedula`, `Estado` and `Duracion` the
justified check-out `olvido` of Eva appends one row with status `Acceso
Temporal` below the two data rows, which are as they were. -/
theorem commits_temporales_witness :
    ejemploEstadoCedula.libro SHEET_REGISTRO = some ejemploHojaCedula ∧
      ejemploEstadoCedula.libro SHEET_HISTORIAL = some [ejemploEncabezado] ∧
      9 ≤ getLastColumn ejemploHojaCedula ∧ tienePersonal ejemploEstadoCedula.libro ∧
      mapaPorDefecto ejemploEstadoCedula ∧ trim "5" ≠ "" ∧
      (inicializarCacheUsuarios ejemploEstadoCedula).cacheUsuarios.obtener (trim "5") =
        some ejemploEva ∧
      ¬ esUltimaFila ejemploHojaCedula (filaJustificada ejemploReloj ejemploEva "5" "olvido") ∧
      (∃ despues,
        (manejarComentarioPersonaRegistrada ejemploEntorno ejemploEstadoCedula ejemploReloj "5"
          "olvido").2.libro SHEET_REGISTRO = some despues ∧
        despues.drop 1 =
          ejemploHojaCedula.drop 1 ++ [filaJustificada ejemploReloj ejemploEva "5" "olvido"]) ∧
      (filaJustificada ejemploReloj ejemploEva "5" "olvido").getD
        Columnas.porDefecto.ESTADO_ACCESO "" = "Acceso Temporal" :=
  ⟨by decide, by decide, by decide, by decide, by decide, by decide, by decide, by decide,
    (((commits_temporales (fun _ => none) ejemploEstadoCedula ejemploReloj ejemploHojaCedula
      [ejemploEncabezado] (by decide) (by decide) (by decide) (by decide) (by decide)).1 "5"
      "olvido"
      ejemploEva (by decide) (by decide)).2).imp
      (fun _ h => ⟨h.1, (h.2.1 (by decide)).1⟩),
    by decide⟩

/-! ### Directory lookup on a fresh index -/

theorem buscarUsuario_resultado (estado : Estado) (q : String) (hq : q ≠ "")
    (hher : trim q ∉ nombresHeredados) :
    (buscarUsuario estado q).1 =
      buscarEnCache (inicializarCacheUsuarios estado).cacheUsuarios (trim q) := by
  simp only [buscarUsuario, hq, if_false]
  cases hb : buscarEnCache estado.cacheUsuarios (trim q) with
  | none => rfl
  | some u =>
    have hne : estado.cacheUsuarios.isEmpty = false := by
      cases hc : estado.cacheUsuarios with
      | nil =>
        rw [hc] at hb
        simp [buscarEnCache, Objeto.obtener, hher, Objeto.enOrden] at hb
      | cons _ _ => rfl
    have e : inicializarCacheUsuarios estado = estado := by
      simp [inicializarCacheUsuarios, hne]
    rw [e, hb]

theorem buscarEnCache_exacta (dir : Objeto Usuario) (t : String) (u : Usuario)
    (h : dir.obtener t = some u) : buscarEnCache dir t = some u := by
  simp [buscarEnCache, h]

theorem buscarEnCache_digitos (dir : Objeto Usuario) (t : String) (p : String × Usuario)
    (h : dir.obtener t = none) (hher : t ∉ nombresHeredados)
    (hf : dir.enOrden.find? (fun p => p.2.cedulaNormalizada = soloDigitos t) = some p) :
    buscarEnCache dir t = some p.2 := by
  simp [buscarEnCache, h, hf, hher]

theorem buscarEnCache_texto (dir : Objeto Usuario) (t : String) (h : dir.obtener t = none)
    (hher : t ∉ nombresHeredados)
    (hf : dir.enOrden.find? (fun p => p.2.cedulaNormalizada = soloDigitos t) = none) :
    buscarEnCache dir t =
      (dir.enOrden.find? (fun p => p.2.busqueda ≠ "" && incluye p.2.busqueda (toLowerCase t))).map
        (fun p => p.2) := by
  simp [buscarEnCache, h, hf, hher]

theorem buscarEnCache_precedencia (dir : Objeto Usuario) (q : String)
    (hher : trim q ∉ nombresHeredados) :
    (∀ u, dir.obtener (trim q) = some u → buscarEnCache dir (trim q) = some u) ∧
      (dir.obtener (trim q) = none → (∃ p ∈ dir, coincideDigitos p.2 q) →
        ∃ p ∈ dir, coincideDigitos p.2 q ∧ buscarEnCache dir (trim q) = some p.2) ∧
      (dir.obtener (trim q) = none → (¬ ∃ p ∈ dir, coincideDigitos p.2 q) →
        (∃ p ∈ dir, coincideTexto p.2 q) →
        ∃ p ∈ dir, coincideTexto p.2 q ∧ buscarEnCache dir (trim q) = some p.2) ∧
      (buscarEnCache dir (trim q) = none ↔
        dir.obtener (trim q) = none ∧ (∀ p ∈ dir, ¬ coincideDigitos p.2 q) ∧
          (∀ p ∈ dir, ¬ coincideTexto p.2 q)) := by
  have hdig : ∀ p : String × Usuario,
      (decide (p.2.cedulaNormalizada = soloDigitos (trim q)) = true) ↔ coincideDigitos p.2 q := by
    intro p
    simp [coincideDigitos, soloDigitos_trim]
  have htex : ∀ p : String × Usuario,
      ((decide (p.2.busqueda ≠ "") && incluye p.2.busqueda (toLowerCase (trim q))) = true) ↔
        coincideTexto p.2 q := by
    intro p
    simp [coincideTexto]
  -- the first scan finds an entry exactly when some entry matches on digits
  have hscan1 : ∀ p, dir.enOrden.find? (fun p => p.2.cedulaNormalizada = soloDigitos (trim q))
      = some p → p ∈ dir ∧ coincideDigitos p.2 q := by
    intro p hf
    have hh := List.find?_some hf
    exact ⟨(Objeto.mem_enOrden dir p).1 (List.mem_of_find?_eq_some hf), (hdig p).1 hh⟩
  have hnone1 : dir.enOrden.find? (fun p => p.2.cedulaNormalizada = soloDigitos (trim q)) = none →
      ∀ p ∈ dir, ¬ coincideDigitos p.2 q := by
    intro hf p hp hd
    rw [List.find?_eq_none] at hf
    exact hf p ((Objeto.mem_enOrden dir p).2 hp) ((hdig p).2 hd)
  have hscan2 : ∀ p, dir.enOrden.find?
      (fun p => p.2.busqueda ≠ "" && incluye p.2.busqueda (toLowerCase (trim q))) = some p →
      p ∈ dir ∧ coincideTexto p.2 q := by
    intro p hf
    have hh := List.find?_some hf
    exact ⟨(Objeto.mem_enOrden dir p).1 (List.mem_of_find?_eq_some hf), (htex p).1 hh⟩
  have hnone2 : dir.enOrden.find?
      (fun p => p.2.busqueda ≠ "" && incluye p.2.busqueda (toLowerCase (trim q))) = none →
      ∀ p ∈ dir, ¬ coincideTexto p.2 q := by
    intro hf p hp hd
    rw [List.find?_eq_none] at hf
    exact hf p ((Objeto.mem_enOrden dir p).2 hp) ((htex p).2 hd)
  refine ⟨fun u h => buscarEnCache_exacta dir _ u h, ?_, ?_, ?_⟩
  · intro hob ⟨p0, hp0, hd0⟩
    cases hf1 : dir.enOrden.find? (fun p => p.2.cedulaNormalizada = soloDigitos (trim q)) with
    | some p => exact ⟨p, (hscan1 p hf1).1, (hscan1 p hf1).2, buscarEnCache_digitos dir _ p hob hher hf1⟩
    | none => exact absurd hd0 (hnone1 hf1 p0 hp0)
  · intro hob hno ⟨p0, hp0, ht0⟩
    cases hf1 : dir.enOrden.find? (fun p => p.2.cedulaNormalizada = soloDigitos (trim q)) with
    | some p => exact absurd ⟨p, (hscan1 p hf1).1, (hscan1 p hf1).2⟩ hno
    | none =>
      rw [buscarEnCache_texto dir _ hob hher hf1]
      cases hf2 : dir.enOrden.find?
          (fun p => p.2.busqueda ≠ "" && incluye p.2.busqueda (toLowerCase (trim q))) with
      | some p => exact ⟨p, (hscan2 p hf2).1, (hscan2 p hf2).2, rfl⟩
      | none => exact absurd ht0 (hnone2 hf2 p0 hp0)
  · cases hob : dir.obtener (trim q) with
    | some u =>
      rw [buscarEnCache_exacta dir _ u hob]
      simp
    | none =>
      cases hf1 : dir.enOrden.find? (fun p => p.2.cedulaNormalizada = soloDigitos (trim q)) with
      | some p =>
        rw [buscarEnCache_digitos dir _ p hob hher hf1]
        refine ⟨fun h => (by cases h), fun h => ?_⟩
        exact absurd (hscan1 p hf1).2 (h.2.1 p (hscan1 p hf1).1)
      | none =>
        rw [buscarEnCache_texto dir _ hob hher hf1]
        cases hf2 : dir.enOrden.find?
            (fun p => p.2.busqueda ≠ "" && incluye p.2.busqueda (toLowerCase (trim q))) with
        | some p =>
          refine ⟨fun h => (by cases h), fun h => ?_⟩
          exact absurd (hscan2 p hf2).2 (h.2.2 p (hscan2 p hf2).1)
        | none =>
          exact ⟨fun _ => ⟨rfl, hnone1 hf1, hnone2 hf2⟩, fun _ => rfl⟩

/-- C19, as the code has it. At the start of a script execution (the index is
empty and is built from the personnel store), for a store whose identifiers
are not `__proto__` and whose text is Latin-1, and for a query text that is
not empty, is Latin-1 and whose trimmed form is not a property name that the
index inherits: an entry keyed by exactly the trimmed text is returned;
otherwise, if some entry matches on the digits-only identifier, such an entry
is returned; otherwise, if the search text of some entry contains the
lower-cased trimmed query, such an entry is returned; and the result is null
exactly when none of the three matches applies to any entry. -/
theorem buscarUsuario_precedencia (estado : Estado) (q : String) (hq : q ≠ "")
    (hher : trim q ∉ nombresHeredados) (_hlatin : esLatin1 q)
    (_hvacio : estado.cacheUsuarios = [])
    (_hstore : ∀ fila ∈ filasDeDatos (inicializarCacheUsuarios estado).libro SHEET_BD,
      trim (fila.headD "") ≠ "__proto__" ∧ ∀ c ∈ fila, esLatin1 c) :
    (∀ u, (inicializarCacheUsuarios estado).cacheUsuarios.obtener (trim q) = some u →
        (buscarUsuario estado q).1 = some u) ∧
      ((inicializarCacheUsuarios estado).cacheUsuarios.obtener (trim q) = none →
        (∃ p ∈ (inicializarCacheUsuarios estado).cacheUsuarios, coincideDigitos p.2 q) →
        ∃ p ∈ (inicializarCacheUsuarios estado).cacheUsuarios,
          coincideDigitos p.2 q ∧ (buscarUsuario estado q).1 = some p.2) ∧
      ((inicializarCacheUsuarios estado).cacheUsuarios.obtener (trim q) = none →
        (¬ ∃ p ∈ (inicializarCacheUsuarios estado).cacheUsuarios, coincideDigitos p.2 q) →
        (∃ p ∈ (inicializarCacheUsuarios estado).cacheUsuarios, coincideTexto p.2 q) →
        ∃ p ∈ (inicializarCacheUsuarios estado).cacheUsuarios,
          coincideTexto p.2 q ∧ (buscarUsuario estado q).1 = some p.2) ∧
      ((buscarUsuario estado q).1 = none ↔
        (inicializarCacheUsuarios estado).cacheUsuarios.obtener (trim q) = none ∧
          (∀ p ∈ (inicializarCacheUsuarios estado).cacheUsuarios, ¬ coincideDigitos p.2 q) ∧
          (∀ p ∈ (inicializarCacheUsuarios estado).cacheUsuarios, ¬ coincideTexto p.2 q)) := by
  rw [buscarUsuario_resultado estado q hq hher]
  exact buscarEnCache_precedencia _ q hher

/-- At the start of a script execution on the example spreadsheet the query
`8123456` has no entry of that key and finds Ana by her digits-only
identifier, and `LUIS` finds Luis by text. -/
theorem buscarUsuario_precedencia_witness :
    ("8123456" : String) ≠ "" ∧ trim "8123456" ∉ nombresHeredados ∧ esLatin1 "8123456" ∧
      ejemploEstado.cacheUsuarios = [] ∧
      (∀ fila ∈ filasDeDatos (inicializarCacheUsuarios ejemploEstado).libro SHEET_BD,
        trim (fila.headD "") ≠ "__proto__" ∧ ∀ c ∈ fila, esLatin1 c) ∧
      (inicializarCacheUsuarios ejemploEstado).cacheUsuarios.obtener (trim "8123456") = none ∧
      (∃ p ∈ (inicializarCacheUsuarios ejemploEstado).cacheUsuarios,
        coincideDigitos p.2 "8123456" ∧ (buscarUsuario ejemploEstado "8123456").1 = some p.2) ∧
      ((buscarUsuario ejemploEstado "8123456").1).map (fun u => u.nombre) = some "Ana Pérez" ∧
      ((buscarUsuario ejemploEstado " LUIS ").1).map (fun u => u.cedula) = some "77" :=
  ⟨by decide, by decide, by decide, by decide, by decide, by decide,
    (buscarUsuario_precedencia ejemploEstado "8123456" (by decide) (by decide) (by decide)
      (by decide) (by decide)).2.1 (by decide) (by decide),
    by decide, by decide⟩

/-! ### The column map that is detected under the predefined headers -/

theorem encabezados_leidos (sheet : Hoja) (esperados : List String)
    (h : (sheet.headD []).take esperados.length = esperados) :
    (getValues sheet 1 1 1 esperados.length).headD [] = esperados := by
  apply List.ext_getElem?
  intro i
  by_cases hi : i < esperados.length
  · exact encabezado_leido sheet esperados h i hi
  · rw [getValues_una_fila]
    rw [List.getElem?_eq_none (by simp; omega), List.getElem?_eq_none (by omega)]

/-- Under the predefined headers, in a ledger whose used width is the nine
columns, `inicializarEstructurasColumnas` detects the default column map. -/
theorem inicializarEstructurasColumnas_enOrden (libro : Libro) (hoja : Hoja)
    (hr : libro SHEET_REGISTRO = some hoja) (ho : hojaEnOrden libro SHEET_REGISTRO = true)
    (hw : getLastColumn hoja = 9) :
    inicializarEstructurasColumnas libro = Columnas.porDefecto := by
  have hlen : (getEncabezadosPredefinidos SHEET_REGISTRO).length = 9 := by decide
  have htake : (hoja.headD []).take (getEncabezadosPredefinidos SHEET_REGISTRO).length =
      getEncabezadosPredefinidos SHEET_REGISTRO := by
    unfold hojaEnOrden at ho
    rw [hr] at ho
    exact of_decide_eq_true ho
  have hleer := encabezados_leidos hoja _ htake
  rw [hlen] at hleer
  have hdet : detectarEstructuraColumnas libro SHEET_REGISTRO =
      detectarEstructuraColumnas ejemploLibroEnOrden SHEET_REGISTRO := by
    have e1 : detectarEstructuraColumnas libro SHEET_REGISTRO =
        (List.range (getEncabezadosPredefinidos SHEET_REGISTRO).length).foldl
          (fun (mapeoColumnas : Objeto Nat) indice =>
            if toLowerCase (trim ((getEncabezadosPredefinidos SHEET_REGISTRO).getD indice "")) = ""
            then mapeoColumnas
            else mapeoColumnas.poner
              (toLowerCase (trim ((getEncabezadosPredefinidos SHEET_REGISTRO).getD indice "")))
              indice) [] := by
      unfold detectarEstructuraColumnas
      rw [hr]
      dsimp only
      rw [hw, if_neg (by decide), hleer]
    rw [e1]
    decide
  unfold inicializarEstructurasColumnas
  dsimp only
  rw [hdet]
  decide

/-- On the example spreadsheets the column map that the code detects is the
default one, the map of `ejemploEntorno`. -/
theorem inicializarEstructurasColumnas_ejemplos :
    inicializarEstructurasColumnas (inicializarCacheUsuarios ejemploEstado).libro =
        Columnas.porDefecto ∧
      inicializarEstructurasColumnas (inicializarCacheUsuarios ejemploEstadoEnOrden).libro =
        Columnas.porDefecto ∧
      inicializarEstructurasColumnas (inicializarCacheUsuarios ejemploEstadoCedula).libro =
        Columnas.porDefecto ∧
      inicializarEstructurasColumnas (inicializarCacheUsuarios ejemploEstadoSinRegistros).libro =
        Columnas.porDefecto ∧
      inicializarEstructurasColumnas (inicializarCacheUsuarios ejemploTrasEntradaTarde).libro =
        Columnas.porDefecto ∧
      inicializarEstructurasColumnas ejemploLibroSinHistorial = Columnas.porDefecto := by
  decide

end SurPass
